import Mathlib

/-!
# Host-metrics scrapers: a shallow embedding and its checked properties

The Go sources embedded here are the CPU scraper (`cpu_scraper.go`), the Windows disk
scraper (`disk_scraper_windows.go`), the Linux part of the disk scraper
(`disk_scraper_others_linux.go`), the Windows paging scraper
(`paging_scraper_windows.go`) and the Linux process scraper (`process_scraper_linux.go`)
of the host-metrics receiver, the retry helper of the Datadog exporter (`http.go`), the
metric translator of the StatsD receiver (`metric_translator.go`) and the label values of
the Cloud Spanner receiver (`labelvalue.go`).

Conventions of the embedding

* Go's `uint64` values are natural numbers; an operation that can leave the range is
  followed by an explicit `% 2 ^ 64`.
* A Go function returning `(T, error)` returns `Except ε T`; a function returning only
  `error` returns `Option ε` (`none` is Go's `nil`).
* Reads of the operating system (boot time, CPU times, page-file statistics, the
  performance-counter backend, the wall clock) are effects.  They are functions on an
  explicit environment `ω` which they may change; a scraper method takes the environment
  and returns the environment it leaves behind, next to its Go results and the receiver.
* `float64` is a type parameter `F` wherever the code only carries such values around;
  where it computes with them the operations come from a record `Float64Ops F`, whose
  instance `Float64.ieee` rounds every result to the nearest `float64`; the StatsD
  translator takes its further operations from `Float64Math F`.
* A Go function that can panic (an index out of range, a failed type assertion) returns
  an `Option`, with `none` for the panic.
* Code the sources call but do not contain (the metric catalog, the scrape-error library,
  the performance-counter backend, two data-point helpers) is either a parameter or a
  definition marked as modelled from the specification.
-/

namespace HostMetrics

/-! ## The metrics data model (`pdata`) -/

/-- The `pdata.Timestamp` type: nanoseconds since the Unix epoch, a `uint64`. -/
abbrev Timestamp := Nat

/-- The number of `uint64` values, `2 ^ 64`. -/
def uint64Size : Nat := 2 ^ 64

/-- The attribute map of a data point, in insertion order. -/
abbrev AttributeMap := List (String × String)

/-- The keys of an attribute map, in insertion order. -/
def AttributeMap.keys (m : AttributeMap) : List String := m.map Prod.fst

/-- The `InsertString` method of an attribute map: the pair is added when the key is not
yet in the map, and nothing happens when it is. -/
def AttributeMap.InsertString (m : AttributeMap) (k v : String) : AttributeMap :=
  if m.any (fun kv => kv.1 == k) then m else m ++ [(k, v)]

/-- The value held by a number data point: nothing yet, an `int64`, or a `float64`. -/
inductive NumberValue (F : Type) where
  | unset : NumberValue F
  | intVal (v : Int) : NumberValue F
  | doubleVal (v : F) : NumberValue F
  deriving DecidableEq, Repr

/-- The `pdata.NumberDataPoint` record.  A fresh point (as returned by `AppendEmpty`) has
no attributes, both timestamps zero and no value. -/
structure NumberDataPoint (F : Type) where
  attributes : AttributeMap := []
  startTimestamp : Timestamp := 0
  timestamp : Timestamp := 0
  value : NumberValue F := NumberValue.unset
  deriving DecidableEq, Repr

/-- The point that `AppendEmpty` adds to a data-point slice. -/
def NumberDataPoint.fresh {F : Type} : NumberDataPoint F := {}

/-- Method `SetStartTimestamp` of a data point. -/
def NumberDataPoint.SetStartTimestamp {F : Type} (dp : NumberDataPoint F) (t : Timestamp) :
    NumberDataPoint F :=
  { dp with startTimestamp := t }

/-- Method `SetTimestamp` of a data point. -/
def NumberDataPoint.SetTimestamp {F : Type} (dp : NumberDataPoint F) (t : Timestamp) :
    NumberDataPoint F :=
  { dp with timestamp := t }

/-- Method `SetIntVal` of a data point. -/
def NumberDataPoint.SetIntVal {F : Type} (dp : NumberDataPoint F) (v : Int) :
    NumberDataPoint F :=
  { dp with value := NumberValue.intVal v }

/-- Method `SetDoubleVal` of a data point. -/
def NumberDataPoint.SetDoubleVal {F : Type} (dp : NumberDataPoint F) (v : F) :
    NumberDataPoint F :=
  { dp with value := NumberValue.doubleVal v }

/-- Modelled from the spec: the Metric Catalog (package `metadata` of each scraper, not
among the sources).  An entry stands for the immutable definition (name, unit, shape) that
`metadata.Metrics.<Entry>.Init` writes into a metric. -/
inductive MetricDefinition where
  | SystemCPUTime
  | SystemDiskIo
  | SystemDiskOperations
  | SystemDiskIoTime
  | SystemDiskOperationTime
  | SystemDiskPendingOperations
  | SystemPagingUsage
  | SystemPagingOperations
  | SystemDiskWeightedIoTime
  | SystemDiskMerged
  deriving DecidableEq, Repr

/-- The `pdata.Metric` record: the catalog entry it was initialised with, if any, and its
data points (`metric.Sum().DataPoints()`). -/
structure Metric (F : Type) where
  definition : Option MetricDefinition := none
  dataPoints : List (NumberDataPoint F) := []
  deriving DecidableEq, Repr

/-- The metric that `AppendEmpty` adds to a metric slice. -/
def Metric.fresh {F : Type} : Metric F := {}

/-- Modelled from the spec: `metadata.Metrics.<Entry>.Init(metric)` stamps the metric with
the catalog entry and leaves its (empty) point collection alone. -/
def MetricDefinition.Init {F : Type} (d : MetricDefinition) (metric : Metric F) : Metric F :=
  { metric with definition := some d }

/-- One `InstrumentationLibraryMetrics` entry of a batch. -/
structure InstrumentationLibraryMetrics (F : Type) where
  metrics : List (Metric F) := []
  deriving DecidableEq, Repr

/-- One `ResourceMetrics` entry of a batch. -/
structure ResourceMetrics (F : Type) where
  instrumentationLibraryMetrics : List (InstrumentationLibraryMetrics F) := []
  deriving DecidableEq, Repr

/-- The `pdata.Metrics` batch. -/
structure Metrics (F : Type) where
  resourceMetrics : List (ResourceMetrics F) := []
  deriving DecidableEq, Repr

/-- The batch every `scrape` builds: `pdata.NewMetrics()` with one resource entry and one
instrumentation-library entry appended, the latter holding the metric slice `ms` that the
scrape fills in. -/
def Metrics.withMetrics {F : Type} (ms : List (Metric F)) : Metrics F :=
  { resourceMetrics := [{ instrumentationLibraryMetrics := [{ metrics := ms }] }] }

/-- All metrics of a batch, over all its resource and library entries. -/
def Metrics.allMetrics {F : Type} (md : Metrics F) : List (Metric F) :=
  md.resourceMetrics.flatMap
    (fun rm => rm.instrumentationLibraryMetrics.flatMap (fun ilm => ilm.metrics))

/-- Method `MetricCount` of a batch. -/
def Metrics.MetricCount {F : Type} (md : Metrics F) : Nat := md.allMetrics.length

/-! ## Scrape errors (`scrapererror`) -/

/-- Modelled from the spec: the error a `scrape` can return.  It is either an ordinary
(fatal) error, or a partial-scrape error exposing a cause description (the underlying
errors, in order) and the count of metrics that could not be produced. -/
inductive ScrapeError (ε : Type) where
  | fatal (cause : ε) : ScrapeError ε
  | partialScrape (causes : List ε) (Failed : Nat) : ScrapeError ε
  deriving DecidableEq, Repr

/-- Modelled from the spec: `scrapererror.NewPartialScrapeError(err, failed)`. -/
def NewPartialScrapeError {ε : Type} (err : ε) (failed : Nat) : ScrapeError ε :=
  ScrapeError.partialScrape [err] failed

/-- Modelled from the spec: `scrapererror.IsPartialScrapeError`. -/
def IsPartialScrapeError {ε : Type} : Option (ScrapeError ε) → Bool
  | some (ScrapeError.partialScrape _ _) => true
  | _ => false

/-- Whether the returned error is a fatal one: an error that is not of the partial-scrape
kind. -/
def IsFatalScrapeError {ε : Type} : Option (ScrapeError ε) → Bool
  | some (ScrapeError.fatal _) => true
  | _ => false

/-- Modelled from the spec: the Partial-Failure Aggregator (`scrapererror.ScrapeErrors`),
the records (expected metric count, error) added so far in one scrape. -/
structure ScrapeErrors (ε : Type) where
  records : List (Nat × ε) := []
  deriving DecidableEq, Repr

/-- Modelled from the spec: `AddPartial(failed, err)` records (failed, err). -/
def ScrapeErrors.AddPartial {ε : Type} (s : ScrapeErrors ε) (failed : Nat) (err : ε) :
    ScrapeErrors ε :=
  { records := s.records ++ [(failed, err)] }

/-- Modelled from the spec: `Combine()`.  With no record the scrape reports success; with
records, one error exposing the sum of the counts and the causes in order. -/
def ScrapeErrors.Combine {ε : Type} (s : ScrapeErrors ε) : Option (ScrapeError ε) :=
  match s.records with
  | [] => none
  | r :: rs =>
      some (ScrapeError.partialScrape ((r :: rs).map Prod.snd) ((r :: rs).map Prod.fst).sum)

/-! ## Results of effectful methods -/

/-- What a method call leaves behind: its Go results `ret`, the receiver `self` after the
call, and the environment `world` after the call. -/
structure Step (ρ σ ω : Type) where
  ret : ρ
  self : σ
  world : ω

/-! ## Labels of the metric catalog (`metadata`) -/

namespace metadata

/-- Modelled from the spec: the attribute key `metadata.Attributes.Cpu`. -/
def Attributes.Cpu : String := "cpu"
/-- Modelled from the spec: the attribute key `metadata.Attributes.State`. -/
def Attributes.State : String := "state"
/-- Modelled from the spec: the attribute key `metadata.Attributes.Device`. -/
def Attributes.Device : String := "device"
/-- Modelled from the spec: the attribute key `metadata.Attributes.Direction`. -/
def Attributes.Direction : String := "direction"
/-- Modelled from the spec: the attribute key `metadata.Attributes.Type`. -/
def Attributes.Type : String := "type"
/-- Modelled from the spec: the direction label `metadata.AttributeDirection.Read`. -/
def AttributeDirection.Read : String := "read"
/-- Modelled from the spec: the direction label `metadata.AttributeDirection.Write`. -/
def AttributeDirection.Write : String := "write"

end metadata

/-! ## The CPU scraper (`cpu_scraper.go`) -/

/-- The `cpu.TimesStat` record of gopsutil: the label of a CPU and its times by state. -/
structure TimesStat (F : Type) where
  CPU : String
  User : F
  System : F
  Idle : F
  Nice : F
  Iowait : F
  Irq : F
  Softirq : F
  Steal : F
  Guest : F
  GuestNice : F

namespace cpuscraper

/-- The constant `metricsLen` of the CPU scraper. -/
def metricsLen : Nat := 1

/-- The CPU `scraper` struct.  `κ` is the type of its configuration; `bootTime` and
`times` are the function-valued fields the code calls to read the operating system. -/
structure scraper (κ ε ω F : Type) where
  config : κ
  startTime : Timestamp
  bootTime : ω → Except ε Nat × ω
  times : Bool → ω → Except ε (List (TimesStat F)) × ω

/-- Method `start`: read the boot time; on an error return it, otherwise store
`pdata.Timestamp(bootTime * 1e9)`, a `uint64` product, and return `nil`. -/
def scraper.start {κ ε ω F : Type} (s : scraper κ ε ω F) (w : ω) :
    Step (Option ε) (scraper κ ε ω F) ω :=
  match s.bootTime w with
  | (Except.error err, w1) => { ret := some err, self := s, world := w1 }
  | (Except.ok bootTime, w1) =>
      { ret := none, self := { s with startTime := bootTime * 10 ^ 9 % uint64Size }, world := w1 }

/-- The constant `gopsCPUTotal`. -/
def gopsCPUTotal : String := "cpu-total"

/-- Function `initializeCPUTimeDataPoint`. -/
def initializeCPUTimeDataPoint {F : Type} (dataPoint : NumberDataPoint F)
    (startTime now : Timestamp) (cpuLabel stateLabel : String) (value : F) :
    NumberDataPoint F :=
  let attributes := dataPoint.attributes
  -- ignore cpu attribute if reporting "total" cpu usage
  let attributes :=
    if cpuLabel != gopsCPUTotal then attributes.InsertString metadata.Attributes.Cpu cpuLabel
    else attributes
  let attributes := attributes.InsertString metadata.Attributes.State stateLabel
  let dataPoint := { dataPoint with attributes := attributes }
  let dataPoint := dataPoint.SetStartTimestamp startTime
  let dataPoint := dataPoint.SetTimestamp now
  dataPoint.SetDoubleVal value

/-- Function `initializeCPUTimeMetric`.  The per-platform `appendCPUTimeStateDataPoints`
of the CPU scraper is not among the sources and is a parameter: it receives the point
slice so far and returns the slice it leaves.  `EnsureCapacity` only reserves memory. -/
def initializeCPUTimeMetric {F : Type}
    (appendCPUTimeStateDataPoints :
      List (NumberDataPoint F) → Timestamp → Timestamp → TimesStat F → List (NumberDataPoint F))
    (metric : Metric F) (startTime now : Timestamp) (cpuTimes : List (TimesStat F)) :
    Metric F :=
  let metric := MetricDefinition.SystemCPUTime.Init metric
  let ddps := cpuTimes.foldl
    (fun ddps cpuTime => appendCPUTimeStateDataPoints ddps startTime now cpuTime)
    metric.dataPoints
  { metric with dataPoints := ddps }

/-- Method `scrape`.  `timeNow` is the read of the wall clock, `time.Now()` converted by
`pdata.NewTimestampFromTime`. -/
def scraper.scrape {κ ε ω F : Type}
    (appendCPUTimeStateDataPoints :
      List (NumberDataPoint F) → Timestamp → Timestamp → TimesStat F → List (NumberDataPoint F))
    (timeNow : ω → Timestamp × ω) (s : scraper κ ε ω F) (w : ω) :
    Step (Metrics F × Option (ScrapeError ε)) (scraper κ ε ω F) ω :=
  match timeNow w with
  | (now, w1) =>
    match s.times true w1 with
    | (Except.error err, w2) =>
        { ret := (Metrics.withMetrics [], some (NewPartialScrapeError err metricsLen)),
          self := s, world := w2 }
    | (Except.ok cpuTimes, w2) =>
        { ret := (Metrics.withMetrics
                    [initializeCPUTimeMetric appendCPUTimeStateDataPoints Metric.fresh
                      s.startTime now cpuTimes], none),
          self := s, world := w2 }

end cpuscraper

/-! ## The performance-counter backend (`perfcounters`) and device filters -/

/-- Modelled from the spec: a compiled pattern set over device names (the
`filterset.FilterSet` interface, not among the sources); `Matches` tells whether a name
matches the set. -/
structure FilterSet where
  Matches : String → Bool

namespace perfcounters

/-- Modelled from the spec: the `CounterValues` record, one instance name with its
counter-name to value map (`map[string]int64`), kept as an association list. -/
structure CounterValues where
  InstanceName : String
  Values : List (String × Int)
  deriving DecidableEq, Repr

/-- Indexing the Go map `Values[name]`: the stored value, or zero when the key is absent. -/
def CounterValues.value (c : CounterValues) (name : String) : Int :=
  (c.Values.lookup name).getD 0

/-- Modelled from the spec: the `PerfDataObject` interface, one category's result set.
`Filter` changes the object in place, hence the environment. -/
structure PerfDataObject (ε ω : Type) where
  Filter : Option FilterSet → Option FilterSet → Bool → ω → ω
  GetValues : List String → ω → Except ε (List CounterValues) × ω

/-- Modelled from the spec: the `PerfDataCollection` interface, the result of one scrape of
the backend. -/
structure PerfDataCollection (ε ω : Type) where
  GetObject : String → ω → Except ε (PerfDataObject ε ω) × ω

/-- Modelled from the spec: the `PerfCounterScraper` interface, the stateful
performance-counter backend. -/
structure PerfCounterScraper (ε ω : Type) where
  Initialize : List String → ω → Option ε × ω
  Scrape : ω → Except ε (PerfDataCollection ε ω) × ω

end perfcounters

/-! ## IEEE 754 arithmetic used by the scrapers -/

/-- The `float64` operations the scrapers apply, on a carrier `F`: the conversions
`float64(x)` of a `uint64` and of an `int64`, the value of a constant, and the operators
`-`, `/` and `*`. -/
structure Float64Ops (F : Type) where
  ofUInt64 : Nat → F
  ofInt64 : Int → F
  const : ℚ → F
  sub : F → F → F
  div : F → F → F
  mul : F → F → F

/-- The `uint64` difference `a - b` of two `uint64` values, which wraps around. -/
def uint64Sub (a b : Nat) : Nat := (a + uint64Size - b) % uint64Size

/-! ### Round-to-nearest arithmetic

Go's `float64` is the IEEE 754 binary64 format and its conversions and operators round to
nearest, ties to even.  A finite `float64` is modelled by the rational number it denotes,
and an operation by the exact rational operation followed by the rounding `nearest`.
Infinities and NaN are not modelled: the scrapers convert 64-bit integers and divide by the
non-zero constants `1e9` and `1e7`, which stays far below the overflow threshold. -/

namespace Float64

/-- The exponent of the binade of `q`: the greatest `e` with `2 ^ e ≤ |q|`, and `-1022`,
the exponent of the subnormal numbers, when that is smaller. -/
def exponent (q : ℚ) : ℤ := max (Int.log 2 |q|) (-1022)

/-- The distance between neighbouring `float64` values in the binade of `q`: significands
have 53 bits. -/
def ulp (q : ℚ) : ℚ := (2 : ℚ) ^ (exponent q - 52)

/-- The integer nearest to `x`, the even one of the two in a tie. -/
def roundHalfEven (x : ℚ) : ℤ :=
  if x - ⌊x⌋ < 1 / 2 then ⌊x⌋
  else if 1 / 2 < x - ⌊x⌋ then ⌊x⌋ + 1
  else if ⌊x⌋ % 2 = 0 then ⌊x⌋ else ⌊x⌋ + 1

/-- The `float64` value nearest to `q`, ties to even: the nearest multiple of `ulp q`. -/
def nearest (q : ℚ) : ℚ := roundHalfEven (q / ulp q) * ulp q

/-- The `float64` operations of Go, on the rationals that finite `float64` values denote. -/
def ieee : Float64Ops ℚ :=
  { ofUInt64 := fun n => nearest n
    ofInt64 := fun z => nearest z
    const := fun q => nearest q
    sub := fun a b => nearest (a - b)
    div := fun a b => nearest (a / b)
    mul := fun a b => nearest (a * b) }

end Float64

/-! ## The Windows disk scraper (`disk_scraper_windows.go`) -/

namespace diskscraper

/-- The constant `metricsLen` of the disk scraper. -/
def metricsLen : Nat := 5

/-- The constant `logicalDisk`. -/
def logicalDisk : String := "LogicalDisk"
/-- The constant `readsPerSec`. -/
def readsPerSec : String := "Disk Reads/sec"
/-- The constant `writesPerSec`. -/
def writesPerSec : String := "Disk Writes/sec"
/-- The constant `readBytesPerSec`. -/
def readBytesPerSec : String := "Disk Read Bytes/sec"
/-- The constant `writeBytesPerSec`. -/
def writeBytesPerSec : String := "Disk Write Bytes/sec"
/-- The constant `idleTime`. -/
def idleTime : String := "% Idle Time"
/-- The constant `avgDiskSecsPerRead`. -/
def avgDiskSecsPerRead : String := "Avg. Disk sec/Read"
/-- The constant `avgDiskSecsPerWrite`. -/
def avgDiskSecsPerWrite : String := "Avg. Disk sec/Write"
/-- The constant `queueLength`. -/
def queueLength : String := "Current Disk Queue Length"

/-- One of the two device lists of the configuration (`cfg.Include`, `cfg.Exclude`): the
match settings `Config`, of a type `γ`, and the device patterns `Devices`. -/
structure MatchConfig (γ : Type) where
  Config : γ
  Devices : List String

/-- The disk scraper's `Config`, as far as the code reads it. -/
structure Config (γ : Type) where
  Include : MatchConfig γ
  Exclude : MatchConfig γ

/-- The disk `scraper` struct. -/
structure scraper (γ ε ω : Type) where
  config : Config γ
  startTime : Timestamp
  includeFS : Option FilterSet
  excludeFS : Option FilterSet
  perfCounterScraper : perfcounters.PerfCounterScraper ε ω
  bootTime : ω → Except ε Nat × ω

/-- Method `start`: read the boot time; on an error return it; otherwise store
`pdata.Timestamp(bootTime * 1e9)` and return what `Initialize(logicalDisk)` returns. -/
def scraper.start {γ ε ω : Type} (s : scraper γ ε ω) (w : ω) :
    Step (Option ε) (scraper γ ε ω) ω :=
  match s.bootTime w with
  | (Except.error err, w1) => { ret := some err, self := s, world := w1 }
  | (Except.ok bootTime, w1) =>
      let s1 := { s with startTime := bootTime * 10 ^ 9 % uint64Size }
      match s1.perfCounterScraper.Initialize [logicalDisk] w1 with
      | (r, w2) => { ret := r, self := s1, world := w2 }

/-- The type of the helper `initializeNumberDataPointAsInt` (data point, startTime, now,
device label, direction label, value). -/
abbrev IntPointInit (F : Type) :=
  NumberDataPoint F → Timestamp → Timestamp → String → String → Int → NumberDataPoint F

/-- The type of the helper `initializeNumberDataPointAsDouble`. -/
abbrev DoublePointInit (F : Type) :=
  NumberDataPoint F → Timestamp → Timestamp → String → String → F → NumberDataPoint F

/-- Modelled from the spec: the helper `initializeNumberDataPointAsInt`, which is not among
the sources.  The point gets the `device` attribute, the `direction` attribute unless the
direction label is empty, the start timestamp, the timestamp and the integer value. -/
def initializeNumberDataPointAsInt {F : Type} : IntPointInit F :=
  fun dataPoint startTime now deviceLabel directionLabel value =>
  let attributes := dataPoint.attributes.InsertString metadata.Attributes.Device deviceLabel
  let attributes :=
    if directionLabel != "" then
      attributes.InsertString metadata.Attributes.Direction directionLabel
    else attributes
  let dataPoint := { dataPoint with attributes := attributes }
  let dataPoint := dataPoint.SetStartTimestamp startTime
  let dataPoint := dataPoint.SetTimestamp now
  dataPoint.SetIntVal value

/-- Modelled from the spec: the helper `initializeNumberDataPointAsDouble`, which is not
among the sources; as `initializeNumberDataPointAsInt`, with a `float64` value. -/
def initializeNumberDataPointAsDouble {F : Type} : DoublePointInit F :=
  fun dataPoint startTime now deviceLabel directionLabel value =>
  let attributes := dataPoint.attributes.InsertString metadata.Attributes.Device deviceLabel
  let attributes :=
    if directionLabel != "" then
      attributes.InsertString metadata.Attributes.Direction directionLabel
    else attributes
  let dataPoint := { dataPoint with attributes := attributes }
  let dataPoint := dataPoint.SetStartTimestamp startTime
  let dataPoint := dataPoint.SetTimestamp now
  dataPoint.SetDoubleVal value

/-- Function `initializeDiskIOMetric`.  The helper `initializeNumberDataPointAsInt` is a
parameter (`asInt`); each loop round appends a fresh point and initialises it, twice. -/
def initializeDiskIOMetric {F : Type} (asInt : IntPointInit F) (metric : Metric F)
    (startTime now : Timestamp) (logicalDiskCounterValues : List perfcounters.CounterValues) :
    Metric F :=
  let metric := MetricDefinition.SystemDiskIo.Init metric
  let idps := logicalDiskCounterValues.foldl
    (fun idps logicalDiskCounter =>
      let idps := idps ++ [asInt NumberDataPoint.fresh startTime now
        logicalDiskCounter.InstanceName metadata.AttributeDirection.Read
        (logicalDiskCounter.value readBytesPerSec)]
      idps ++ [asInt NumberDataPoint.fresh startTime now
        logicalDiskCounter.InstanceName metadata.AttributeDirection.Write
        (logicalDiskCounter.value writeBytesPerSec)])
    metric.dataPoints
  { metric with dataPoints := idps }

/-- Function `initializeDiskOperationsMetric`. -/
def initializeDiskOperationsMetric {F : Type} (asInt : IntPointInit F) (metric : Metric F)
    (startTime now : Timestamp) (logicalDiskCounterValues : List perfcounters.CounterValues) :
    Metric F :=
  let metric := MetricDefinition.SystemDiskOperations.Init metric
  let idps := logicalDiskCounterValues.foldl
    (fun idps logicalDiskCounter =>
      let idps := idps ++ [asInt NumberDataPoint.fresh startTime now
        logicalDiskCounter.InstanceName metadata.AttributeDirection.Read
        (logicalDiskCounter.value readsPerSec)]
      idps ++ [asInt NumberDataPoint.fresh startTime now
        logicalDiskCounter.InstanceName metadata.AttributeDirection.Write
        (logicalDiskCounter.value writesPerSec)])
    metric.dataPoints
  { metric with dataPoints := idps }

/-- The expression `float64(now-startTime)/1e9 - float64(v)/1e7` of
`initializeDiskIOTimeMetric`, for the idle-time counter `v`: the difference `now-startTime`
is a `uint64` one, both constants are `float64` constants. -/
def diskActiveTime {F : Type} (fl : Float64Ops F) (startTime now : Timestamp) (v : Int) : F :=
  fl.sub (fl.div (fl.ofUInt64 (uint64Sub now startTime)) (fl.const (10 ^ 9)))
    (fl.div (fl.ofInt64 v) (fl.const (10 ^ 7)))

/-- Function `initializeDiskIOTimeMetric`. -/
def initializeDiskIOTimeMetric {F : Type} (fl : Float64Ops F) (asDouble : DoublePointInit F)
    (metric : Metric F) (startTime now : Timestamp)
    (logicalDiskCounterValues : List perfcounters.CounterValues) : Metric F :=
  let metric := MetricDefinition.SystemDiskIoTime.Init metric
  let ddps := logicalDiskCounterValues.foldl
    (fun ddps logicalDiskCounter =>
      -- disk active time = system boot time - disk idle time
      ddps ++ [asDouble NumberDataPoint.fresh startTime now logicalDiskCounter.InstanceName ""
        (diskActiveTime fl startTime now (logicalDiskCounter.value idleTime))])
    metric.dataPoints
  { metric with dataPoints := ddps }

/-- Function `initializeDiskOperationTimeMetric`. -/
def initializeDiskOperationTimeMetric {F : Type} (fl : Float64Ops F)
    (asDouble : DoublePointInit F) (metric : Metric F) (startTime now : Timestamp)
    (logicalDiskCounterValues : List perfcounters.CounterValues) : Metric F :=
  let metric := MetricDefinition.SystemDiskOperationTime.Init metric
  let ddps := logicalDiskCounterValues.foldl
    (fun ddps logicalDiskCounter =>
      let ddps := ddps ++ [asDouble NumberDataPoint.fresh startTime now
        logicalDiskCounter.InstanceName metadata.AttributeDirection.Read
        (fl.div (fl.ofInt64 (logicalDiskCounter.value avgDiskSecsPerRead)) (fl.const (10 ^ 7)))]
      ddps ++ [asDouble NumberDataPoint.fresh startTime now
        logicalDiskCounter.InstanceName metadata.AttributeDirection.Write
        (fl.div (fl.ofInt64 (logicalDiskCounter.value avgDiskSecsPerWrite)) (fl.const (10 ^ 7)))])
    metric.dataPoints
  { metric with dataPoints := ddps }

/-- Function `initializeDiskPendingDataPoint`. -/
def initializeDiskPendingDataPoint {F : Type} (dataPoint : NumberDataPoint F) (now : Timestamp)
    (deviceLabel : String) (value : Int) : NumberDataPoint F :=
  let dataPoint :=
    { dataPoint with
      attributes := dataPoint.attributes.InsertString metadata.Attributes.Device deviceLabel }
  let dataPoint := dataPoint.SetTimestamp now
  dataPoint.SetIntVal value

/-- Function `initializeDiskPendingOperationsMetric`. -/
def initializeDiskPendingOperationsMetric {F : Type} (metric : Metric F) (now : Timestamp)
    (logicalDiskCounterValues : List perfcounters.CounterValues) : Metric F :=
  let metric := MetricDefinition.SystemDiskPendingOperations.Init metric
  let idps := logicalDiskCounterValues.foldl
    (fun idps logicalDiskCounter =>
      idps ++ [initializeDiskPendingDataPoint NumberDataPoint.fresh now
        logicalDiskCounter.InstanceName (logicalDiskCounter.value queueLength)])
    metric.dataPoints
  { metric with dataPoints := idps }

/-- Method `scrape` of the disk scraper.  `timeNow` is the read of the wall clock. -/
def scraper.scrape {γ ε ω F : Type} (fl : Float64Ops F) (asInt : IntPointInit F)
    (asDouble : DoublePointInit F) (timeNow : ω → Timestamp × ω) (s : scraper γ ε ω) (w : ω) :
    Step (Metrics F × Option (ScrapeError ε)) (scraper γ ε ω) ω :=
  match timeNow w with
  | (now, w1) =>
    match s.perfCounterScraper.Scrape w1 with
    | (Except.error err, w2) =>
        { ret := (Metrics.withMetrics [], some (NewPartialScrapeError err metricsLen)),
          self := s, world := w2 }
    | (Except.ok counters, w2) =>
      match counters.GetObject logicalDisk w2 with
      | (Except.error err, w3) =>
          { ret := (Metrics.withMetrics [], some (NewPartialScrapeError err metricsLen)),
            self := s, world := w3 }
      | (Except.ok logicalDiskObject, w3) =>
        -- filter devices by name
        let w4 := logicalDiskObject.Filter s.includeFS s.excludeFS false w3
        match logicalDiskObject.GetValues
            [readsPerSec, writesPerSec, readBytesPerSec, writeBytesPerSec, idleTime,
              avgDiskSecsPerRead, avgDiskSecsPerWrite, queueLength] w4 with
        | (Except.error err, w5) =>
            { ret := (Metrics.withMetrics [], some (NewPartialScrapeError err metricsLen)),
              self := s, world := w5 }
        | (Except.ok logicalDiskCounterValues, w5) =>
            let metrics : List (Metric F) :=
              if logicalDiskCounterValues.length > 0 then
                [ initializeDiskIOMetric asInt Metric.fresh s.startTime now
                    logicalDiskCounterValues,
                  initializeDiskOperationsMetric asInt Metric.fresh s.startTime now
                    logicalDiskCounterValues,
                  initializeDiskIOTimeMetric fl asDouble Metric.fresh s.startTime now
                    logicalDiskCounterValues,
                  initializeDiskOperationTimeMetric fl asDouble Metric.fresh s.startTime now
                    logicalDiskCounterValues,
                  initializeDiskPendingOperationsMetric Metric.fresh now
                    logicalDiskCounterValues ]
              else []
            { ret := (Metrics.withMetrics metrics, none), self := s, world := w5 }

end diskscraper

/-! ## The Windows paging scraper (`paging_scraper_windows.go`) -/

namespace metadata

/-- Modelled from the spec: the state label `metadata.AttributeState.Used`. -/
def AttributeState.Used : String := "used"
/-- Modelled from the spec: the state label `metadata.AttributeState.Free`. -/
def AttributeState.Free : String := "free"
/-- Modelled from the spec: the type label `metadata.AttributeType.Major`. -/
def AttributeType.Major : String := "major"
/-- Modelled from the spec: the direction label `metadata.AttributeDirection.PageIn`. -/
def AttributeDirection.PageIn : String := "page-in"
/-- Modelled from the spec: the direction label `metadata.AttributeDirection.PageOut`. -/
def AttributeDirection.PageOut : String := "page-out"

end metadata

/-- The conversion `int64(u)` of a `uint64` value: values from `2 ^ 63` on wrap around to
the negative numbers. -/
def int64OfUInt64 (u : Nat) : Int := if u < 2 ^ 63 then (u : Int) else (u : Int) - 2 ^ 64

namespace pagingscraper

/-- The constant `pagingUsageMetricsLen`. -/
def pagingUsageMetricsLen : Nat := 1
/-- The constant `pagingMetricsLen`. -/
def pagingMetricsLen : Nat := 1
/-- The constant `memory`. -/
def memory : String := "Memory"
/-- The constant `pageReadsPerSec`. -/
def pageReadsPerSec : String := "Page Reads/sec"
/-- The constant `pageWritesPerSec`. -/
def pageWritesPerSec : String := "Page Writes/sec"

/-- The `pageFileStats` record, as far as the code reads it: the device name and the used
and free bytes, both `uint64`. -/
structure pageFileStats where
  deviceName : String
  usedBytes : Nat
  freeBytes : Nat
  deriving DecidableEq, Repr

/-- The paging `scraper` struct.  The field `pageFileStats` of the Go struct, which shares
its name with the record type, is `pageFileStatsFn` here. -/
structure scraper (κ ε ω : Type) where
  config : κ
  startTime : Timestamp
  perfCounterScraper : perfcounters.PerfCounterScraper ε ω
  bootTime : ω → Except ε Nat × ω
  pageFileStatsFn : ω → Except ε (List pageFileStats) × ω

/-- Method `start`: read the boot time; on an error return it; otherwise store
`pdata.Timestamp(bootTime * 1e9)` and return what `Initialize(memory)` returns. -/
def scraper.start {κ ε ω : Type} (s : scraper κ ε ω) (w : ω) :
    Step (Option ε) (scraper κ ε ω) ω :=
  match s.bootTime w with
  | (Except.error err, w1) => { ret := some err, self := s, world := w1 }
  | (Except.ok bootTime, w1) =>
      let s1 := { s with startTime := bootTime * 10 ^ 9 % uint64Size }
      match s1.perfCounterScraper.Initialize [memory] w1 with
      | (r, w2) => { ret := r, self := s1, world := w2 }

/-- Function `initializePagingUsageDataPoint`. -/
def initializePagingUsageDataPoint {F : Type} (dataPoint : NumberDataPoint F) (now : Timestamp)
    (deviceLabel stateLabel : String) (value : Int) : NumberDataPoint F :=
  let attributes := dataPoint.attributes
  let attributes := attributes.InsertString metadata.Attributes.Device deviceLabel
  let attributes := attributes.InsertString metadata.Attributes.State stateLabel
  let dataPoint := { dataPoint with attributes := attributes }
  let dataPoint := dataPoint.SetTimestamp now
  dataPoint.SetIntVal value

/-- Method `initializePagingUsageMetric`. -/
def scraper.initializePagingUsageMetric {κ ε ω F : Type} (_s : scraper κ ε ω)
    (metric : Metric F) (now : Timestamp) (pageFiles : List pageFileStats) : Metric F :=
  let metric := MetricDefinition.SystemPagingUsage.Init metric
  let idps := pageFiles.foldl
    (fun idps pageFile =>
      let idps := idps ++ [initializePagingUsageDataPoint NumberDataPoint.fresh now
        pageFile.deviceName metadata.AttributeState.Used (int64OfUInt64 pageFile.usedBytes)]
      idps ++ [initializePagingUsageDataPoint NumberDataPoint.fresh now
        pageFile.deviceName metadata.AttributeState.Free (int64OfUInt64 pageFile.freeBytes)])
    metric.dataPoints
  { metric with dataPoints := idps }

/-- Method `scrapeAndAppendPagingUsageMetric`: the results are the metric slice after the
call and the returned error. -/
def scraper.scrapeAndAppendPagingUsageMetric {κ ε ω F : Type} (timeNow : ω → Timestamp × ω)
    (s : scraper κ ε ω) (metrics : List (Metric F)) (w : ω) :
    Step (List (Metric F) × Option ε) (scraper κ ε ω) ω :=
  match timeNow w with
  | (now, w1) =>
    match s.pageFileStatsFn w1 with
    | (Except.error err, w2) => { ret := (metrics, some err), self := s, world := w2 }
    | (Except.ok pageFiles, w2) =>
        { ret := (metrics ++ [s.initializePagingUsageMetric Metric.fresh now pageFiles], none),
          self := s, world := w2 }

/-- Function `initializePagingOperationsDataPoint`. -/
def initializePagingOperationsDataPoint {F : Type} (dataPoint : NumberDataPoint F)
    (startTime now : Timestamp) (directionLabel : String) (value : Int) : NumberDataPoint F :=
  let attributes := dataPoint.attributes
  let attributes := attributes.InsertString metadata.Attributes.Type metadata.AttributeType.Major
  let attributes := attributes.InsertString metadata.Attributes.Direction directionLabel
  let dataPoint := { dataPoint with attributes := attributes }
  let dataPoint := dataPoint.SetStartTimestamp startTime
  let dataPoint := dataPoint.SetTimestamp now
  dataPoint.SetIntVal value

/-- Function `initializePagingOperationsMetric`. -/
def initializePagingOperationsMetric {F : Type} (metric : Metric F) (startTime now : Timestamp)
    (memoryCounterValues : perfcounters.CounterValues) : Metric F :=
  let metric := MetricDefinition.SystemPagingOperations.Init metric
  let idps := metric.dataPoints
  let idps := idps ++ [initializePagingOperationsDataPoint NumberDataPoint.fresh startTime now
    metadata.AttributeDirection.PageIn (memoryCounterValues.value pageReadsPerSec)]
  let idps := idps ++ [initializePagingOperationsDataPoint NumberDataPoint.fresh startTime now
    metadata.AttributeDirection.PageOut (memoryCounterValues.value pageWritesPerSec)]
  { metric with dataPoints := idps }

/-- Method `scrapeAndAppendPagingOperationsMetric`: the results are the metric slice after
the call and the returned error. -/
def scraper.scrapeAndAppendPagingOperationsMetric {κ ε ω F : Type}
    (timeNow : ω → Timestamp × ω) (s : scraper κ ε ω) (metrics : List (Metric F)) (w : ω) :
    Step (List (Metric F) × Option ε) (scraper κ ε ω) ω :=
  match timeNow w with
  | (now, w1) =>
    match s.perfCounterScraper.Scrape w1 with
    | (Except.error err, w2) => { ret := (metrics, some err), self := s, world := w2 }
    | (Except.ok counters, w2) =>
      match counters.GetObject memory w2 with
      | (Except.error err, w3) => { ret := (metrics, some err), self := s, world := w3 }
      | (Except.ok memoryObject, w3) =>
        match memoryObject.GetValues [pageReadsPerSec, pageWritesPerSec] w3 with
        | (Except.error err, w4) => { ret := (metrics, some err), self := s, world := w4 }
        | (Except.ok memoryCounterValues, w4) =>
            match memoryCounterValues with
            | memoryCounterValues0 :: _ =>
                { ret := (metrics ++ [initializePagingOperationsMetric Metric.fresh s.startTime
                            now memoryCounterValues0], none),
                  self := s, world := w4 }
            | [] => { ret := (metrics, none), self := s, world := w4 }

/-- Method `scrape` of the paging scraper. -/
def scraper.scrape {κ ε ω F : Type} (timeNow : ω → Timestamp × ω) (s : scraper κ ε ω)
    (w : ω) : Step (Metrics F × Option (ScrapeError ε)) (scraper κ ε ω) ω :=
  let metrics : List (Metric F) := []
  let errors : ScrapeErrors ε := {}
  let r1 := s.scrapeAndAppendPagingUsageMetric timeNow metrics w
  let errors :=
    match r1.ret.2 with
    | some err => errors.AddPartial pagingUsageMetricsLen err
    | none => errors
  let r2 := r1.self.scrapeAndAppendPagingOperationsMetric timeNow r1.ret.1 r1.world
  let errors :=
    match r2.ret.2 with
    | some err => errors.AddPartial pagingMetricsLen err
    | none => errors
  { ret := (Metrics.withMetrics r2.ret.1, errors.Combine), self := r2.self, world := r2.world }

end pagingscraper

/-! ## The Linux process scraper (`process_scraper_linux.go`) -/

namespace metadata

/-- Modelled from the spec: the state label `metadata.AttributeState.User`. -/
def AttributeState.User : String := "user"
/-- Modelled from the spec: the state label `metadata.AttributeState.System`. -/
def AttributeState.System : String := "system"
/-- Modelled from the spec: the state label `metadata.AttributeState.Wait`. -/
def AttributeState.Wait : String := "wait"

end metadata

namespace processscraper

/-- The constant `cpuStatesLen`. -/
def cpuStatesLen : Nat := 3

/-- Function `initializeCPUTimeDataPoint` of the process scraper. -/
def initializeCPUTimeDataPoint {F : Type} (dataPoint : NumberDataPoint F)
    (startTime now : Timestamp) (value : F) (stateLabel : String) : NumberDataPoint F :=
  let dataPoint :=
    { dataPoint with
      attributes := dataPoint.attributes.InsertString metadata.Attributes.State stateLabel }
  let dataPoint := dataPoint.SetStartTimestamp startTime
  let dataPoint := dataPoint.SetTimestamp now
  dataPoint.SetDoubleVal value

/-- Function `appendCPUTimeStateDataPoints` of the process scraper: the slice it is given
and the slice it leaves. -/
def appendCPUTimeStateDataPoints {F : Type} (ddps : List (NumberDataPoint F))
    (startTime now : Timestamp) (cpuTime : TimesStat F) : List (NumberDataPoint F) :=
  let ddps := ddps ++ [initializeCPUTimeDataPoint NumberDataPoint.fresh startTime now
    cpuTime.User metadata.AttributeState.User]
  let ddps := ddps ++ [initializeCPUTimeDataPoint NumberDataPoint.fresh startTime now
    cpuTime.System metadata.AttributeState.System]
  ddps ++ [initializeCPUTimeDataPoint NumberDataPoint.fresh startTime now
    cpuTime.Iowait metadata.AttributeState.Wait]

/-- The `processHandle` interface, as far as the code calls it: three reads of the
operating system about one process. -/
structure processHandle (ε ω : Type) where
  Name : ω → Except ε String × ω
  Exe : ω → Except ε String × ω
  CmdlineSlice : ω → Except ε (List String) × ω

/-- The `executableMetadata` record. -/
structure executableMetadata where
  name : String
  path : String
  deriving DecidableEq, Repr

/-- The `commandMetadata` record. -/
structure commandMetadata where
  command : String
  commandLineSlice : List String
  deriving DecidableEq, Repr

/-- Function `getProcessExecutable`: the descriptor or the error, and the environment the
reads leave. -/
def getProcessExecutable {ε ω : Type} (proc : processHandle ε ω) (w : ω) :
    Except ε executableMetadata × ω :=
  match proc.Name w with
  | (Except.error err, w1) => (Except.error err, w1)
  | (Except.ok name, w1) =>
    match proc.Exe w1 with
    | (Except.error err, w2) => (Except.error err, w2)
    | (Except.ok exe, w2) => (Except.ok { name := name, path := exe }, w2)

/-- Function `getProcessCommand`. -/
def getProcessCommand {ε ω : Type} (proc : processHandle ε ω) (w : ω) :
    Except ε commandMetadata × ω :=
  match proc.CmdlineSlice w with
  | (Except.error err, w1) => (Except.error err, w1)
  | (Except.ok cmdline, w1) =>
    let cmd : String :=
      match cmdline with
      | cmdline0 :: _ => cmdline0
      | [] => ""
    (Except.ok { command := cmd, commandLineSlice := cmdline }, w1)

end processscraper

/-! ## The Linux part of the disk scraper (`disk_scraper_others_linux.go`) -/

/-- The `disk.IOCountersStat` record of gopsutil: the cumulative counters of one device,
all `uint64`, and its names. -/
structure IOCountersStat where
  ReadCount : Nat
  MergedReadCount : Nat
  WriteCount : Nat
  MergedWriteCount : Nat
  ReadBytes : Nat
  WriteBytes : Nat
  ReadTime : Nat
  WriteTime : Nat
  IopsInProgress : Nat
  IoTime : Nat
  WeightedIO : Nat
  Name : String
  SerialNumber : String
  Label : String
  deriving DecidableEq, Repr

namespace diskscraper

/-- The constant `systemSpecificMetricsLen`. -/
def systemSpecificMetricsLen : Nat := 2

/-- Function `initializeDiskWeightedIOTimeMetric`.  The Go map `ioCounters` is the list of
its entries (device, counters) in the order the `range` loop visits them, which Go leaves
open.  The value is `float64(ioCounter.WeightedIO)/1e3`. -/
def initializeDiskWeightedIOTimeMetric {F : Type} (fl : Float64Ops F)
    (asDouble : DoublePointInit F) (metric : Metric F) (startTime now : Timestamp)
    (ioCounters : List (String × IOCountersStat)) : Metric F :=
  let metric := MetricDefinition.SystemDiskWeightedIoTime.Init metric
  let ddps := ioCounters.foldl
    (fun ddps entry =>
      ddps ++ [asDouble NumberDataPoint.fresh startTime now entry.1 ""
        (fl.div (fl.ofUInt64 (IOCountersStat.WeightedIO entry.2)) (fl.const (10 ^ 3)))])
    metric.dataPoints
  { metric with dataPoints := ddps }

/-- Function `initializeDiskMergedMetric`. -/
def initializeDiskMergedMetric {F : Type} (asInt : IntPointInit F) (metric : Metric F)
    (startTime now : Timestamp) (ioCounters : List (String × IOCountersStat)) : Metric F :=
  let metric := MetricDefinition.SystemDiskMerged.Init metric
  let idps := ioCounters.foldl
    (fun idps entry =>
      let idps := idps ++ [asInt NumberDataPoint.fresh startTime now entry.1
        metadata.AttributeDirection.Read (int64OfUInt64 entry.2.MergedReadCount)]
      idps ++ [asInt NumberDataPoint.fresh startTime now entry.1
        metadata.AttributeDirection.Write (int64OfUInt64 entry.2.MergedWriteCount)])
    metric.dataPoints
  { metric with dataPoints := idps }

/-- Function `appendSystemSpecificMetrics`: the metric slice it is given and the slice it
leaves. -/
def appendSystemSpecificMetrics {F : Type} (fl : Float64Ops F) (asInt : IntPointInit F)
    (asDouble : DoublePointInit F) (metrics : List (Metric F)) (startTime now : Timestamp)
    (ioCounters : List (String × IOCountersStat)) : List (Metric F) :=
  let metrics := metrics ++
    [initializeDiskWeightedIOTimeMetric fl asDouble Metric.fresh startTime now ioCounters]
  metrics ++ [initializeDiskMergedMetric asInt Metric.fresh startTime now ioCounters]

/-- The error `fmt.Errorf(message + ": %w", err)`: a message wrapped around a cause. -/
structure WrappedError (ε : Type) where
  message : String
  cause : ε
  deriving DecidableEq, Repr

/-- Function `newDiskScraper` of the Windows disk scraper.  The filter compiler
`filterset.CreateFilterSet`, the production backend `&perfcounters.PerfLibScraper{}` and
the boot-time reader `host.BootTime` are parameters; the compiler acts on the environment
like every other call.  The results are the scraper or the error, and the environment. -/
def newDiskScraper {γ ε ω : Type}
    (CreateFilterSet : List String → γ → ω → Except ε FilterSet × ω)
    (PerfLibScraper : perfcounters.PerfCounterScraper ε ω)
    (hostBootTime : ω → Except ε Nat × ω) (cfg : Config γ) (w : ω) :
    Except (WrappedError ε) (scraper γ ε ω) × ω :=
  let scraper : scraper γ ε ω :=
    { config := cfg, startTime := 0, includeFS := none, excludeFS := none,
      perfCounterScraper := PerfLibScraper, bootTime := hostBootTime }
  let includeStep : Except (WrappedError ε) (diskscraper.scraper γ ε ω) × ω :=
    if cfg.Include.Devices.length > 0 then
      match CreateFilterSet cfg.Include.Devices cfg.Include.Config w with
      | (Except.error err, w1) =>
          (Except.error { message := "error creating device include filters", cause := err },
           w1)
      | (Except.ok fs, w1) => (Except.ok { scraper with includeFS := some fs }, w1)
    else (Except.ok scraper, w)
  match includeStep with
  | (Except.error err, w1) => (Except.error err, w1)
  | (Except.ok scraper, w1) =>
    if cfg.Exclude.Devices.length > 0 then
      match CreateFilterSet cfg.Exclude.Devices cfg.Exclude.Config w1 with
      | (Except.error err, w2) =>
          (Except.error { message := "error creating device exclude filters", cause := err },
           w2)
      | (Except.ok fs, w2) => (Except.ok { scraper with excludeFS := some fs }, w2)
    else (Except.ok scraper, w1)

end diskscraper

/-! ## Device filtering by the performance-counter backend

The sources call `Filter` and `GetValues` through the interfaces above; the package that
implements them is not among them.  What follows is that implementation as the
specification describes it. -/

/-- Method `Get` of an attribute map: the value stored under a key, if any. -/
def AttributeMap.Get (m : AttributeMap) (k : String) : Option String := m.lookup k

/-- The values of the `device` attribute of all data points of a batch, in order. -/
def Metrics.devices {F : Type} (md : Metrics F) : List (Option String) :=
  md.allMetrics.flatMap (fun m => m.dataPoints.map (fun dp => dp.attributes.Get "device"))

/-- Modelled from the spec: a filter set compiled in the literal match mode from a list of
device names; a name matches when it is, case-sensitively and without normalisation, one
of them. -/
def strictFilterSet (devices : List String) : FilterSet :=
  { Matches := fun name => devices.contains name }

/-- Modelled from the spec: `filterset.CreateFilterSet` for the literal match mode, which
never fails. -/
def CreateStrictFilterSet {γ ε ω : Type} : List String → γ → ω → Except ε FilterSet × ω :=
  fun devices _ w => (Except.ok (strictFilterSet devices), w)

namespace perfcounters

/-- Modelled from the spec: whether `Filter(include, exclude, excludeTotal)` keeps the
instance called `name`: keep an instance iff (include is empty OR instance matches
include) AND NOT (exclude non-empty AND instance matches exclude); the aggregate "_Total"
pseudo-instance is dropped only when the flag requests it.  A filter set that is not set
(`nil`, here `none`) is the empty one. -/
def keepInstance (includeFS excludeFS : Option FilterSet) (excludeTotal : Bool) (name : String) :
    Bool :=
  (match includeFS with
    | none => true
    | some fs => fs.Matches name) &&
  !(match excludeFS with
    | none => false
    | some fs => fs.Matches name) &&
  !(excludeTotal && name == "_Total")

/-- Modelled from the spec: one category's result set, the counter names of the category's
schema and the instances with their values. -/
structure perfDataObject where
  counterNames : List String
  instances : List CounterValues
  deriving DecidableEq, Repr

/-- Modelled from the spec: `Filter` keeps the instances that `keepInstance` keeps. -/
def perfDataObject.Filter (obj : perfDataObject) (includeFS excludeFS : Option FilterSet)
    (excludeTotal : Bool) : perfDataObject :=
  { obj with
    instances := obj.instances.filter
      (fun c => keepInstance includeFS excludeFS excludeTotal c.InstanceName) }

/-- Modelled from the spec: `GetValues(names...)` extracts the named values, one entry per
instance, and fails if a requested counter name is absent from the category schema. -/
def perfDataObject.GetValues (obj : perfDataObject) (names : List String) :
    Except String (List CounterValues) :=
  if names.all (fun n => obj.counterNames.contains n) then
    Except.ok (obj.instances.map
      (fun c => { InstanceName := c.InstanceName,
                  Values := names.map (fun n => (n, c.value n)) }))
  else Except.error "counter not found in the category schema"

/-- The interface value of a result set that lives in the environment: `Filter` replaces
it by the filtered one, `GetValues` reads it. -/
def perfDataObject.handle : PerfDataObject String perfDataObject :=
  { Filter := fun includeFS excludeFS excludeTotal obj =>
      obj.Filter includeFS excludeFS excludeTotal,
    GetValues := fun names obj => (obj.GetValues names, obj) }

/-- Modelled from the spec: a backend over the category `category` whose every `Scrape`
re-queries the counters and finds `snapshot`; `GetObject` fails for any other category. -/
def snapshotBackend (category : String) (snapshot : perfDataObject) :
    PerfCounterScraper String perfDataObject :=
  { Initialize := fun _ obj => (none, obj),
    Scrape := fun _ =>
      (Except.ok
        { GetObject := fun name obj =>
            if name == category then (Except.ok perfDataObject.handle, obj)
            else (Except.error "category not found", obj) },
       snapshot) }

end perfcounters

/-! ## Retries of the Datadog exporter (`http.go`) -/

/-- The value an `int64` holds after an operation whose exact result is `z`: the result
wraps around in two's complement. -/
def wrapInt64 (z : Int) : Int := (z + 2 ^ 63) % 2 ^ 64 - 2 ^ 63

namespace utils

/-- The constant `time.Second`: a `time.Duration` is an `int64` count of nanoseconds. -/
def Second : Int := 1000000000

/-- The loop of `DoWithRetries`, `for i = 0; i < maxRetries; i++`, from the state
(`i`, `wait`, `err`) in the environment `w`.  The action `fn` and `time.Sleep` act on the
environment.  The first argument bounds the number of rounds; `DoWithRetries` passes enough
of it for the loop to end by its own condition. -/
def DoWithRetries.loop {ε ω : Type} (maxRetries : Int) (fn : ω → Option ε × ω)
    (sleep : Int → ω → ω) : Nat → Int → Int → Option ε → ω → (Int × Option ε) × ω
  | 0, i, _, err, w => ((i, err), w)
  | fuel + 1, i, wait, err, w =>
    if i < maxRetries then
      match fn w with
      | (none, w1) => ((i, none), w1)
      | (some e, w1) =>
          DoWithRetries.loop maxRetries fn sleep fuel (i + 1) (wrapInt64 (2 * wait)) (some e)
            (sleep wait w1)
    else ((i, err), w)

/-- Function `DoWithRetries`: the named results `(i, err)` and the environment it leaves. -/
def DoWithRetries {ε ω : Type} (maxRetries : Int) (fn : ω → Option ε × ω)
    (sleep : Int → ω → ω) (w : ω) : (Int × Option ε) × ω :=
  DoWithRetries.loop maxRetries fn sleep maxRetries.toNat 0 (1 * Second) none w

/-- The value of the variable `wait` after `k` failed invocations: it starts at one second
and is doubled, as an `int64`, after every wait. -/
def waitAfter : Nat → Int
  | 0 => 1 * Second
  | k + 1 => wrapInt64 (2 * waitAfter k)

/-- The environment in which the invocation number `k` (counted from 0) of the action takes
place when all invocations before it failed: after each of them the code sleeps for the
current `wait`. -/
def attemptWorld {ε ω : Type} (fn : ω → Option ε × ω) (sleep : Int → ω → ω) : Nat → ω → ω
  | 0, w => w
  | k + 1, w => sleep (waitAfter k) (fn (attemptWorld fn sleep k w)).2

/-- What a run of `DoWithRetries` does to its surroundings: it invokes the action or it
waits for a duration. -/
inductive Event where
  | invoke : Event
  | wait (d : Int) : Event
  deriving DecidableEq, Repr

/-- The action `fn` on an environment that also records the events: every invocation is
recorded. -/
def traced {ε ω : Type} (fn : ω → Option ε × ω) : ω × List Event → Option ε × (ω × List Event) :=
  fun p => ((fn p.1).1, ((fn p.1).2, p.2 ++ [Event.invoke]))

/-- The function `sleep` on an environment that also records the events: every wait is
recorded with its duration. -/
def tracedSleep {ω : Type} (sleep : Int → ω → ω) : Int → ω × List Event → ω × List Event :=
  fun d p => (sleep d p.1, p.2 ++ [Event.wait d])

/-- The events of `k` failed invocations, each followed by its wait. -/
def failureTrace : Nat → List Event
  | 0 => []
  | k + 1 => failureTrace k ++ [Event.invoke, Event.wait (waitAfter k)]

/-- The number of invocations among the events. -/
def invocations (events : List Event) : Nat := events.count Event.invoke

/-- The durations of the waits among the events, in order. -/
def waits : List Event → List Int
  | [] => []
  | Event.invoke :: events => waits events
  | Event.wait d :: events => d :: waits events

end utils

/-! ## The StatsD metric translator (`metric_translator.go`)

The translator computes with `float64` values.  Its definitions take the arithmetic from a
record `Float64Math F`, which adds the operator `+`, the comparison `<` and the conversions
to integer types to `Float64Ops F`; the instance `Float64.ieeeMath` rounds every result to
the nearest `float64`, on the rationals that finite `float64` values denote.  A conversion
of a `float64` to an integer type truncates toward zero when the truncated value fits the
type, and is left to the implementation when it does not; the implementation's choice is
the parameter `overflowResult`.  An index expression outside the bounds of a slice panics.
The comparison of the sorter is also given for `float64` values with infinities and NaN
(`Float64.Extended`). -/

/-- Truncation toward zero, the rounding of a conversion from `float64` to an integer. -/
def truncate (x : ℚ) : Int := if 0 ≤ x then ⌊x⌋ else ⌈x⌉

/-- The conversion `int64(x)` of a `float64` value `x`. -/
def int64OfFloat (overflowResult : ℚ → Int) (x : ℚ) : Int :=
  if -2 ^ 63 ≤ truncate x ∧ truncate x < 2 ^ 63 then truncate x
  else wrapInt64 (overflowResult x)

/-- The conversion `uint64(x)` of a `float64` value `x`. -/
def uint64OfFloat (overflowResult : ℚ → Int) (x : ℚ) : Nat :=
  if 0 ≤ truncate x ∧ truncate x < 2 ^ 64 then (truncate x).toNat
  else (overflowResult x % 2 ^ 64).toNat

/-- The `float64` operations the translator applies beyond those of `Float64Ops`: the
operator `+`, the comparison `<`, and the conversions `int64(x)` and `uint64(x)`. -/
structure Float64Math (F : Type) extends Float64Ops F where
  add : F → F → F
  lt : F → F → Bool
  toInt64 : F → Int
  toUInt64 : F → Nat

/-- The `float64` operations of Go on the rationals that finite `float64` values denote,
for an implementation `overflowResult` of the conversions that leave the integer type. -/
def Float64.ieeeMath (overflowResult : ℚ → Int) : Float64Math ℚ :=
  { toFloat64Ops := Float64.ieee
    add := fun a b => Float64.nearest (a + b)
    lt := fun a b => decide (a < b)
    toInt64 := int64OfFloat overflowResult
    toUInt64 := uint64OfFloat overflowResult }

/-- A `float64` as the comparison operators see it: an infinity, a finite value, or NaN. -/
inductive Float64.Extended where
  | negInf : Float64.Extended
  | finite (q : ℚ) : Float64.Extended
  | posInf : Float64.Extended
  | nan : Float64.Extended
  deriving DecidableEq, Repr

/-- The operator `<` on `float64`: false as soon as an operand is NaN. -/
def Float64.Extended.lt : Float64.Extended → Float64.Extended → Bool
  | .nan, _ => false
  | _, .nan => false
  | _, .negInf => false
  | .negInf, _ => true
  | .posInf, _ => false
  | .finite _, .posInf => true
  | .finite a, .finite b => decide (a < b)

/-- The operator `<=` on `float64`: false as soon as an operand is NaN. -/
def Float64.Extended.le : Float64.Extended → Float64.Extended → Bool
  | .nan, _ => false
  | _, .nan => false
  | .negInf, _ => true
  | _, .posInf => true
  | .posInf, _ => false
  | .finite _, .negInf => false
  | .finite a, .finite b => decide (a ≤ b)

/-- An entry of the quantile values of a summary data point (`pdata.ValueAtQuantile`). -/
structure ValueAtQuantile (F : Type) where
  quantile : F
  value : F
  deriving DecidableEq, Repr

/-- A summary data point (`pdata.SummaryDataPoint`). -/
structure SummaryDataPoint (F : Type) where
  attributes : AttributeMap
  startTimestamp : Timestamp
  timestamp : Timestamp
  count : Nat
  sum : F
  quantileValues : List (ValueAtQuantile F)
  deriving DecidableEq, Repr

/-- A metric of the data type summary (`pdata.Metric` after
`SetDataType(pdata.MetricDataTypeSummary)`): its name and the data points of its summary. -/
structure SummaryMetric (F : Type) where
  name : String
  dataPoints : List (SummaryDataPoint F)
  deriving DecidableEq, Repr

/-! ### Sorting through `sort.Interface`

`sort.Sort` belongs to the standard library.  On a short slice (of at most 12 elements
since Go 1.19, of at most 6 elements before) it is the library's `insertionSort` on the
whole slice; on a longer slice it is a quicksort that calls the same `Less` and `Swap` and
finishes short ranges with that insertion sort.  The definition below is the insertion
sort, for every length.  It agrees with every sorting algorithm in what is proved of it
here, that the elements are permuted by swaps and come out in order when `Less` orders
them; where `Less` does not order the elements, as with NaN, or leaves some of them equal,
a longer slice may come out of the library in another arrangement. -/

namespace sort

/-- The interface `sort.Interface` over a collection in the state `σ`: a method that panics
returns `none`. -/
structure Interface (σ : Type) where
  Len : σ → Nat
  Less : σ → Nat → Nat → Option Bool
  Swap : σ → Nat → Nat → Option σ

/-- The inner loop of `insertionSort`, from the index `j`:
`for ; j > a && data.Less(j, j-1); j-- { data.Swap(j, j-1) }`. -/
def insertionSort.inner {σ : Type} (data : Interface σ) (a : Nat) : σ → Nat → Option σ
  | s, 0 => some s
  | s, j + 1 =>
    if a < j + 1 then
      match data.Less s (j + 1) j with
      | none => none
      | some false => some s
      | some true =>
        match data.Swap s (j + 1) j with
        | none => none
        | some s1 => insertionSort.inner data a s1 j
    else some s

/-- The outer loop of `insertionSort`, from the index `i` with `n` rounds to go. -/
def insertionSort.outer {σ : Type} (data : Interface σ) (a : Nat) : Nat → σ → Nat → Option σ
  | 0, s, _ => some s
  | n + 1, s, i =>
    match insertionSort.inner data a s i with
    | none => none
    | some s1 => insertionSort.outer data a n s1 (i + 1)

/-- Function `insertionSort` of the package `sort`: it sorts `data[a:b]`. -/
def insertionSort {σ : Type} (data : Interface σ) (s : σ) (a b : Nat) : Option σ :=
  insertionSort.outer data a (b - (a + 1)) s (a + 1)

/-- Function `sort.Sort` (`Sort` is a reserved word here), as the insertion sort that the
library runs on a short slice. -/
def SortData {σ : Type} (data : Interface σ) (s : σ) : Option σ :=
  insertionSort data s 0 (data.Len s)

end sort

namespace protocol

/-- The variable `statsDDefaultPercentiles`. -/
def statsDDefaultPercentiles {F : Type} (fl : Float64Math F) : List F :=
  [fl.const 0, fl.const 10, fl.const 50, fl.const 90, fl.const 95, fl.const 100]

/-- The description of a parsed metric, as far as the translator reads it. -/
structure statsDMetricDescription where
  name : String
  deriving DecidableEq, Repr

/-- The struct `statsDMetric`, as far as the translator reads it. -/
structure statsDMetric (F : Type) where
  description : statsDMetricDescription
  asFloat : F
  unit : String
  sampleRate : F
  labelKeys : List String
  labelValues : List String
  deriving DecidableEq, Repr

/-- The struct `summaryMetric`, as far as the translator reads it. -/
structure summaryMetric (F : Type) where
  name : String
  points : List F
  weights : List F
  labelKeys : List String
  labelValues : List String
  deriving DecidableEq, Repr

/-- Method `counterValue`: the division and the comparisons are those of `float64`. -/
def statsDMetric.counterValue {F : Type} (fl : Float64Math F) (s : statsDMetric F) : Int :=
  let x := s.asFloat
  let x :=
    if fl.lt (fl.const 0) s.sampleRate && fl.lt s.sampleRate (fl.const 1) then
      fl.div x s.sampleRate
    else x
  fl.toInt64 x

/-- Method `gaugeValue`. -/
def statsDMetric.gaugeValue {F : Type} (s : statsDMetric F) : F := s.asFloat

/-- The struct `dualSorter`: two slices that are sorted together. -/
structure dualSorter (α : Type) where
  values : List α
  weights : List α
  deriving DecidableEq, Repr

/-- Method `Len`. -/
def dualSorter.Len {α : Type} (d : dualSorter α) : Nat := d.values.length

/-- Method `Swap`: the slices afterwards, `none` when an index is outside of a slice. -/
def dualSorter.Swap {α : Type} (d : dualSorter α) (i j : Nat) : Option (dualSorter α) :=
  match d.values[i]?, d.values[j]?, d.weights[i]?, d.weights[j]? with
  | some vi, some vj, some wi, some wj =>
      some { values := (d.values.set i vj).set j vi, weights := (d.weights.set i wj).set j wi }
  | _, _, _, _ => none

/-- Method `Less`, for the comparison `lt` of the values; `none` when an index is outside of
the slice. -/
def dualSorter.Less {α : Type} (lt : α → α → Bool) (d : dualSorter α) (i j : Nat) :
    Option Bool :=
  match d.values[i]?, d.values[j]? with
  | some vi, some vj => some (lt vi vj)
  | _, _ => none

/-- A `dualSorter` as a `sort.Interface`, for the comparison `lt` of the values. -/
def dualSorter.asInterface {α : Type} (lt : α → α → Bool) : sort.Interface (dualSorter α) :=
  { Len := dualSorter.Len, Less := dualSorter.Less lt, Swap := dualSorter.Swap }

/-- The (value, weight) pairs of a sorter, in the order of the slices. -/
def dualSorter.pairs {α : Type} (d : dualSorter α) : List (α × α) := d.values.zip d.weights

/-- The sorter of a list of (value, weight) pairs. -/
def dualSorter.ofPairs {α : Type} (pairs : List (α × α)) : dualSorter α :=
  { values := pairs.map Prod.fst, weights := pairs.map Prod.snd }

/-- A run of `Swap` calls: the slices after the last call, `none` when a call panics. -/
def dualSorter.swaps {α : Type} : dualSorter α → List (Nat × Nat) → Option (dualSorter α)
  | d, [] => some d
  | d, (i, j) :: rest =>
    match d.Swap i j with
    | none => none
    | some d1 => dualSorter.swaps d1 rest

/-- The loop of the `build` functions that copies the labels of a parsed metric to the
attributes of the data point; `labelValues[i]` panics when the values are fewer than the
keys. -/
def insertLabels : List String → List String → AttributeMap → Option AttributeMap
  | [], _, attributes => some attributes
  | _ :: _, [], _ => none
  | key :: labelKeys, value :: labelValues, attributes =>
      insertLabels labelKeys labelValues (attributes.InsertString key value)

/-- The first loop of `buildSummaryMetric`, from the running `count` and `sum`: `count += c`
and `sum += summary.points[i] * c` in `float64`, the product and the sum rounded one after
the other; `weights[i]` panics when the weights are fewer than the points. -/
def buildSummaryMetric.totals {F : Type} (fl : Float64Math F) :
    List F → List F → F → F → Option (F × F)
  | [], _, count, sum => some (count, sum)
  | _ :: _, [], _, _ => none
  | point :: points, c :: weights, count, sum =>
      buildSummaryMetric.totals fl points weights (fl.add count c)
        (fl.add sum (fl.mul point c))

/-- The last loop of `buildSummaryMetric`: one quantile entry per percentile, with the
`float64` quotient `pct / 100`.  `Quantile` is `stat.Quantile` with the kind
`stat.Empirical`, `none` when it panics. -/
def buildSummaryMetric.quantiles {F : Type} (fl : Float64Math F)
    (Quantile : F → List F → List F → Option F) (points weights : List F) :
    List F → Option (List (ValueAtQuantile F))
  | [] => some []
  | pct :: percentiles =>
    match Quantile (fl.div pct (fl.const 100)) points weights with
    | none => none
    | some value =>
      match buildSummaryMetric.quantiles fl Quantile points weights percentiles with
      | none => none
      | some rest => some ({ quantile := fl.div pct (fl.const 100), value := value } :: rest)

/-- Function `buildSummaryMetric`.  `Quantile` is `stat.Quantile` with the kind
`stat.Empirical`.  The result is the metrics slice of `ilm` afterwards, together with the
points and the weights of the summary as the sort leaves them; `none` when the function
panics. -/
def buildSummaryMetric {F : Type} (fl : Float64Math F)
    (Quantile : F → List F → List F → Option F) (summary : summaryMetric F)
    (startTime timeNow : Timestamp) (percentiles : List F) (ilm : List (SummaryMetric F)) :
    Option (List (SummaryMetric F) × dualSorter F) :=
  match buildSummaryMetric.totals fl summary.points summary.weights (fl.const 0)
      (fl.const 0) with
  | none => none
  | some (count, sum) =>
    match insertLabels summary.labelKeys summary.labelValues [] with
    | none => none
    | some attributes =>
      match sort.SortData (dualSorter.asInterface fl.lt)
          { values := summary.points, weights := summary.weights } with
      | none => none
      | some sorted =>
        match buildSummaryMetric.quantiles fl Quantile sorted.values sorted.weights
            percentiles with
        | none => none
        | some quantileValues =>
            some (ilm ++ [{ name := summary.name,
                            dataPoints := [{ attributes := attributes,
                                             startTimestamp := startTime,
                                             timestamp := timeNow,
                                             count := fl.toUInt64 count,
                                             sum := sum,
                                             quantileValues := quantileValues }] }],
                  sorted)

end protocol

/-! ## Label values of the Cloud Spanner receiver (`labelvalue.go`)

The file belongs to the package `metadata` of the receiver `googlecloudspannerreceiver`.
A value of the type `interface{}` that holds a pointer is given by the type and the value
of the variable pointed to; a type assertion that fails panics, and a function that can
panic returns an `Option`, with `none` for the panic.  A byte slice is given by the string
that has its bytes, so that the conversion `string(b)` is the identity.  Go compares
strings byte by byte, which on UTF-8 text is the order of the code points. -/

namespace sort

/-- Function `sort.Strings`: the strings in increasing order. -/
def Strings (x : List String) : List String := x.insertionSort (fun a b => a ≤ b)

end sort

namespace strings

/-- Function `strings.Join`: the elements in a row, with `sep` between neighbours. -/
def Join : List String → String → String
  | [], _ => ""
  | [a], _ => a
  | a :: b :: rest, sep => a ++ sep ++ Join (b :: rest) sep

end strings

namespace googlecloudspannerreceiver

/-- The type `ValueType`.  It is declared outside of `labelvalue.go`; the switch of
`NewLabelValueMetadata` names five of its constants, which a switch requires to be
distinct, and `other` stands for every remaining value of the type. -/
inductive ValueType where
  | StringValueType : ValueType
  | IntValueType : ValueType
  | BoolValueType : ValueType
  | StringSliceValueType : ValueType
  | ByteSliceValueType : ValueType
  | other (raw : String) : ValueType
  deriving DecidableEq, Repr

/-- A value of the type `interface{}` as the file meets it: a pointer to a variable of one
of the five held types, with the value of the variable, or any other value. -/
inductive Holder where
  | stringPtr (v : String) : Holder
  | int64Ptr (v : Int) : Holder
  | boolPtr (v : Bool) : Holder
  | stringSlicePtr (v : List String) : Holder
  | byteSlicePtr (v : String) : Holder
  | other : Holder
  deriving DecidableEq, Repr

/-- The interface `LabelValueMetadata` as a label value keeps it: what the methods `Name`,
`ColumnName` and `ValueType` of the metadata return. -/
structure LabelValueMetadata where
  name : String
  columnName : String
  valueType : ValueType
  deriving DecidableEq, Repr

/-- The interface `LabelValue`, with the five structs that implement it. -/
inductive LabelValue where
  | stringLabelValue (metadata : LabelValueMetadata) (value : String) : LabelValue
  | int64LabelValue (metadata : LabelValueMetadata) (value : Int) : LabelValue
  | boolLabelValue (metadata : LabelValueMetadata) (value : Bool) : LabelValue
  | stringSliceLabelValue (metadata : LabelValueMetadata) (value : String) : LabelValue
  | byteSliceLabelValue (metadata : LabelValueMetadata) (value : String) : LabelValue
  deriving DecidableEq, Repr

/-- Method `Metadata` of the five label values. -/
def LabelValue.Metadata : LabelValue → LabelValueMetadata
  | .stringLabelValue metadata _ => metadata
  | .int64LabelValue metadata _ => metadata
  | .boolLabelValue metadata _ => metadata
  | .stringSliceLabelValue metadata _ => metadata
  | .byteSliceLabelValue metadata _ => metadata

/-- The type `newLabelValueFunction`. -/
abbrev newLabelValueFunction := LabelValueMetadata → Holder → Option LabelValue

/-- The type `valueHolderFunction`. -/
abbrev valueHolderFunction := Unit → Holder

/-- The struct `queryLabelValueMetadata`. -/
structure queryLabelValueMetadata where
  name : String
  columnName : String
  valueType : ValueType
  newLabelValueFunc : newLabelValueFunction
  valueHolderFunc : valueHolderFunction

/-- The metadata as the value of the interface `LabelValueMetadata`. -/
def queryLabelValueMetadata.asLabelValueMetadata (m : queryLabelValueMetadata) :
    LabelValueMetadata :=
  { name := m.name, columnName := m.columnName, valueType := m.valueType }

/-- Method `ValueHolder`. -/
def queryLabelValueMetadata.ValueHolder (m : queryLabelValueMetadata) : Holder :=
  m.valueHolderFunc ()

/-- Method `NewLabelValue`. -/
def queryLabelValueMetadata.NewLabelValue (m : queryLabelValueMetadata) (value : Holder) :
    Option LabelValue :=
  m.newLabelValueFunc m.asLabelValueMetadata value

/-- Method `ValueType`. -/
def queryLabelValueMetadata.ValueType (m : queryLabelValueMetadata) : ValueType := m.valueType

/-- Method `Name`. -/
def queryLabelValueMetadata.Name (m : queryLabelValueMetadata) : String := m.name

/-- Method `ColumnName`. -/
def queryLabelValueMetadata.ColumnName (m : queryLabelValueMetadata) : String := m.columnName

/-- Function `newStringLabelValue`. -/
def newStringLabelValue (metadata : LabelValueMetadata) (valueHolder : Holder) :
    Option LabelValue :=
  match valueHolder with
  | .stringPtr v => some (.stringLabelValue metadata v)
  | _ => none

/-- Function `newInt64LabelValue`. -/
def newInt64LabelValue (metadata : LabelValueMetadata) (valueHolder : Holder) :
    Option LabelValue :=
  match valueHolder with
  | .int64Ptr v => some (.int64LabelValue metadata v)
  | _ => none

/-- Function `newBoolLabelValue`. -/
def newBoolLabelValue (metadata : LabelValueMetadata) (valueHolder : Holder) :
    Option LabelValue :=
  match valueHolder with
  | .boolPtr v => some (.boolLabelValue metadata v)
  | _ => none

/-- Function `newStringSliceLabelValue`. -/
def newStringSliceLabelValue (metadata : LabelValueMetadata) (valueHolder : Holder) :
    Option LabelValue :=
  match valueHolder with
  | .stringSlicePtr value =>
      let value := sort.Strings value
      let sortedAndConstructedValue := strings.Join value ","
      some (.stringSliceLabelValue metadata sortedAndConstructedValue)
  | _ => none

/-- Function `newByteSliceLabelValue`. -/
def newByteSliceLabelValue (metadata : LabelValueMetadata) (valueHolder : Holder) :
    Option LabelValue :=
  match valueHolder with
  | .byteSlicePtr v => some (.byteSliceLabelValue metadata v)
  | _ => none

/-- An error built by `fmt.Errorf` from a format and its arguments. -/
structure FormatError where
  format : String
  args : List String
  deriving DecidableEq, Repr

/-- Function `NewLabelValueMetadata`. -/
def NewLabelValueMetadata (name columnName : String) (valueType : ValueType) :
    Except FormatError queryLabelValueMetadata :=
  let funcs : Option (newLabelValueFunction × valueHolderFunction) :=
    match valueType with
    | .StringValueType => some (newStringLabelValue, fun _ => .stringPtr "")
    | .IntValueType => some (newInt64LabelValue, fun _ => .int64Ptr 0)
    | .BoolValueType => some (newBoolLabelValue, fun _ => .boolPtr false)
    | .StringSliceValueType => some (newStringSliceLabelValue, fun _ => .stringSlicePtr [])
    | .ByteSliceValueType => some (newByteSliceLabelValue, fun _ => .byteSlicePtr "")
    | .other _ => none
  match funcs with
  | none =>
      .error { format := "invalid value type received for label %q", args := [name] }
  | some (newLabelValueFunc, valueHolderFunc) =>
      .ok { name := name, columnName := columnName, valueType := valueType,
            newLabelValueFunc := newLabelValueFunc, valueHolderFunc := valueHolderFunc }

end googlecloudspannerreceiver

/-! ## Sample inputs

Small concrete scrapers over the environment `Unit`, with strings as errors. -/

namespace Samples

/-- A wall clock that always shows 20 s after the epoch. -/
def clock : Unit → Timestamp × Unit := fun w => (20000000000, w)

/-- An `appendCPUTimeStateDataPoints` that appends one point per CPU, for the user time. -/
def appendUser : List (NumberDataPoint ℚ) → Timestamp → Timestamp → TimesStat ℚ →
    List (NumberDataPoint ℚ) :=
  fun ddps startTime now cpuTime =>
    ddps ++ [cpuscraper.initializeCPUTimeDataPoint NumberDataPoint.fresh startTime now
      cpuTime.CPU "user" cpuTime.User]

/-- A CPU scraper whose CPU-times read fails. -/
def cpuTimesFail : cpuscraper.scraper Unit String Unit ℚ :=
  { config := (), startTime := 5000000000,
    bootTime := fun w => (Except.ok 5, w),
    times := fun _ w => (Except.error "cpu times unavailable", w) }

/-- A performance-counter backend whose `Scrape` fails. -/
def backendScrapeFail : perfcounters.PerfCounterScraper String Unit :=
  { Initialize := fun _ w => (none, w),
    Scrape := fun w => (Except.error "counter query failed", w) }

/-- A disk scraper whose performance-counter `Scrape` fails. -/
def diskScrapeFail : diskscraper.scraper Unit String Unit :=
  { config := { Include := { Config := (), Devices := [] },
                Exclude := { Config := (), Devices := [] } },
    startTime := 5000000000, includeFS := none, excludeFS := none,
    perfCounterScraper := backendScrapeFail,
    bootTime := fun w => (Except.ok 5, w) }

/-- A clock on an environment that is a log of the calls made so far. -/
def logClock : List String → Timestamp × List String := fun w => (20000000000, w)

/-- A counter object that logs its calls and whose `GetValues` returns `vals`. -/
def loggedObject (vals : List perfcounters.CounterValues) :
    perfcounters.PerfDataObject String (List String) :=
  { Filter := fun _ _ _ w => w ++ ["Filter"],
    GetValues := fun _ w => (Except.ok vals, w ++ ["GetValues"]) }

/-- A backend that logs its calls: `Initialize` returns `initResult` and logs the
categories it is given, `Scrape` returns a collection whose every object is
`loggedObject vals`. -/
def loggedBackend (initResult : Option String) (vals : List perfcounters.CounterValues) :
    perfcounters.PerfCounterScraper String (List String) :=
  { Initialize := fun objects w => (initResult, w ++ ["Initialize"] ++ objects),
    Scrape := fun w =>
      (Except.ok { GetObject := fun _ w => (Except.ok (loggedObject vals), w ++ ["GetObject"]) },
       w ++ ["Scrape"]) }

/-- A backend that logs its calls and whose `Scrape` fails. -/
def loggedBackendScrapeFail : perfcounters.PerfCounterScraper String (List String) :=
  { Initialize := fun objects w => (none, w ++ ["Initialize"] ++ objects),
    Scrape := fun w => (Except.error "counter query failed", w ++ ["Scrape"]) }

/-- The memory counters of one snapshot: 3 page reads and 4 page writes. -/
def memoryCounters : perfcounters.CounterValues :=
  { InstanceName := "", Values := [("Page Reads/sec", 3), ("Page Writes/sec", 4)] }

/-- A paging scraper whose page-file read fails while the backend returns the counters
`vals`. -/
def pagingUsageFail (vals : List perfcounters.CounterValues) :
    pagingscraper.scraper Unit String (List String) :=
  { config := (), startTime := 5000000000,
    perfCounterScraper := loggedBackend none vals,
    bootTime := fun w => (Except.ok 5, w ++ ["bootTime"]),
    pageFileStatsFn := fun w => (Except.error "no page file data", w ++ ["pageFileStats"]) }

/-- A paging scraper whose page-file read succeeds (one page file) while the backend's
`Scrape` fails. -/
def pagingOperationsFail : pagingscraper.scraper Unit String (List String) :=
  { config := (), startTime := 5000000000,
    perfCounterScraper := loggedBackendScrapeFail,
    bootTime := fun w => (Except.ok 5, w ++ ["bootTime"]),
    pageFileStatsFn := fun w =>
      (Except.ok [{ deviceName := "pagefile.sys", usedBytes := 10, freeBytes := 90 }],
       w ++ ["pageFileStats"]) }

/-- A paging scraper both of whose reads fail. -/
def pagingBothFail : pagingscraper.scraper Unit String (List String) :=
  { config := (), startTime := 5000000000,
    perfCounterScraper := loggedBackendScrapeFail,
    bootTime := fun w => (Except.ok 5, w ++ ["bootTime"]),
    pageFileStatsFn := fun w => (Except.error "no page file data", w ++ ["pageFileStats"]) }

/-- A CPU scraper, not yet started, whose boot-time read returns `b` seconds. -/
def cpuBoot (b : Nat) : cpuscraper.scraper Unit String (List String) ℚ :=
  { config := (), startTime := 0,
    bootTime := fun w => (Except.ok b, w ++ ["bootTime"]),
    times := fun _ w => (Except.ok [], w ++ ["times"]) }

/-- A CPU scraper with start time 7 whose boot-time read fails. -/
def cpuBootFail : cpuscraper.scraper Unit String (List String) ℚ :=
  { config := (), startTime := 7,
    bootTime := fun w => (Except.error "boot time unavailable", w ++ ["bootTime"]),
    times := fun _ w => (Except.ok [], w ++ ["times"]) }

/-- A disk scraper, not yet started, whose boot-time read returns `b` seconds and whose
backend's `Initialize` returns `initResult`. -/
def diskBoot (b : Nat) (initResult : Option String) :
    diskscraper.scraper Unit String (List String) :=
  { config := { Include := { Config := (), Devices := [] },
                Exclude := { Config := (), Devices := [] } },
    startTime := 0, includeFS := none, excludeFS := none,
    perfCounterScraper := loggedBackend initResult [],
    bootTime := fun w => (Except.ok b, w ++ ["bootTime"]) }

/-- A disk scraper whose boot-time read fails. -/
def diskBootFail : diskscraper.scraper Unit String (List String) :=
  { config := { Include := { Config := (), Devices := [] },
                Exclude := { Config := (), Devices := [] } },
    startTime := 0, includeFS := none, excludeFS := none,
    perfCounterScraper := loggedBackend none [],
    bootTime := fun w => (Except.error "boot time unavailable", w ++ ["bootTime"]) }

/-- A paging scraper, not yet started, whose boot-time read returns `b` seconds and whose
backend's `Initialize` returns `initResult`. -/
def pagingBoot (b : Nat) (initResult : Option String) :
    pagingscraper.scraper Unit String (List String) :=
  { config := (), startTime := 0,
    perfCounterScraper := loggedBackend initResult [],
    bootTime := fun w => (Except.ok b, w ++ ["bootTime"]),
    pageFileStatsFn := fun w => (Except.ok [], w ++ ["pageFileStats"]) }

/-- A paging scraper whose boot-time read fails. -/
def pagingBootFail : pagingscraper.scraper Unit String (List String) :=
  { config := (), startTime := 0,
    perfCounterScraper := loggedBackend none [],
    bootTime := fun w => (Except.error "boot time unavailable", w ++ ["bootTime"]),
    pageFileStatsFn := fun w => (Except.ok [], w ++ ["pageFileStats"]) }

/-- The counters of disk `sda`: 5 reads and 7 writes. -/
def sda : perfcounters.CounterValues :=
  { InstanceName := "sda", Values := [("Disk Reads/sec", 5), ("Disk Writes/sec", 7)] }

/-- The counters of disk `sdb`: 2 reads and 1 write. -/
def sdb : perfcounters.CounterValues :=
  { InstanceName := "sdb", Values := [("Disk Reads/sec", 2), ("Disk Writes/sec", 1)] }

/-- A disk `C:` that has been idle for 360287970189649 ticks of 100 ns. -/
def idleDisk : perfcounters.CounterValues :=
  { InstanceName := "C:", Values := [("% Idle Time", 360287970189649)] }

/-- A disk `C:` that has been idle for 4 s, in ticks of 100 ns. -/
def busyDisk : perfcounters.CounterValues :=
  { InstanceName := "C:", Values := [("% Idle Time", 40000000)] }

/-- A page file of which `2 ^ 63` bytes are used. -/
def hugePageFile : pagingscraper.pageFileStats :=
  { deviceName := "pagefile.sys", usedBytes := 9223372036854775808, freeBytes := 0 }

/-- A page file with 10 bytes used and 90 bytes free. -/
def smallPageFile : pagingscraper.pageFileStats :=
  { deviceName := "pagefile.sys", usedBytes := 10, freeBytes := 90 }

/-- The CPU times of a process: 3 s user, 2 s system, 1 s waiting. -/
def processTimes : TimesStat ℚ :=
  { CPU := "cpu", User := 3, System := 2, Idle := 0, Nice := 0, Iowait := 1, Irq := 0,
    Softirq := 0, Steal := 0, Guest := 0, GuestNice := 0 }

/-- A process handle that logs its calls: the name read returns `name`, the executable
read `exe`, the command-line read `cmdline`. -/
def loggedProcess (name exe : Except String String) (cmdline : Except String (List String)) :
    processscraper.processHandle String (List String) :=
  { Name := fun w => (name, w ++ ["Name"]),
    Exe := fun w => (exe, w ++ ["Exe"]),
    CmdlineSlice := fun w => (cmdline, w ++ ["CmdlineSlice"]) }

/-- A filter compiler that logs its calls and rejects every pattern list containing the
pattern "(". -/
def loggedCompiler : List String → Unit → List String → Except String FilterSet × List String :=
  fun devices _ w =>
    if devices.contains "(" then (Except.error "invalid pattern", w ++ ["CreateFilterSet"])
    else (Except.ok (strictFilterSet devices), w ++ ["CreateFilterSet"])

/-- A disk configuration with the given include and exclude device lists. -/
def diskConfig (includeDevices excludeDevices : List String) : diskscraper.Config Unit :=
  { Include := { Config := (), Devices := includeDevices },
    Exclude := { Config := (), Devices := excludeDevices } }

/-- The eight counter names the disk scraper asks for. -/
def diskCounterNames : List String :=
  ["Disk Reads/sec", "Disk Writes/sec", "Disk Read Bytes/sec", "Disk Write Bytes/sec",
   "% Idle Time", "Avg. Disk sec/Read", "Avg. Disk sec/Write", "Current Disk Queue Length"]

/-- The counters of a disk called `name`, with the same small values for every disk. -/
def diskCounters (name : String) : perfcounters.CounterValues :=
  { InstanceName := name,
    Values := [("Disk Reads/sec", 5), ("Disk Writes/sec", 7), ("Disk Read Bytes/sec", 50),
      ("Disk Write Bytes/sec", 70), ("% Idle Time", 40000000), ("Avg. Disk sec/Read", 20000),
      ("Avg. Disk sec/Write", 30000), ("Current Disk Queue Length", 1)] }

/-- The logical-disk category with the three instances sda, sdb and sdc. -/
def threeDisks : perfcounters.perfDataObject :=
  { counterNames := diskCounterNames,
    instances := [diskCounters "sda", diskCounters "sdb", diskCounters "sdc"] }

/-- An environment in which no category has been queried yet. -/
def noCounters : perfcounters.perfDataObject := { counterNames := [], instances := [] }

/-- A clock on the environment of the snapshot backend. -/
def snapshotClock : perfcounters.perfDataObject → Timestamp × perfcounters.perfDataObject :=
  fun w => (20000000000, w)

/-- The disk scraper that `newDiskScraper` builds, with the literal filter compiler, from
the include list `["sda"]` and the exclude list `["sdb"]`, over a backend that finds the
three disks. -/
def filteredDisk : diskscraper.scraper Unit String perfcounters.perfDataObject :=
  { config := diskConfig ["sda"] ["sdb"], startTime := 0,
    includeFS := some (strictFilterSet ["sda"]), excludeFS := some (strictFilterSet ["sdb"]),
    perfCounterScraper := perfcounters.snapshotBackend "LogicalDisk" threeDisks,
    bootTime := fun w => (Except.ok 5, w) }

/-- The I/O counters of a device whose weighted I/O time is `weighted` milliseconds, all
other counters zero. -/
def ioCounters (name : String) (weighted : Nat) : IOCountersStat :=
  { ReadCount := 0, MergedReadCount := 0, WriteCount := 0, MergedWriteCount := 0,
    ReadBytes := 0, WriteBytes := 0, ReadTime := 0, WriteTime := 0, IopsInProgress := 0,
    IoTime := 0, WeightedIO := weighted, Name := name, SerialNumber := "", Label := "" }

/-- An action on a counter of its own invocations that fails on the first `n` of them. -/
def failsFirst (n : Nat) : Nat → Option String × Nat :=
  fun c => (if c < n then some "unavailable" else none, c + 1)

/-- A sleep that does nothing to the counter. -/
def noSleep : Int → Nat → Nat := fun _ c => c

/-- An implementation whose out-of-range conversions give the bit pattern `0x8000000000000000`,
the integer indefinite value of the x86-64 conversion instructions. -/
def integerIndefinite : ℚ → Int := fun _ => -2 ^ 63

/-- A counter with the value `2 ^ 63` and no sampling. -/
def hugeCounter : protocol.statsDMetric ℚ :=
  { description := { name := "hits" }, asFloat := 9223372036854775808, unit := "",
    sampleRate := 1, labelKeys := [], labelValues := [] }

/-- A counter with the value 1, sampled at the rate `0.1`, the `float64` nearest to 1/10. -/
def tenthCounter : protocol.statsDMetric ℚ :=
  { description := { name := "hits" }, asFloat := 1, unit := "",
    sampleRate := 3602879701896397 / 36028797018963968, labelKeys := [], labelValues := [] }

/-- A counter with the value 3, sampled at the rate `1.0 / 75`, the `float64` nearest to
1/75. -/
def seventyFifthCounter : protocol.statsDMetric ℚ :=
  { description := { name := "hits" }, asFloat := 3, unit := "",
    sampleRate := 7686143364045647 / 576460752303423488, labelKeys := [],
    labelValues := [] }

/-- A counter with the value 3, sampled at the rate 1/4. -/
def quarterCounter : protocol.statsDMetric ℚ :=
  { description := { name := "hits" }, asFloat := 3, unit := "", sampleRate := 1 / 4,
    labelKeys := [], labelValues := [] }

/-- A quantile function that answers with the first point, and panics when there is none. -/
def firstPoint : ℚ → List ℚ → List ℚ → Option ℚ := fun _ points _ => points.head?

/-- A summary of two timings with one label. -/
def timings : protocol.summaryMetric ℚ :=
  { name := "latency", points := [20, 10], weights := [4, 1], labelKeys := ["host"],
    labelValues := ["a"] }

/-- A summary of one timing whose label has a key and no value. -/
def unlabelled : protocol.summaryMetric ℚ :=
  { name := "latency", points := [10], weights := [1], labelKeys := ["host"],
    labelValues := [] }

/-- A summary of one timing with the weight `2 ^ 64`. -/
def heavy : protocol.summaryMetric ℚ :=
  { name := "latency", points := [10], weights := [18446744073709551616], labelKeys := [],
    labelValues := [] }

/-- A summary of the timings `2 ^ 53`, 1 and `-2 ^ 53`, each with the weight 1. -/
def cancelling : protocol.summaryMetric ℚ :=
  { name := "latency", points := [9007199254740992, 1, -9007199254740992],
    weights := [1, 1, 1], labelKeys := [], labelValues := [] }

/-- The timings of `cancelling` in another order: `2 ^ 53`, `-2 ^ 53` and 1. -/
def cancellingReordered : protocol.summaryMetric ℚ :=
  { name := "latency", points := [9007199254740992, -9007199254740992, 1],
    weights := [1, 1, 1], labelKeys := [], labelValues := [] }

/-- The timings 3 and 1 with the weights 10 and 20. -/
def unsortedTimings : protocol.dualSorter Float64.Extended :=
  { values := [.finite 3, .finite 1], weights := [.finite 10, .finite 20] }

/-- The timings 2, NaN and 1, each with the weight 1. -/
def nanTimings : protocol.dualSorter Float64.Extended :=
  { values := [.finite 2, .nan, .finite 1], weights := [.finite 1, .finite 1, .finite 1] }

/-- A disk `C:` whose average time per read and per write is one tick of 100 ns. -/
def oneTickDisk : perfcounters.CounterValues :=
  { InstanceName := "C:", Values := [("Avg. Disk sec/Read", 1), ("Avg. Disk sec/Write", 1)] }

end Samples

end HostMetrics

/-! # Checked properties -/

namespace HostMetrics

/-! ## Scrapes whose first read fails -/

/-- The batch built around an empty metric slice holds no metric. -/
theorem metricCount_withMetrics {F : Type} (ms : List (Metric F)) :
    (Metrics.withMetrics ms).MetricCount = ms.length := by
  simp [Metrics.withMetrics, Metrics.MetricCount, Metrics.allMetrics]

/-- C1, as stated, fails: the CPU scraper whose CPU-times read fails returns an error that
is not fatal, it is a partial-scrape error carrying the missing-metric count 1. -/
theorem C1_counterexample :
    (Samples.cpuTimesFail.times true (Samples.clock ()).2).1
        = Except.error "cpu times unavailable" ∧
      ¬ ((cpuscraper.scraper.scrape Samples.appendUser Samples.clock
              Samples.cpuTimesFail ()).ret.1.MetricCount = 0 ∧
          IsFatalScrapeError (cpuscraper.scraper.scrape Samples.appendUser Samples.clock
              Samples.cpuTimesFail ()).ret.2 = true) ∧
      (cpuscraper.scraper.scrape Samples.appendUser Samples.clock
          Samples.cpuTimesFail ()).ret.2
        = some (ScrapeError.partialScrape ["cpu times unavailable"] 1) := by
  refine ⟨rfl, ?_, rfl⟩
  rintro ⟨-, h⟩
  exact absurd h (by decide)

/-- C1, amended: when the first counter read of `scrape` fails with `err` (the CPU-times
read for the CPU scraper, the backend's `Scrape` for the Windows disk scraper), `scrape`
returns a batch holding no metric together with a partial-scrape error whose cause is
`err` and whose missing-metric count is the scraper's `metricsLen` (1 for CPU, 5 for disk);
that error is not a fatal one. -/
theorem C1_first_read_failure :
    (∀ (κ ε ω F : Type)
        (append : List (NumberDataPoint F) → Timestamp → Timestamp → TimesStat F →
          List (NumberDataPoint F))
        (timeNow : ω → Timestamp × ω) (s : cpuscraper.scraper κ ε ω F) (w : ω) (err : ε),
        (s.times true (timeNow w).2).1 = Except.error err →
        (cpuscraper.scraper.scrape append timeNow s w).ret.1.MetricCount = 0 ∧
        (cpuscraper.scraper.scrape append timeNow s w).ret.2
          = some (ScrapeError.partialScrape [err] 1) ∧
        IsPartialScrapeError (cpuscraper.scraper.scrape append timeNow s w).ret.2 = true ∧
        IsFatalScrapeError (cpuscraper.scraper.scrape append timeNow s w).ret.2 = false) ∧
    (∀ (γ ε ω F : Type) (fl : Float64Ops F) (asInt : diskscraper.IntPointInit F)
        (asDouble : diskscraper.DoublePointInit F) (timeNow : ω → Timestamp × ω)
        (s : diskscraper.scraper γ ε ω) (w : ω) (err : ε),
        (s.perfCounterScraper.Scrape (timeNow w).2).1 = Except.error err →
        (diskscraper.scraper.scrape fl asInt asDouble timeNow s w).ret.1.MetricCount = 0 ∧
        (diskscraper.scraper.scrape fl asInt asDouble timeNow s w).ret.2
          = some (ScrapeError.partialScrape [err] 5) ∧
        IsPartialScrapeError
          (diskscraper.scraper.scrape fl asInt asDouble timeNow s w).ret.2 = true ∧
        IsFatalScrapeError
          (diskscraper.scraper.scrape fl asInt asDouble timeNow s w).ret.2 = false) := by
  constructor
  · intro κ ε ω F append timeNow s w err h
    unfold cpuscraper.scraper.scrape
    rcases hn : timeNow w with ⟨now, w1⟩
    rw [hn] at h
    rcases ht : s.times true w1 with ⟨r, w2⟩
    rw [ht] at h
    simp only at h
    subst h
    simp [ht, metricCount_withMetrics, NewPartialScrapeError, cpuscraper.metricsLen,
      IsPartialScrapeError, IsFatalScrapeError]
  · intro γ ε ω F fl asInt asDouble timeNow s w err h
    unfold diskscraper.scraper.scrape
    rcases hn : timeNow w with ⟨now, w1⟩
    rw [hn] at h
    rcases ht : s.perfCounterScraper.Scrape w1 with ⟨r, w2⟩
    rw [ht] at h
    simp only at h
    subst h
    simp [ht, metricCount_withMetrics, NewPartialScrapeError, diskscraper.metricsLen,
      IsPartialScrapeError, IsFatalScrapeError]

/-- C1, amended, at the sample CPU and disk scrapers whose first read fails. -/
theorem C1_first_read_failure_witness :
    ((cpuscraper.scraper.scrape Samples.appendUser Samples.clock
          Samples.cpuTimesFail ()).ret.1.MetricCount = 0 ∧
      (cpuscraper.scraper.scrape Samples.appendUser Samples.clock
          Samples.cpuTimesFail ()).ret.2
        = some (ScrapeError.partialScrape ["cpu times unavailable"] 1)) ∧
    ((diskscraper.scraper.scrape Float64.ieee
          diskscraper.initializeNumberDataPointAsInt
          diskscraper.initializeNumberDataPointAsDouble Samples.clock
          Samples.diskScrapeFail ()).ret.1.MetricCount = 0 ∧
      (diskscraper.scraper.scrape Float64.ieee
          diskscraper.initializeNumberDataPointAsInt
          diskscraper.initializeNumberDataPointAsDouble Samples.clock
          Samples.diskScrapeFail ()).ret.2
        = some (ScrapeError.partialScrape ["counter query failed"] 5)) :=
  ⟨let h := C1_first_read_failure.1 Unit String Unit ℚ Samples.appendUser Samples.clock
      Samples.cpuTimesFail () "cpu times unavailable" rfl
   ⟨h.1, h.2.1⟩,
   let h := C1_first_read_failure.2 Unit String Unit ℚ
      Float64.ieee
      diskscraper.initializeNumberDataPointAsInt
      diskscraper.initializeNumberDataPointAsDouble Samples.clock
      Samples.diskScrapeFail () "counter query failed" rfl
   ⟨h.1, h.2.1⟩⟩

/-! ## The two steps of the paging scrape -/

/-- The first step of the paging scrape leaves the receiver as it was. -/
theorem paging_usage_self {κ ε ω F : Type} (timeNow : ω → Timestamp × ω)
    (s : pagingscraper.scraper κ ε ω) (ms : List (Metric F)) (w : ω) :
    (s.scrapeAndAppendPagingUsageMetric timeNow ms w).self = s := by
  unfold pagingscraper.scraper.scrapeAndAppendPagingUsageMetric
  rcases timeNow w with ⟨now, w1⟩
  simp only
  rcases s.pageFileStatsFn w1 with ⟨r | r, w2⟩ <;> rfl

/-- C2, as stated, fails: with a failing page-file read and a second step that succeeds
with `GetValues` returning no instance, the batch holds no metric. -/
theorem C2_counterexample :
    (Samples.pagingUsageFail []).pageFileStatsFn (Samples.logClock []).2
        = (Except.error "no page file data", ["pageFileStats"]) ∧
      (pagingscraper.scraper.scrapeAndAppendPagingOperationsMetric (F := ℚ) Samples.logClock
          (Samples.pagingUsageFail []) [] ["pageFileStats"]).ret.2 = none ∧
      (pagingscraper.scraper.scrapeAndAppendPagingOperationsMetric (F := ℚ) Samples.logClock
          (Samples.pagingUsageFail []) [] ["pageFileStats"]).world
        = ["pageFileStats", "Scrape", "GetObject", "GetValues"] ∧
      ¬ (1 ≤ (pagingscraper.scraper.scrape (F := ℚ) Samples.logClock
          (Samples.pagingUsageFail []) []).ret.1.MetricCount) ∧
      (pagingscraper.scraper.scrape (F := ℚ) Samples.logClock
          (Samples.pagingUsageFail []) []).ret.1.MetricCount = 0 := by
  refine ⟨rfl, rfl, rfl, ?_, rfl⟩
  decide

/-- C2, amended: in a run of the paging `scrape` in which the page-file-stats read fails
with `err` and the second step succeeds (`Scrape`, `GetObject("Memory")` and `GetValues`
all succeed, the latter returning `vals`), `scrape` returns a partial-scrape error with
cause `err` and missing-metric count `pagingUsageMetricsLen = 1`; the batch holds exactly
one metric, the paging-operations metric of the first instance, when `vals` has an
instance, and no metric when `vals` is empty. -/
theorem C2_usage_fails_operations_succeed {κ ε ω F : Type} (timeNow : ω → Timestamp × ω)
    (s : pagingscraper.scraper κ ε ω) (w w1 w2 w3 w4 w5 w6 : ω) (now1 now2 : Timestamp)
    (err : ε) (counters : perfcounters.PerfDataCollection ε ω)
    (memoryObject : perfcounters.PerfDataObject ε ω) (vals : List perfcounters.CounterValues)
    (hnow1 : timeNow w = (now1, w1))
    (husage : s.pageFileStatsFn w1 = (Except.error err, w2))
    (hnow2 : timeNow w2 = (now2, w3))
    (hscrape : s.perfCounterScraper.Scrape w3 = (Except.ok counters, w4))
    (hobject : counters.GetObject pagingscraper.memory w4 = (Except.ok memoryObject, w5))
    (hvalues : memoryObject.GetValues
      [pagingscraper.pageReadsPerSec, pagingscraper.pageWritesPerSec] w5
        = (Except.ok vals, w6)) :
    (pagingscraper.scraper.scrape (F := F) timeNow s w).ret.2
        = some (ScrapeError.partialScrape [err] pagingscraper.pagingUsageMetricsLen) ∧
      pagingscraper.pagingUsageMetricsLen = 1 ∧
      (∀ c rest, vals = c :: rest →
        (pagingscraper.scraper.scrape (F := F) timeNow s w).ret.1
          = Metrics.withMetrics
              [pagingscraper.initializePagingOperationsMetric Metric.fresh s.startTime now2 c] ∧
        (pagingscraper.scraper.scrape (F := F) timeNow s w).ret.1.MetricCount = 1) ∧
      (vals = [] →
        (pagingscraper.scraper.scrape (F := F) timeNow s w).ret.1.MetricCount = 0) := by
  have h1 : (s.scrapeAndAppendPagingUsageMetric (F := F) timeNow [] w)
      = { ret := ([], some err), self := s, world := w2 } := by
    simp [pagingscraper.scraper.scrapeAndAppendPagingUsageMetric, hnow1, husage]
  have h2 : (s.scrapeAndAppendPagingOperationsMetric (F := F) timeNow [] w2)
      = { ret := (match vals with
                  | c :: _ => [pagingscraper.initializePagingOperationsMetric Metric.fresh
                      s.startTime now2 c]
                  | [] => [], none),
          self := s, world := w6 } := by
    simp only [pagingscraper.scraper.scrapeAndAppendPagingOperationsMetric, hnow2, hscrape,
      hobject, hvalues]
    cases vals <;> simp
  refine ⟨?_, rfl, ?_, ?_⟩
  · simp [pagingscraper.scraper.scrape, h1, h2, ScrapeErrors.AddPartial, ScrapeErrors.Combine]
  · intro c rest hv
    subst hv
    simp [pagingscraper.scraper.scrape, h1, h2, metricCount_withMetrics]
  · intro hv
    subst hv
    simp [pagingscraper.scraper.scrape, h1, h2, metricCount_withMetrics]

/-- C2, amended, at the sample scraper whose page-file read fails and whose backend returns
one memory snapshot. -/
theorem C2_usage_fails_operations_succeed_witness :
    (pagingscraper.scraper.scrape (F := ℚ) Samples.logClock
        (Samples.pagingUsageFail [Samples.memoryCounters]) []).ret.2
      = some (ScrapeError.partialScrape ["no page file data"] 1) ∧
    (pagingscraper.scraper.scrape (F := ℚ) Samples.logClock
        (Samples.pagingUsageFail [Samples.memoryCounters]) []).ret.1.MetricCount = 1 :=
  let h := C2_usage_fails_operations_succeed (F := ℚ) Samples.logClock
    (Samples.pagingUsageFail [Samples.memoryCounters]) [] [] ["pageFileStats"]
    ["pageFileStats"] ["pageFileStats", "Scrape"] ["pageFileStats", "Scrape", "GetObject"]
    ["pageFileStats", "Scrape", "GetObject", "GetValues"] 20000000000 20000000000
    "no page file data"
    { GetObject := fun _ w =>
        (Except.ok (Samples.loggedObject [Samples.memoryCounters]), w ++ ["GetObject"]) }
    (Samples.loggedObject [Samples.memoryCounters]) [Samples.memoryCounters]
    rfl rfl rfl rfl rfl rfl
  ⟨h.1, (h.2.2.1 Samples.memoryCounters [] rfl).2⟩

/-- C3: for the paging `scrape`, over every outcome of its two steps (usage, run on the
empty metric slice; operations, run on what usage left): the returned error is `nil`
exactly when neither step returned an error; otherwise it is one partial-scrape error
whose count is the sum of the declared counts of the failed steps (1 when one step fails,
2 when both do) and whose causes are their errors in order; and the second step always
runs, from the environment and metric slice the first step left, whatever the first step
returned: the batch and the environment after `scrape` are the second step's. -/
theorem C3_paging_scrape_errors {κ ε ω F : Type} (timeNow : ω → Timestamp × ω)
    (s : pagingscraper.scraper κ ε ω) (w : ω) :
    ((pagingscraper.scraper.scrape (F := F) timeNow s w).ret.2 = none ↔
      (s.scrapeAndAppendPagingUsageMetric (F := F) timeNow [] w).ret.2 = none ∧
      (s.scrapeAndAppendPagingOperationsMetric (F := F) timeNow
        (s.scrapeAndAppendPagingUsageMetric (F := F) timeNow [] w).ret.1
        (s.scrapeAndAppendPagingUsageMetric (F := F) timeNow [] w).world).ret.2 = none) ∧
    (∀ e1 : ε,
      (s.scrapeAndAppendPagingUsageMetric (F := F) timeNow [] w).ret.2 = some e1 →
      (s.scrapeAndAppendPagingOperationsMetric (F := F) timeNow
        (s.scrapeAndAppendPagingUsageMetric (F := F) timeNow [] w).ret.1
        (s.scrapeAndAppendPagingUsageMetric (F := F) timeNow [] w).world).ret.2 = none →
      (pagingscraper.scraper.scrape (F := F) timeNow s w).ret.2
        = some (ScrapeError.partialScrape [e1] 1)) ∧
    (∀ e2 : ε,
      (s.scrapeAndAppendPagingUsageMetric (F := F) timeNow [] w).ret.2 = none →
      (s.scrapeAndAppendPagingOperationsMetric (F := F) timeNow
        (s.scrapeAndAppendPagingUsageMetric (F := F) timeNow [] w).ret.1
        (s.scrapeAndAppendPagingUsageMetric (F := F) timeNow [] w).world).ret.2 = some e2 →
      (pagingscraper.scraper.scrape (F := F) timeNow s w).ret.2
        = some (ScrapeError.partialScrape [e2] 1)) ∧
    (∀ e1 e2 : ε,
      (s.scrapeAndAppendPagingUsageMetric (F := F) timeNow [] w).ret.2 = some e1 →
      (s.scrapeAndAppendPagingOperationsMetric (F := F) timeNow
        (s.scrapeAndAppendPagingUsageMetric (F := F) timeNow [] w).ret.1
        (s.scrapeAndAppendPagingUsageMetric (F := F) timeNow [] w).world).ret.2 = some e2 →
      (pagingscraper.scraper.scrape (F := F) timeNow s w).ret.2
        = some (ScrapeError.partialScrape [e1, e2] 2)) ∧
    (pagingscraper.pagingUsageMetricsLen = 1 ∧ pagingscraper.pagingMetricsLen = 1) ∧
    (pagingscraper.scraper.scrape (F := F) timeNow s w).world
      = (s.scrapeAndAppendPagingOperationsMetric (F := F) timeNow
          (s.scrapeAndAppendPagingUsageMetric (F := F) timeNow [] w).ret.1
          (s.scrapeAndAppendPagingUsageMetric (F := F) timeNow [] w).world).world ∧
    (pagingscraper.scraper.scrape (F := F) timeNow s w).ret.1
      = Metrics.withMetrics
          (s.scrapeAndAppendPagingOperationsMetric (F := F) timeNow
            (s.scrapeAndAppendPagingUsageMetric (F := F) timeNow [] w).ret.1
            (s.scrapeAndAppendPagingUsageMetric (F := F) timeNow [] w).world).ret.1 := by
  have hself := paging_usage_self (F := F) timeNow s [] w
  generalize hr1 : s.scrapeAndAppendPagingUsageMetric (F := F) timeNow [] w = r1 at hself ⊢
  generalize hr2 : s.scrapeAndAppendPagingOperationsMetric (F := F) timeNow r1.ret.1 r1.world
    = r2
  have hscrape : pagingscraper.scraper.scrape (F := F) timeNow s w
      = { ret := (Metrics.withMetrics r2.ret.1,
                  ScrapeErrors.Combine
                    (match r2.ret.2 with
                     | some err =>
                        ScrapeErrors.AddPartial
                          (match r1.ret.2 with
                           | some err => ScrapeErrors.AddPartial {}
                              pagingscraper.pagingUsageMetricsLen err
                           | none => {}) pagingscraper.pagingMetricsLen err
                     | none =>
                        (match r1.ret.2 with
                         | some err => ScrapeErrors.AddPartial {}
                            pagingscraper.pagingUsageMetricsLen err
                         | none => {}))),
          self := r2.self, world := r2.world } := by
    simp only [pagingscraper.scraper.scrape, hr1, hself, hr2]
  rw [hscrape]
  rcases h1 : r1.ret.2 with _ | e1 <;> rcases h2 : r2.ret.2 with _ | e2 <;>
    simp [ScrapeErrors.AddPartial, ScrapeErrors.Combine,
      pagingscraper.pagingUsageMetricsLen, pagingscraper.pagingMetricsLen]

/-- C3 at the sample scraper both of whose reads fail: the error counts two missing
metrics, and the log shows that the backend was queried after the failed page-file read. -/
theorem C3_paging_scrape_errors_witness :
    (pagingscraper.scraper.scrape (F := ℚ) Samples.logClock Samples.pagingBothFail []).ret.2
      = some (ScrapeError.partialScrape ["no page file data", "counter query failed"] 2) ∧
    (pagingscraper.scraper.scrape (F := ℚ) Samples.logClock Samples.pagingBothFail []).world
      = ["pageFileStats", "Scrape"] :=
  ⟨(C3_paging_scrape_errors (F := ℚ) Samples.logClock Samples.pagingBothFail []).2.2.2.1
      "no page file data" "counter query failed" rfl rfl,
   ((C3_paging_scrape_errors (F := ℚ) Samples.logClock
      Samples.pagingBothFail []).2.2.2.2.2.1).trans rfl⟩

/-! ## The start operation -/

/-- What the CPU `start` does when the boot-time read returns `b`. -/
theorem cpu_start_ok {κ ε ω F : Type} (s : cpuscraper.scraper κ ε ω F) (w w1 : ω) (b : Nat)
    (h : s.bootTime w = (Except.ok b, w1)) :
    s.start w = { ret := none, self := { s with startTime := b * 10 ^ 9 % uint64Size },
                  world := w1 } := by
  simp [cpuscraper.scraper.start, h]

/-- What the CPU `start` does when the boot-time read fails. -/
theorem cpu_start_error {κ ε ω F : Type} (s : cpuscraper.scraper κ ε ω F) (w w1 : ω) (e : ε)
    (h : s.bootTime w = (Except.error e, w1)) :
    s.start w = { ret := some e, self := s, world := w1 } := by
  simp [cpuscraper.scraper.start, h]

/-- What the disk `start` does when the boot-time read returns `b`. -/
theorem disk_start_ok {γ ε ω : Type} (s : diskscraper.scraper γ ε ω) (w w1 : ω) (b : Nat)
    (h : s.bootTime w = (Except.ok b, w1)) :
    s.start w
      = { ret := (s.perfCounterScraper.Initialize [diskscraper.logicalDisk] w1).1,
          self := { s with startTime := b * 10 ^ 9 % uint64Size },
          world := (s.perfCounterScraper.Initialize [diskscraper.logicalDisk] w1).2 } := by
  simp [diskscraper.scraper.start, h]

/-- What the disk `start` does when the boot-time read fails. -/
theorem disk_start_error {γ ε ω : Type} (s : diskscraper.scraper γ ε ω) (w w1 : ω) (e : ε)
    (h : s.bootTime w = (Except.error e, w1)) :
    s.start w = { ret := some e, self := s, world := w1 } := by
  simp [diskscraper.scraper.start, h]

/-- What the paging `start` does when the boot-time read returns `b`. -/
theorem paging_start_ok {κ ε ω : Type} (s : pagingscraper.scraper κ ε ω) (w w1 : ω) (b : Nat)
    (h : s.bootTime w = (Except.ok b, w1)) :
    s.start w
      = { ret := (s.perfCounterScraper.Initialize [pagingscraper.memory] w1).1,
          self := { s with startTime := b * 10 ^ 9 % uint64Size },
          world := (s.perfCounterScraper.Initialize [pagingscraper.memory] w1).2 } := by
  simp [pagingscraper.scraper.start, h]

/-- What the paging `start` does when the boot-time read fails. -/
theorem paging_start_error {κ ε ω : Type} (s : pagingscraper.scraper κ ε ω) (w w1 : ω)
    (e : ε) (h : s.bootTime w = (Except.error e, w1)) :
    s.start w = { ret := some e, self := s, world := w1 } := by
  simp [pagingscraper.scraper.start, h]

/-- A pair is its two components. -/
theorem pair_of_fst {α β : Type} (p : α × β) (a : α) (h : p.1 = a) : p = (a, p.2) := by
  cases p
  simp only at h
  subst h
  rfl

/-- C6, as stated, fails: for the boot time 18446744074 s, a `uint64` value, the CPU
scraper stores the start time 290448384 ns, not 18446744074 x 10^9 ns: the `uint64`
product wraps around. -/
theorem C6_counterexample :
    18446744074 < uint64Size ∧
      ((Samples.cpuBoot 18446744074).bootTime []).1 = Except.ok 18446744074 ∧
      ((Samples.cpuBoot 18446744074).start []).self.startTime = 290448384 ∧
      ((Samples.cpuBoot 18446744074).start []).self.startTime ≠ 18446744074 * 10 ^ 9 := by
  have h : ((Samples.cpuBoot 18446744074).start []).self.startTime = 290448384 := by
    rw [cpu_start_ok _ [] ["bootTime"] 18446744074 rfl]
    simp [uint64Size]
  refine ⟨by simp [uint64Size], rfl, h, ?_⟩
  rw [h]
  norm_num

/-- C6, amended: for the start operation of the CPU, disk and paging scrapers, for every
boot time `b` returned by the boot-time reader, the stored `startTime` is
`b * 10^9 mod 2^64`, the `uint64` product; it is exactly `b * 10^9` nanoseconds whenever
`b * 10^9 < 2^64`, that is for every `b ≤ 18446744073`. -/
theorem C6_start_time_scaling :
    (∀ (κ ε ω F : Type) (s : cpuscraper.scraper κ ε ω F) (w : ω) (b : Nat),
        (s.bootTime w).1 = Except.ok b →
        (s.start w).self.startTime = b * 10 ^ 9 % 2 ^ 64 ∧
        (b ≤ 18446744073 → (s.start w).self.startTime = b * 10 ^ 9)) ∧
    (∀ (γ ε ω : Type) (s : diskscraper.scraper γ ε ω) (w : ω) (b : Nat),
        (s.bootTime w).1 = Except.ok b →
        (s.start w).self.startTime = b * 10 ^ 9 % 2 ^ 64 ∧
        (b ≤ 18446744073 → (s.start w).self.startTime = b * 10 ^ 9)) ∧
    (∀ (κ ε ω : Type) (s : pagingscraper.scraper κ ε ω) (w : ω) (b : Nat),
        (s.bootTime w).1 = Except.ok b →
        (s.start w).self.startTime = b * 10 ^ 9 % 2 ^ 64 ∧
        (b ≤ 18446744073 → (s.start w).self.startTime = b * 10 ^ 9)) := by
  have key : ∀ b : Nat, b ≤ 18446744073 → b * 10 ^ 9 % 2 ^ 64 = b * 10 ^ 9 := by
    intro b hb
    apply Nat.mod_eq_of_lt
    omega
  refine ⟨?_, ?_, ?_⟩
  · intro κ ε ω F s w b h
    rw [cpu_start_ok s w _ b (pair_of_fst _ _ h)]
    exact ⟨rfl, fun hb => key b hb⟩
  · intro γ ε ω s w b h
    rw [disk_start_ok s w _ b (pair_of_fst _ _ h)]
    exact ⟨rfl, fun hb => key b hb⟩
  · intro κ ε ω s w b h
    rw [paging_start_ok s w _ b (pair_of_fst _ _ h)]
    exact ⟨rfl, fun hb => key b hb⟩

/-- C6, amended, at sample scrapers whose boot time is 1600000000 s. -/
theorem C6_start_time_scaling_witness :
    ((Samples.cpuBoot 1600000000).start []).self.startTime = 1600000000 * 10 ^ 9 ∧
    ((Samples.diskBoot 1600000000 none).start []).self.startTime = 1600000000 * 10 ^ 9 ∧
    ((Samples.pagingBoot 1600000000 (some "no such category")).start []).self.startTime
      = 1600000000 * 10 ^ 9 :=
  ⟨(C6_start_time_scaling.1 Unit String (List String) ℚ (Samples.cpuBoot 1600000000) []
      1600000000 rfl).2 (by decide),
   (C6_start_time_scaling.2.1 Unit String (List String) (Samples.diskBoot 1600000000 none) []
      1600000000 rfl).2 (by decide),
   (C6_start_time_scaling.2.2 Unit String (List String)
      (Samples.pagingBoot 1600000000 (some "no such category")) []
      1600000000 rfl).2 (by decide)⟩

/-- C7: start-time derivation is idempotent.  For each of the CPU, disk and paging
scrapers, every initial state, environment and boot time `b`: when the boot-time reader
returns `b` at the first `start` and again at a second `start` run on what the first left,
the stored `startTime` after the second `start` is the one stored by the first; for disk
and paging this holds whatever `Initialize` returns and does to the environment. -/
theorem C7_start_idempotent :
    (∀ (κ ε ω F : Type) (s : cpuscraper.scraper κ ε ω F) (w : ω) (b : Nat),
        (s.bootTime w).1 = Except.ok b →
        ((s.start w).self.bootTime (s.start w).world).1 = Except.ok b →
        ((s.start w).self.start (s.start w).world).self.startTime
          = (s.start w).self.startTime) ∧
    (∀ (γ ε ω : Type) (s : diskscraper.scraper γ ε ω) (w : ω) (b : Nat),
        (s.bootTime w).1 = Except.ok b →
        ((s.start w).self.bootTime (s.start w).world).1 = Except.ok b →
        ((s.start w).self.start (s.start w).world).self.startTime
          = (s.start w).self.startTime) ∧
    (∀ (κ ε ω : Type) (s : pagingscraper.scraper κ ε ω) (w : ω) (b : Nat),
        (s.bootTime w).1 = Except.ok b →
        ((s.start w).self.bootTime (s.start w).world).1 = Except.ok b →
        ((s.start w).self.start (s.start w).world).self.startTime
          = (s.start w).self.startTime) := by
  refine ⟨?_, ?_, ?_⟩
  · intro κ ε ω F s w b h1 h2
    rw [cpu_start_ok _ _ _ b (pair_of_fst _ _ h2), cpu_start_ok s w _ b (pair_of_fst _ _ h1)]
  · intro γ ε ω s w b h1 h2
    rw [disk_start_ok _ _ _ b (pair_of_fst _ _ h2), disk_start_ok s w _ b (pair_of_fst _ _ h1)]
  · intro κ ε ω s w b h1 h2
    rw [paging_start_ok _ _ _ b (pair_of_fst _ _ h2),
      paging_start_ok s w _ b (pair_of_fst _ _ h1)]

/-- C7 at sample scrapers with boot time 1600000000 s, the backend's `Initialize`
succeeding for disk and failing for paging. -/
theorem C7_start_idempotent_witness :
    (((Samples.cpuBoot 1600000000).start []).self.start
        ((Samples.cpuBoot 1600000000).start []).world).self.startTime
      = ((Samples.cpuBoot 1600000000).start []).self.startTime ∧
    (((Samples.diskBoot 1600000000 none).start []).self.start
        ((Samples.diskBoot 1600000000 none).start []).world).self.startTime
      = ((Samples.diskBoot 1600000000 none).start []).self.startTime ∧
    (((Samples.pagingBoot 1600000000 (some "no such category")).start []).self.start
        ((Samples.pagingBoot 1600000000 (some "no such category")).start []).world).self.startTime
      = ((Samples.pagingBoot 1600000000 (some "no such category")).start []).self.startTime :=
  ⟨C7_start_idempotent.1 Unit String (List String) ℚ (Samples.cpuBoot 1600000000) []
      1600000000 rfl rfl,
   C7_start_idempotent.2.1 Unit String (List String) (Samples.diskBoot 1600000000 none) []
      1600000000 rfl rfl,
   C7_start_idempotent.2.2 Unit String (List String)
      (Samples.pagingBoot 1600000000 (some "no such category")) [] 1600000000 rfl rfl⟩

/-- C8: for the CPU scraper's `start`, for every scraper state and environment: `start`
returns an error exactly when the boot-time reader returns one; the error returned is the
reader's error, and then the scraper, its `startTime` included, is left as it was; when the
reader succeeds `start` returns `nil`. -/
theorem C8_cpu_start_error {κ ε ω F : Type} (s : cpuscraper.scraper κ ε ω F) (w : ω) :
    ((s.start w).ret ≠ none ↔ ∃ e, (s.bootTime w).1 = Except.error e) ∧
    (∀ e, (s.bootTime w).1 = Except.error e →
      (s.start w).ret = some e ∧ (s.start w).self.startTime = s.startTime ∧
      (s.start w).self = s) ∧
    (∀ b, (s.bootTime w).1 = Except.ok b → (s.start w).ret = none) := by
  rcases h : s.bootTime w with ⟨r | r, w1⟩
  · rw [cpu_start_error s w w1 r h]
    simp
  · rw [cpu_start_ok s w w1 r h]
    simp

/-- C8 at the sample CPU scraper whose boot-time read fails: the reader's error comes back
and the start time stays 7. -/
theorem C8_cpu_start_error_witness :
    (Samples.cpuBootFail.start []).ret = some "boot time unavailable" ∧
    (Samples.cpuBootFail.start []).self.startTime = 7 :=
  let h := (C8_cpu_start_error Samples.cpuBootFail []).2.1 "boot time unavailable" rfl
  ⟨h.1, h.2.1⟩

/-- C9: for the disk and the paging scraper's `start`, with `w1` the environment the
boot-time read leaves: `start` returns `nil` exactly when the boot-time read succeeds and
`Initialize` returns `nil`; when the boot-time read fails its error is returned and the
environment stays `w1`, so `Initialize` is not called; when it succeeds the environment
after `start` is the one a single call of `Initialize` with the scraper's own category
("LogicalDisk" for disk, "Memory" for paging) makes of `w1`, and what `Initialize`
returns, an error included, is returned unchanged. -/
theorem C9_start_initializes_backend :
    (∀ (γ ε ω : Type) (s : diskscraper.scraper γ ε ω) (w : ω),
        ((s.start w).ret = none ↔
          ∃ b, (s.bootTime w).1 = Except.ok b ∧
            (s.perfCounterScraper.Initialize ["LogicalDisk"] (s.bootTime w).2).1 = none) ∧
        (∀ e, (s.bootTime w).1 = Except.error e →
          (s.start w).ret = some e ∧ (s.start w).world = (s.bootTime w).2) ∧
        (∀ b, (s.bootTime w).1 = Except.ok b →
          (s.start w).ret
            = (s.perfCounterScraper.Initialize ["LogicalDisk"] (s.bootTime w).2).1 ∧
          (s.start w).world
            = (s.perfCounterScraper.Initialize ["LogicalDisk"] (s.bootTime w).2).2)) ∧
    (∀ (κ ε ω : Type) (s : pagingscraper.scraper κ ε ω) (w : ω),
        ((s.start w).ret = none ↔
          ∃ b, (s.bootTime w).1 = Except.ok b ∧
            (s.perfCounterScraper.Initialize ["Memory"] (s.bootTime w).2).1 = none) ∧
        (∀ e, (s.bootTime w).1 = Except.error e →
          (s.start w).ret = some e ∧ (s.start w).world = (s.bootTime w).2) ∧
        (∀ b, (s.bootTime w).1 = Except.ok b →
          (s.start w).ret
            = (s.perfCounterScraper.Initialize ["Memory"] (s.bootTime w).2).1 ∧
          (s.start w).world
            = (s.perfCounterScraper.Initialize ["Memory"] (s.bootTime w).2).2)) := by
  constructor
  · intro γ ε ω s w
    rcases h : s.bootTime w with ⟨r | r, w1⟩
    · rw [disk_start_error s w w1 r h]
      simp
    · rw [disk_start_ok s w w1 r h]
      simp [diskscraper.logicalDisk]
  · intro κ ε ω s w
    rcases h : s.bootTime w with ⟨r | r, w1⟩
    · rw [paging_start_error s w w1 r h]
      simp
    · rw [paging_start_ok s w w1 r h]
      simp [pagingscraper.memory]

/-- C9 at sample scrapers over a call log: a failed boot-time read leaves only the
boot-time read in the log; after a successful one the log shows one `Initialize` with the
category, and the error of a failing `Initialize` comes back. -/
theorem C9_start_initializes_backend_witness :
    ((Samples.diskBootFail.start []).ret = some "boot time unavailable" ∧
      (Samples.diskBootFail.start []).world = ["bootTime"]) ∧
    ((Samples.diskBoot 5 none).start []).world = ["bootTime", "Initialize", "LogicalDisk"] ∧
    (((Samples.pagingBoot 5 (some "no such category")).start []).ret
        = some "no such category" ∧
      ((Samples.pagingBoot 5 (some "no such category")).start []).world
        = ["bootTime", "Initialize", "Memory"]) :=
  ⟨(C9_start_initializes_backend.1 Unit String (List String) Samples.diskBootFail []).2.1
      "boot time unavailable" rfl,
   ((C9_start_initializes_backend.1 Unit String (List String)
      (Samples.diskBoot 5 none) []).2.2 5 rfl).2,
   (C9_start_initializes_backend.2 Unit String (List String)
      (Samples.pagingBoot 5 (some "no such category")) []).2.2 5 rfl⟩

/-! ## Data points of the CPU scraper -/

/-- C10: `initializeCPUTimeDataPoint` applied to a fresh data point, for every cpu label,
state label and value: when the cpu label is the aggregate "cpu-total" the attributes are
exactly `state = stateLabel`; otherwise they are exactly `cpu = cpuLabel` and
`state = stateLabel`; in both cases the point carries the start timestamp `startTime`, the
timestamp `now` and the value. -/
theorem C10_cpu_time_data_point {F : Type} (startTime now : Timestamp)
    (cpuLabel stateLabel : String) (value : F) :
    (cpuLabel = "cpu-total" →
      (cpuscraper.initializeCPUTimeDataPoint NumberDataPoint.fresh startTime now cpuLabel
          stateLabel value).attributes = [("state", stateLabel)] ∧
      AttributeMap.keys (cpuscraper.initializeCPUTimeDataPoint (F := F) NumberDataPoint.fresh
          startTime now cpuLabel stateLabel value).attributes = ["state"]) ∧
    (cpuLabel ≠ "cpu-total" →
      (cpuscraper.initializeCPUTimeDataPoint NumberDataPoint.fresh startTime now cpuLabel
          stateLabel value).attributes = [("cpu", cpuLabel), ("state", stateLabel)] ∧
      AttributeMap.keys (cpuscraper.initializeCPUTimeDataPoint (F := F) NumberDataPoint.fresh
          startTime now cpuLabel stateLabel value).attributes = ["cpu", "state"]) ∧
    (cpuscraper.initializeCPUTimeDataPoint NumberDataPoint.fresh startTime now cpuLabel
        stateLabel value).startTimestamp = startTime ∧
    (cpuscraper.initializeCPUTimeDataPoint NumberDataPoint.fresh startTime now cpuLabel
        stateLabel value).timestamp = now ∧
    (cpuscraper.initializeCPUTimeDataPoint NumberDataPoint.fresh startTime now cpuLabel
        stateLabel value).value = NumberValue.doubleVal value := by
  refine ⟨?_, ?_, rfl, rfl, rfl⟩
  · intro h
    subst h
    simp [cpuscraper.initializeCPUTimeDataPoint, cpuscraper.gopsCPUTotal,
      NumberDataPoint.fresh, NumberDataPoint.SetStartTimestamp, NumberDataPoint.SetTimestamp,
      NumberDataPoint.SetDoubleVal, AttributeMap.InsertString, AttributeMap.keys,
      metadata.Attributes.State]
  · intro h
    have hne : ("cpu" : String) ≠ "state" := by decide
    simp [cpuscraper.initializeCPUTimeDataPoint, cpuscraper.gopsCPUTotal,
      NumberDataPoint.fresh, NumberDataPoint.SetStartTimestamp, NumberDataPoint.SetTimestamp,
      NumberDataPoint.SetDoubleVal, AttributeMap.InsertString, AttributeMap.keys,
      metadata.Attributes.State, metadata.Attributes.Cpu, h, hne]

/-- C10 at the aggregate label and at the label "cpu0". -/
theorem C10_cpu_time_data_point_witness :
    (cpuscraper.initializeCPUTimeDataPoint (F := ℚ) NumberDataPoint.fresh 5 9 "cpu-total"
        "user" 3).attributes = [("state", "user")] ∧
    (cpuscraper.initializeCPUTimeDataPoint (F := ℚ) NumberDataPoint.fresh 5 9 "cpu0"
        "user" 3).attributes = [("cpu", "cpu0"), ("state", "user")] :=
  ⟨((C10_cpu_time_data_point (F := ℚ) 5 9 "cpu-total" "user" 3).1 rfl).1,
   ((C10_cpu_time_data_point (F := ℚ) 5 9 "cpu0" "user" 3).2.1 (by decide)).1⟩

/-! ## Data points of the disk scraper -/

/-- A loop that appends two points per element appends the concatenation of the pairs. -/
theorem foldl_append_pair {α β : Type} (f g : α → β) (l : List α) (acc : List β) :
    l.foldl (fun acc a => acc ++ [f a] ++ [g a]) acc = acc ++ l.flatMap (fun a => [f a, g a]) := by
  induction l generalizing acc with
  | nil => simp
  | cons a l ih =>
    rw [List.foldl_cons, ih]
    simp

/-- A loop that appends one point per element appends the image of the list. -/
theorem foldl_append_single {α β : Type} (f : α → β) (l : List α) (acc : List β) :
    l.foldl (fun acc a => acc ++ [f a]) acc = acc ++ l.map f := by
  induction l generalizing acc with
  | nil => simp
  | cons a l ih => simp [ih]

/-- In a concatenation of pairs, the pair of the element at index `i` sits at the indices
`2 * i` and `2 * i + 1`. -/
theorem flatMap_pair_getElem? {α β : Type} (f g : α → β) (l : List α) (i : Nat) :
    (l.flatMap (fun a => [f a, g a]))[2 * i]? = (l[i]?).map f ∧
    (l.flatMap (fun a => [f a, g a]))[2 * i + 1]? = (l[i]?).map g := by
  induction l generalizing i with
  | nil => simp
  | cons a l ih =>
    cases i with
    | zero => simp
    | succ i =>
      have h := ih i
      have e1 : 2 * (i + 1) = (2 * i) + 1 + 1 := by ring
      have e2 : 2 * (i + 1) + 1 = (2 * i + 1) + 1 + 1 := by ring
      simp only [List.flatMap_cons, e1, e2, List.cons_append, List.nil_append,
        List.getElem?_cons_succ]
      exact h

/-- The points of `initializeDiskOperationsMetric`, for every helper `asInt`. -/
theorem diskOperations_dataPoints {F : Type} (asInt : diskscraper.IntPointInit F)
    (startTime now : Timestamp) (vals : List perfcounters.CounterValues) :
    (diskscraper.initializeDiskOperationsMetric asInt Metric.fresh startTime now vals).dataPoints
      = vals.flatMap (fun c =>
          [asInt NumberDataPoint.fresh startTime now c.InstanceName "read"
              (c.value "Disk Reads/sec"),
            asInt NumberDataPoint.fresh startTime now c.InstanceName "write"
              (c.value "Disk Writes/sec")]) := by
  simp only [diskscraper.initializeDiskOperationsMetric, MetricDefinition.Init, Metric.fresh]
  rw [foldl_append_pair]
  rfl

/-- The point the helper `initializeNumberDataPointAsInt` makes of a fresh point when the
direction label is not empty. -/
theorem asInt_fresh {F : Type} (startTime now : Timestamp) (device direction : String)
    (value : Int) (h : direction ≠ "") :
    diskscraper.initializeNumberDataPointAsInt (F := F) NumberDataPoint.fresh startTime now
        device direction value
      = { attributes := [("device", device), ("direction", direction)],
          startTimestamp := startTime, timestamp := now, value := NumberValue.intVal value } := by
  have hne : ("device" : String) ≠ "direction" := by decide
  simp [diskscraper.initializeNumberDataPointAsInt, NumberDataPoint.fresh,
    NumberDataPoint.SetStartTimestamp, NumberDataPoint.SetTimestamp, NumberDataPoint.SetIntVal,
    AttributeMap.InsertString, metadata.Attributes.Device, metadata.Attributes.Direction, h, hne]

/-- C5: `initializeDiskOperationsMetric` on a fresh metric, for every list of `n` disk
instances and every data-point helper `asInt`: the metric receives exactly `2 n` points;
the points at `2 i` and `2 i + 1` are the ones the helper builds for instance `i` with
(device = instance name, direction = read, value = its reads counter) and
(device = instance name, direction = write, value = its writes counter), all with the same
`startTime` and `now`; with the helper `initializeNumberDataPointAsInt` these points carry
the attributes device and direction, the two timestamps and the integer value; and for
sda (read 5, write 7) and sdb (read 2, write 1) they are exactly the four points
(sda, read, 5), (sda, write, 7), (sdb, read, 2), (sdb, write, 1). -/
theorem C5_disk_operations_points {F : Type} (asInt : diskscraper.IntPointInit F)
    (startTime now : Timestamp) (vals : List perfcounters.CounterValues) :
    (diskscraper.initializeDiskOperationsMetric asInt Metric.fresh startTime now
        vals).dataPoints.length = 2 * vals.length ∧
    (∀ i : Nat,
      (diskscraper.initializeDiskOperationsMetric asInt Metric.fresh startTime now
          vals).dataPoints[2 * i]?
        = (vals[i]?).map (fun c => asInt NumberDataPoint.fresh startTime now c.InstanceName
            "read" (c.value "Disk Reads/sec")) ∧
      (diskscraper.initializeDiskOperationsMetric asInt Metric.fresh startTime now
          vals).dataPoints[2 * i + 1]?
        = (vals[i]?).map (fun c => asInt NumberDataPoint.fresh startTime now c.InstanceName
            "write" (c.value "Disk Writes/sec"))) ∧
    (diskscraper.initializeDiskOperationsMetric (F := F)
        diskscraper.initializeNumberDataPointAsInt Metric.fresh startTime now vals).dataPoints
      = vals.flatMap (fun c =>
          [{ attributes := [("device", c.InstanceName), ("direction", "read")],
             startTimestamp := startTime, timestamp := now,
             value := NumberValue.intVal (c.value "Disk Reads/sec") },
           { attributes := [("device", c.InstanceName), ("direction", "write")],
             startTimestamp := startTime, timestamp := now,
             value := NumberValue.intVal (c.value "Disk Writes/sec") }]) ∧
    (diskscraper.initializeDiskOperationsMetric (F := F)
        diskscraper.initializeNumberDataPointAsInt Metric.fresh startTime now
        [Samples.sda, Samples.sdb]).dataPoints
      = [{ attributes := [("device", "sda"), ("direction", "read")],
           startTimestamp := startTime, timestamp := now, value := NumberValue.intVal 5 },
         { attributes := [("device", "sda"), ("direction", "write")],
           startTimestamp := startTime, timestamp := now, value := NumberValue.intVal 7 },
         { attributes := [("device", "sdb"), ("direction", "read")],
           startTimestamp := startTime, timestamp := now, value := NumberValue.intVal 2 },
         { attributes := [("device", "sdb"), ("direction", "write")],
           startTimestamp := startTime, timestamp := now, value := NumberValue.intVal 1 }] := by
  have hr : ("read" : String) ≠ "" := by decide
  have hw : ("write" : String) ≠ "" := by decide
  refine ⟨?_, ?_, ?_, ?_⟩
  · rw [diskOperations_dataPoints]
    induction vals with
    | nil => rfl
    | cons c vals ih =>
      simp only [List.flatMap_cons, List.length_append, List.length_cons, List.length_nil, ih]
      ring
  · intro i
    rw [diskOperations_dataPoints]
    exact flatMap_pair_getElem? _ _ vals i
  · rw [diskOperations_dataPoints]
    simp only [asInt_fresh _ _ _ _ _ hr, asInt_fresh _ _ _ _ _ hw]
  · rw [diskOperations_dataPoints]
    simp only [asInt_fresh _ _ _ _ _ hr, asInt_fresh _ _ _ _ _ hw]
    rfl

/-! ## Rounding to the nearest `float64` -/

namespace Float64


/-- The spacing is positive. -/
theorem ulp_pos (q : ℚ) : 0 < ulp q := by
  unfold ulp; positivity

/-- Rounding to an integer does not go below the floor. -/
theorem floor_le_rhe (x : ℚ) : ⌊x⌋ ≤ roundHalfEven x := by
  unfold roundHalfEven; split_ifs <;> omega

/-- Rounding to an integer does not go above the floor plus one. -/
theorem rhe_le_floor_add_one (x : ℚ) : roundHalfEven x ≤ ⌊x⌋ + 1 := by
  unfold roundHalfEven; split_ifs <;> omega

/-- An integer rounds to itself. -/
theorem rhe_intCast (z : ℤ) : roundHalfEven (z : ℚ) = z := by
  unfold roundHalfEven
  simp

/-- Rounding to an integer is monotone. -/
theorem rhe_mono {a b : ℚ} (h : a ≤ b) : roundHalfEven a ≤ roundHalfEven b := by
  have hf : ⌊a⌋ ≤ ⌊b⌋ := Int.floor_mono h
  rcases hf.lt_or_eq with hlt | heq
  · calc roundHalfEven a ≤ ⌊a⌋ + 1 := rhe_le_floor_add_one a
      _ ≤ ⌊b⌋ := hlt
      _ ≤ roundHalfEven b := floor_le_rhe b
  · unfold roundHalfEven
    rw [heq]
    have hab : a - ⌊b⌋ ≤ b - ⌊b⌋ := by linarith
    split_ifs <;> first | omega | linarith

/-- Rounding to an integer commutes with negation. -/
theorem rhe_neg (x : ℚ) : roundHalfEven (-x) = - roundHalfEven x := by
  by_cases hx : (⌊x⌋ : ℚ) = x
  · rw [← hx, ← Int.cast_neg, rhe_intCast, rhe_intCast]
  · have h1 : (⌊x⌋ : ℚ) < x := lt_of_le_of_ne (Int.floor_le x) hx
    have h2 : x < ⌊x⌋ + 1 := Int.lt_floor_add_one x
    have hfl : ⌊-x⌋ = -⌊x⌋ - 1 := by
      rw [Int.floor_eq_iff]
      push_cast
      constructor <;> linarith
    unfold roundHalfEven
    rw [hfl]
    push_cast
    split_ifs <;> first | omega | linarith


/-- The binade does not depend on the sign. -/
theorem exponent_neg (q : ℚ) : exponent (-q) = exponent q := by
  unfold exponent; rw [abs_neg]

/-- The spacing does not depend on the sign. -/
theorem ulp_neg (q : ℚ) : ulp (-q) = ulp q := by
  unfold ulp; rw [exponent_neg]

/-- Rounding to nearest commutes with negation. -/
theorem nearest_neg (q : ℚ) : nearest (-q) = - nearest q := by
  unfold nearest
  rw [ulp_neg, neg_div, rhe_neg]
  push_cast
  ring

/-- Zero rounds to zero. -/
theorem nearest_zero : nearest 0 = 0 := by
  unfold nearest
  rw [zero_div]
  have : roundHalfEven 0 = 0 := by
    have := rhe_intCast 0
    simpa using this
  rw [this]; simp

/-- A non-negative number rounds to a non-negative one. -/
theorem nearest_nonneg {q : ℚ} (h : 0 ≤ q) : 0 ≤ nearest q := by
  unfold nearest
  have hu := ulp_pos q
  have h0 : (0 : ℤ) ≤ roundHalfEven (q / ulp q) := by
    have h1 : roundHalfEven ((0 : ℤ) : ℚ) ≤ roundHalfEven (q / ulp q) :=
      rhe_mono (by simpa using div_nonneg h hu.le)
    rwa [rhe_intCast] at h1
  have : (0 : ℚ) ≤ (roundHalfEven (q / ulp q) : ℚ) := by exact_mod_cast h0
  positivity

/-- A number that is at most `k` ulps rounds to at most `k` ulps. -/
theorem nearest_le_of_le {q : ℚ} {k : ℤ} (h : q ≤ k * ulp q) : nearest q ≤ k * ulp q := by
  unfold nearest
  have hu := ulp_pos q
  have h1 : roundHalfEven (q / ulp q) ≤ roundHalfEven ((k : ℤ) : ℚ) :=
    rhe_mono (by rw [div_le_iff₀ hu]; exact h)
  rw [rhe_intCast] at h1
  have : (roundHalfEven (q / ulp q) : ℚ) ≤ k := by exact_mod_cast h1
  exact mul_le_mul_of_nonneg_right this hu.le

/-- A number that is at least `k` ulps rounds to at least `k` ulps. -/
theorem le_nearest_of_le {q : ℚ} {k : ℤ} (h : k * ulp q ≤ q) : k * ulp q ≤ nearest q := by
  unfold nearest
  have hu := ulp_pos q
  have h1 : roundHalfEven ((k : ℤ) : ℚ) ≤ roundHalfEven (q / ulp q) :=
    rhe_mono (by rw [le_div_iff₀ hu]; exact h)
  rw [rhe_intCast] at h1
  have : (k : ℚ) ≤ roundHalfEven (q / ulp q) := by exact_mod_cast h1
  exact mul_le_mul_of_nonneg_right this hu.le

/-- The upper end of the binade, in ulps. -/
theorem two_pow_53_mul_ulp (q : ℚ) : ((2 ^ 53 : ℤ) : ℚ) * ulp q = (2 : ℚ) ^ (exponent q + 1) := by
  unfold ulp
  have h : (2 : ℚ) ^ (exponent q + 1) = (2 : ℚ) ^ (53 : ℤ) * (2 : ℚ) ^ (exponent q - 52) := by
    rw [← zpow_add₀ (by norm_num : (2 : ℚ) ≠ 0)]
    congr 1
    ring
  rw [h]
  norm_num

/-- The lower end of the binade, in ulps. -/
theorem two_pow_52_mul_ulp (q : ℚ) : ((2 ^ 52 : ℤ) : ℚ) * ulp q = (2 : ℚ) ^ (exponent q) := by
  unfold ulp
  have h : (2 : ℚ) ^ (exponent q) = (2 : ℚ) ^ (52 : ℤ) * (2 : ℚ) ^ (exponent q - 52) := by
    rw [← zpow_add₀ (by norm_num : (2 : ℚ) ≠ 0)]
    congr 1
    ring
  rw [h]
  norm_num

/-- A number lies below the upper end of its binade. -/
theorem lt_two_pow_exponent_succ (q : ℚ) : |q| < (2 : ℚ) ^ (exponent q + 1) := by
  have h1 : |q| < ((2 : ℕ) : ℚ) ^ (Int.log 2 |q| + 1) := Int.lt_zpow_succ_log_self (by norm_num) _
  have h2 : ((2 : ℕ) : ℚ) ^ (Int.log 2 |q| + 1) ≤ (2 : ℚ) ^ (exponent q + 1) := by
    push_cast
    apply zpow_le_zpow_right₀ (by norm_num)
    unfold exponent
    have := le_max_left (Int.log 2 |q|) (-1022)
    omega
  exact lt_of_lt_of_le h1 h2

/-- Rounding does not leave the binade upwards. -/
theorem nearest_le_two_pow {q : ℚ} (h : 0 ≤ q) : nearest q ≤ (2 : ℚ) ^ (exponent q + 1) := by
  rw [← two_pow_53_mul_ulp]
  apply nearest_le_of_le
  rw [two_pow_53_mul_ulp]
  have := lt_two_pow_exponent_succ q
  rw [abs_of_nonneg h] at this
  exact this.le

/-- Rounding a normal number does not leave the binade downwards. -/
theorem two_pow_le_nearest {q : ℚ} (h : 0 < q) (hn : -1022 < exponent q) :
    (2 : ℚ) ^ (exponent q) ≤ nearest q := by
  have he : exponent q = Int.log 2 |q| := by
    unfold exponent at hn ⊢
    rcases max_cases (Int.log 2 |q|) (-1022) with ⟨h1, _⟩ | ⟨h1, _⟩
    · exact h1
    · rw [h1] at hn; exact absurd hn (lt_irrefl _)
  rw [← two_pow_52_mul_ulp]
  apply le_nearest_of_le
  rw [two_pow_52_mul_ulp, he]
  have := Int.zpow_log_le_self (b := 2) (r := |q|) (by norm_num) (abs_pos.mpr h.ne')
  rw [abs_of_pos h] at this ⊢
  exact_mod_cast this

/-- The binade exponent is monotone on the positive numbers. -/
theorem exponent_mono {x y : ℚ} (hx : 0 < x) (h : x ≤ y) : exponent x ≤ exponent y := by
  unfold exponent
  have hy : 0 < y := lt_of_lt_of_le hx h
  rw [abs_of_pos hx, abs_of_pos hy]
  exact max_le_max (Int.log_mono_right hx h) le_rfl

/-- Rounding to nearest is monotone on the non-negative numbers. -/
theorem nearest_mono_of_nonneg {x y : ℚ} (hx : 0 ≤ x) (h : x ≤ y) : nearest x ≤ nearest y := by
  rcases hx.lt_or_eq with hpos | hzero
  · have hy : 0 < y := lt_of_lt_of_le hpos h
    rcases (exponent_mono hpos h).lt_or_eq with hlt | heq
    · have hn : -1022 < exponent y := by
        have : -1022 ≤ exponent x := le_max_right _ _
        omega
      calc nearest x ≤ (2 : ℚ) ^ (exponent x + 1) := nearest_le_two_pow hx
        _ ≤ (2 : ℚ) ^ (exponent y) := zpow_le_zpow_right₀ (by norm_num) (by omega)
        _ ≤ nearest y := two_pow_le_nearest hy hn
    · have hu : ulp x = ulp y := by unfold ulp; rw [heq]
      unfold nearest
      rw [hu]
      have hupos := ulp_pos y
      have : roundHalfEven (x / ulp y) ≤ roundHalfEven (y / ulp y) :=
        rhe_mono (div_le_div_of_nonneg_right h hupos.le)
      have : (roundHalfEven (x / ulp y) : ℚ) ≤ roundHalfEven (y / ulp y) := by exact_mod_cast this
      exact mul_le_mul_of_nonneg_right this hupos.le
  · rw [← hzero, nearest_zero]
    exact nearest_nonneg (hzero ▸ h)

/-- Rounding to nearest is monotone. -/
theorem nearest_mono {x y : ℚ} (h : x ≤ y) : nearest x ≤ nearest y := by
  rcases le_total 0 x with hx | hx
  · exact nearest_mono_of_nonneg hx h
  · rcases le_total 0 y with hy | hy
    · have h1 : nearest x ≤ 0 := by
        have := nearest_nonneg (neg_nonneg.mpr hx)
        rw [nearest_neg] at this
        linarith
      exact le_trans h1 (nearest_nonneg hy)
    · have := nearest_mono_of_nonneg (neg_nonneg.mpr hy) (neg_le_neg h)
      rw [nearest_neg, nearest_neg] at this
      linarith


/-- The binade exponent of a number between two powers of two. -/
theorem exponent_eq {q : ℚ} {e : ℤ} (h1 : (2 : ℚ) ^ e ≤ |q|) (h2 : |q| < (2 : ℚ) ^ (e + 1))
    (he : -1022 ≤ e) : exponent q = e := by
  have hpos : 0 < |q| := lt_of_lt_of_le (by positivity) h1
  have hle : e ≤ Int.log 2 |q| := by
    rw [← Int.zpow_le_iff_le_log (by norm_num) hpos]
    exact_mod_cast h1
  have hlt : Int.log 2 |q| < e + 1 := by
    rw [← Int.lt_zpow_iff_log_lt (by norm_num) hpos]
    exact_mod_cast h2
  unfold exponent
  rw [max_eq_left (by omega)]
  omega

/-- Rounding a number whose binade and scaled rounding are known. -/
theorem nearest_eval {q : ℚ} {e m : ℤ} (h1 : (2 : ℚ) ^ e ≤ |q|) (h2 : |q| < (2 : ℚ) ^ (e + 1))
    (he : -1022 ≤ e) (hm : roundHalfEven (q / (2 : ℚ) ^ (e - 52)) = m) :
    nearest q = m * (2 : ℚ) ^ (e - 52) := by
  unfold nearest ulp
  rw [exponent_eq h1 h2 he, hm]

/-- Rounding down: the fraction is below one half. -/
theorem rhe_of_lt_half {x : ℚ} {z : ℤ} (h1 : (z : ℚ) ≤ x) (h2 : x < z + 1 / 2) :
    roundHalfEven x = z := by
  have hf : ⌊x⌋ = z := by
    rw [Int.floor_eq_iff]
    constructor <;> linarith
  unfold roundHalfEven
  rw [hf, if_pos (by linarith)]

/-- Rounding up: the fraction is above one half. -/
theorem rhe_of_gt_half {x : ℚ} {z : ℤ} (h1 : (z : ℚ) + 1 / 2 < x) (h2 : x < z + 1) :
    roundHalfEven x = z + 1 := by
  have hf : ⌊x⌋ = z := by
    rw [Int.floor_eq_iff]
    constructor <;> linarith
  unfold roundHalfEven
  rw [hf, if_neg (by linarith), if_pos (by linarith)]

/-- A tie above an even integer is rounded down. -/
theorem rhe_of_tie_even {x : ℚ} {z : ℤ} (h1 : x = z + 1 / 2) (h2 : z % 2 = 0) :
    roundHalfEven x = z := by
  have hf : ⌊x⌋ = z := by
    rw [Int.floor_eq_iff]
    constructor <;> linarith
  unfold roundHalfEven
  rw [hf, if_neg (by linarith), if_neg (by linarith), if_pos h2]

/-- A tie above an odd integer is rounded up. -/
theorem rhe_of_tie_odd {x : ℚ} {z : ℤ} (h1 : x = z + 1 / 2) (h2 : z % 2 = 1) :
    roundHalfEven x = z + 1 := by
  have hf : ⌊x⌋ = z := by
    rw [Int.floor_eq_iff]
    constructor <;> linarith
  unfold roundHalfEven
  rw [hf, if_neg (by linarith), if_neg (by linarith), if_neg (by omega)]

/-- A multiple of its own spacing is a `float64` value: it rounds to itself. -/
theorem nearest_of_int_mul_ulp {q : ℚ} (z : ℤ) (h : q = z * ulp q) : nearest q = q := by
  unfold nearest
  have hu := ulp_pos q
  have : q / ulp q = (z : ℚ) := by
    rw [div_eq_iff hu.ne']
    exact h
  rw [this, rhe_intCast]
  exact h.symm

/-- Every natural number up to `2 ^ 53` is a `float64` value. -/
theorem nearest_natCast (n : ℕ) (h : n ≤ 2 ^ 53) : nearest (n : ℚ) = n := by
  rcases Nat.eq_zero_or_pos n with h0 | hpos
  · subst h0
    simpa using nearest_zero
  have hlog : exponent (n : ℚ) = (Nat.log 2 n : ℤ) := by
    unfold exponent
    rw [abs_of_nonneg (by positivity), Int.log_natCast]
    exact max_eq_left (by omega)
  have hk : Nat.log 2 n ≤ 53 := by
    calc Nat.log 2 n ≤ Nat.log 2 (2 ^ 53) := Nat.log_mono_right h
      _ = 53 := Nat.log_pow (by norm_num) 53
  rcases Nat.lt_or_ge (Nat.log 2 n) 53 with hlt | hge
  · apply nearest_of_int_mul_ulp ((n * 2 ^ (52 - Nat.log 2 n) : ℕ) : ℤ)
    unfold ulp
    rw [hlog]
    push_cast
    rw [mul_assoc, ← zpow_natCast, ← zpow_add₀ (by norm_num : (2 : ℚ) ≠ 0)]
    have : ((52 - Nat.log 2 n : ℕ) : ℤ) + ((Nat.log 2 n : ℤ) - 52) = 0 := by omega
    rw [this]
    simp
  · have hk53 : Nat.log 2 n = 53 := le_antisymm hk hge
    have hn : n = 2 ^ 53 := by
      apply le_antisymm h
      have := Nat.pow_log_le_self 2 hpos.ne'
      rwa [hk53] at this
    apply nearest_of_int_mul_ulp (2 ^ 52)
    unfold ulp
    rw [hlog, hk53, hn]
    norm_num

/-- Every integer of absolute value up to `2 ^ 53` is a `float64` value. -/
theorem nearest_intCast (z : ℤ) (h : |z| ≤ 2 ^ 53) : nearest (z : ℚ) = z := by
  rcases le_total 0 z with hz | hz
  · lift z to ℕ using hz
    have : z ≤ 2 ^ 53 := by
      rw [abs_of_nonneg (by positivity)] at h
      exact_mod_cast h
    exact_mod_cast nearest_natCast z this
  · obtain ⟨n, hn⟩ : ∃ n : ℕ, z = -(n : ℤ) := ⟨z.natAbs, by omega⟩
    subst hn
    have : n ≤ 2 ^ 53 := by
      rw [abs_neg, abs_of_nonneg (by positivity)] at h
      exact_mod_cast h
    push_cast
    rw [nearest_neg, nearest_natCast n this]

end Float64

/-! ## The disk active time -/

/-- The `uint64` difference of two `uint64` values in order is the difference. -/
theorem uint64Sub_of_le {a b : Nat} (hab : b ≤ a) (ha : a < 2 ^ 64) : uint64Sub a b = a - b := by
  unfold uint64Sub uint64Size
  omega

/-- The constants `1e9` and `1e7` are `float64` values. -/
theorem ieee_const_scales :
    Float64.ieee.const (10 ^ 9) = 10 ^ 9 ∧ Float64.ieee.const (10 ^ 7) = 10 ^ 7 := by
  have h9 := Float64.nearest_natCast (10 ^ 9) (by norm_num)
  have h7 := Float64.nearest_natCast (10 ^ 7) (by norm_num)
  push_cast at h9 h7
  exact ⟨h9, h7⟩

/-- The active-time expression in round-to-nearest arithmetic: two conversions, two
quotients and a difference, each rounded. -/
theorem diskActiveTime_ieee (startTime now : Timestamp) (v : Int) :
    diskscraper.diskActiveTime Float64.ieee startTime now v
      = Float64.nearest
          (Float64.nearest (Float64.nearest ((uint64Sub now startTime : Nat) : ℚ) / 10 ^ 9)
            - Float64.nearest (Float64.nearest (v : ℚ) / 10 ^ 7)) := by
  have h := ieee_const_scales
  unfold diskscraper.diskActiveTime
  rw [h.1, h.2]
  rfl

/-- The points of `initializeDiskIOTimeMetric`, for every helper `asDouble`. -/
theorem diskIOTime_dataPoints {F : Type} (fl : Float64Ops F)
    (asDouble : diskscraper.DoublePointInit F) (startTime now : Timestamp)
    (vals : List perfcounters.CounterValues) :
    (diskscraper.initializeDiskIOTimeMetric fl asDouble Metric.fresh startTime now
        vals).dataPoints
      = vals.map (fun c => asDouble NumberDataPoint.fresh startTime now c.InstanceName ""
          (diskscraper.diskActiveTime fl startTime now (c.value "% Idle Time"))) := by
  simp only [diskscraper.initializeDiskIOTimeMetric, MetricDefinition.Init, Metric.fresh]
  rw [foldl_append_single]
  rfl

/-- The point the helper `initializeNumberDataPointAsDouble` makes of a fresh point when
the direction label is empty. -/
theorem asDouble_fresh_no_direction {F : Type} (startTime now : Timestamp) (device : String)
    (value : F) :
    diskscraper.initializeNumberDataPointAsDouble NumberDataPoint.fresh startTime now
        device "" value
      = { attributes := [("device", device)], startTimestamp := startTime, timestamp := now,
          value := NumberValue.doubleVal value } := by
  simp [diskscraper.initializeNumberDataPointAsDouble, NumberDataPoint.fresh,
    NumberDataPoint.SetStartTimestamp, NumberDataPoint.SetTimestamp,
    NumberDataPoint.SetDoubleVal, AttributeMap.InsertString, metadata.Attributes.Device]

/-- The active time of the sample idle disk after 36028797018964900 ns: the conversion of
the elapsed time rounds down by 4 ns, and the difference of the two rounded quotients is
one ulp below zero. -/
theorem diskActiveTime_idleDisk :
    diskscraper.diskActiveTime Float64.ieee 1600000000000000000 1636028797018964900
      360287970189649 = -(1 / 2 ^ 27) := by
  rw [diskActiveTime_ieee, uint64Sub_of_le (by norm_num) (by norm_num)]
  have e1 : Float64.nearest (((1636028797018964900 - 1600000000000000000 : Nat) : ℚ))
      = 36028797018964896 := by
    rw [Float64.nearest_eval (e := 55) (m := 4503599627370612) (by norm_num [abs_of_pos])
      (by norm_num [abs_of_pos]) (by norm_num)
      (Float64.rhe_of_tie_even (by norm_num) (by norm_num))]
    norm_num
  have e2 : Float64.nearest ((36028797018964896 : ℚ) / 10 ^ 9)
      = 4835703278458641 / 2 ^ 27 := by
    rw [Float64.nearest_eval (e := 25) (m := 4835703278458641) (by norm_num [abs_of_pos])
      (by norm_num [abs_of_pos]) (by norm_num)
      (Float64.rhe_of_lt_half (by norm_num) (by norm_num))]
    norm_num
  have e3 : Float64.nearest (((360287970189649 : Int) : ℚ)) = 360287970189649 := by
    have h := Float64.nearest_natCast 360287970189649 (by norm_num)
    push_cast at h ⊢
    exact h
  have e4 : Float64.nearest ((360287970189649 : ℚ) / 10 ^ 7)
      = 4835703278458642 / 2 ^ 27 := by
    rw [Float64.nearest_eval (e := 25) (m := 4835703278458641 + 1)
      (by norm_num [abs_of_pos]) (by norm_num [abs_of_pos]) (by norm_num)
      (Float64.rhe_of_gt_half (by norm_num) (by norm_num))]
    norm_num
  have e5 : Float64.nearest ((1 : ℚ) / 2 ^ 27) = 1 / 2 ^ 27 := by
    rw [Float64.nearest_eval (e := -27) (m := 2 ^ 52) (by norm_num [abs_of_pos])
      (by norm_num [abs_of_pos]) (by norm_num)
      (by
        have h : (1 : ℚ) / 2 ^ 27 / 2 ^ ((-27 : ℤ) - 52) = ((2 ^ 52 : ℤ) : ℚ) := by norm_num
        rw [h, Float64.rhe_intCast])]
    norm_num
  rw [e1, e2, e3, e4]
  have e6 : (4835703278458641 : ℚ) / 2 ^ 27 - 4835703278458642 / 2 ^ 27 = -(1 / 2 ^ 27) := by
    norm_num
  rw [e6, Float64.nearest_neg, e5]

/-- A small natural number, as a rational, is a `float64` value. -/
theorem nearest_small (n : ℕ) (h : n ≤ 2 ^ 53) : Float64.nearest (n : ℚ) = n :=
  Float64.nearest_natCast n h

/-- C4, as stated, fails: 36028797018964900 ns (417 days) after the start, for a disk that
was idle all that time (360287970189649 ticks of 100 ns, so idle time = elapsed time), the
active-time point has the value -2^-27 s: it is negative, and it is not the exact
difference (now - startTime)/10^9 - v/10^7 = 0. -/
theorem C4_counterexample :
    (1600000000000000000 ≤ 1636028797018964900 ∧ 1636028797018964900 < uint64Size) ∧
    (Samples.idleDisk.value "% Idle Time" : ℚ) / 10 ^ 7
      ≤ ((1636028797018964900 - 1600000000000000000 : ℕ) : ℚ) / 10 ^ 9 ∧
    (diskscraper.initializeDiskIOTimeMetric Float64.ieee
        diskscraper.initializeNumberDataPointAsDouble Metric.fresh
        1600000000000000000 1636028797018964900 [Samples.idleDisk]).dataPoints
      = [{ attributes := [("device", "C:")], startTimestamp := 1600000000000000000,
           timestamp := 1636028797018964900,
           value := NumberValue.doubleVal (-(1 / 2 ^ 27)) }] ∧
    ¬ ((0 : ℚ) ≤ -(1 / 2 ^ 27)) ∧
    (-(1 / 2 ^ 27) : ℚ)
      ≠ ((1636028797018964900 - 1600000000000000000 : ℕ) : ℚ) / 10 ^ 9
          - (Samples.idleDisk.value "% Idle Time" : ℚ) / 10 ^ 7 := by
  have hv : Samples.idleDisk.value "% Idle Time" = 360287970189649 := by decide
  refine ⟨⟨by norm_num, by norm_num [uint64Size]⟩, ?_, ?_, by norm_num, ?_⟩
  · rw [hv]
    norm_num
  · rw [diskIOTime_dataPoints]
    simp only [List.map_cons, List.map_nil, asDouble_fresh_no_direction, hv,
      diskActiveTime_idleDisk]
    rfl
  · rw [hv]
    norm_num

/-- C4, amended: `initializeDiskIOTimeMetric` gives every disk instance, in input order,
one point built by the data-point helper with the instance name, no direction and the
`float64` value `float64(now-startTime)/1e9 - float64(v)/1e7` for its idle-time counter
`v`, where `now-startTime` is the `uint64` difference and each conversion, each quotient
and the difference is rounded to the nearest `float64`; with the helper
`initializeNumberDataPointAsDouble` that value is the point's value.  The value is `≥ 0`
whenever idle time `≤` elapsed time, `startTime ≤ now` and the elapsed time is at most
`2^53` ns; and with elapsed = 10 s and idle = 4 s it is 6 s. -/
theorem C4_disk_active_time (startTime now : Timestamp) (v : Int) :
    (∀ (asDouble : diskscraper.DoublePointInit ℚ) (vals : List perfcounters.CounterValues),
      (diskscraper.initializeDiskIOTimeMetric Float64.ieee asDouble Metric.fresh startTime now
          vals).dataPoints
        = vals.map (fun c => asDouble NumberDataPoint.fresh startTime now c.InstanceName ""
            (diskscraper.diskActiveTime Float64.ieee startTime now
              (c.value "% Idle Time")))) ∧
    (∀ vals : List perfcounters.CounterValues,
      (diskscraper.initializeDiskIOTimeMetric Float64.ieee
          diskscraper.initializeNumberDataPointAsDouble Metric.fresh startTime now
          vals).dataPoints
        = vals.map (fun c =>
            { attributes := [("device", c.InstanceName)], startTimestamp := startTime,
              timestamp := now,
              value := NumberValue.doubleVal
                (diskscraper.diskActiveTime Float64.ieee startTime now
                  (c.value "% Idle Time")) })) ∧
    diskscraper.diskActiveTime Float64.ieee startTime now v
      = Float64.nearest
          (Float64.nearest
              (Float64.nearest (((now + 2 ^ 64 - startTime) % 2 ^ 64 : ℕ) : ℚ) / 10 ^ 9)
            - Float64.nearest (Float64.nearest (v : ℚ) / 10 ^ 7)) ∧
    (startTime ≤ now → now < 2 ^ 64 → now - startTime ≤ 2 ^ 53 →
      (v : ℚ) / 10 ^ 7 ≤ ((now - startTime : ℕ) : ℚ) / 10 ^ 9 →
      0 ≤ diskscraper.diskActiveTime Float64.ieee startTime now v) ∧
    (startTime ≤ now → now < 2 ^ 64 → now - startTime = 10 ^ 10 → v = 4 * 10 ^ 7 →
      diskscraper.diskActiveTime Float64.ieee startTime now v = 6) := by
  refine ⟨fun asDouble vals => diskIOTime_dataPoints _ _ _ _ _, ?_, ?_, ?_, ?_⟩
  · intro vals
    rw [diskIOTime_dataPoints]
    simp only [asDouble_fresh_no_direction]
  · rw [diskActiveTime_ieee]
    rfl
  · intro hle hnow hd hidle
    rw [diskActiveTime_ieee, uint64Sub_of_le hle hnow, nearest_small _ hd]
    apply Float64.nearest_nonneg
    rw [sub_nonneg]
    rcases le_or_lt v 0 with hv | hv
    · have h1 : Float64.nearest (v : ℚ) ≤ 0 := by
        have := Float64.nearest_mono (show (v : ℚ) ≤ 0 by exact_mod_cast hv)
        rwa [Float64.nearest_zero] at this
      have h2 : Float64.nearest (Float64.nearest (v : ℚ) / 10 ^ 7) ≤ 0 := by
        have := Float64.nearest_mono
          (show Float64.nearest (v : ℚ) / 10 ^ 7 ≤ 0 from
            div_nonpos_of_nonpos_of_nonneg h1 (by positivity))
        rwa [Float64.nearest_zero] at this
      exact le_trans h2 (Float64.nearest_nonneg (by positivity))
    · have hvq : (0 : ℚ) < v := by exact_mod_cast hv
      have hd' : ((now - startTime : ℕ) : ℚ) ≤ 2 ^ 53 := by exact_mod_cast hd
      have h3 : (v : ℚ) ≤ 2 ^ 53 := by
        rw [div_le_div_iff₀ (by positivity) (by positivity)] at hidle
        nlinarith
      have h4 : |v| ≤ 2 ^ 53 := by
        rw [abs_of_pos hv]
        exact_mod_cast h3
      rw [Float64.nearest_intCast v h4]
      exact Float64.nearest_mono hidle
  · intro hle hnow hd hv
    rw [diskActiveTime_ieee, uint64Sub_of_le hle hnow, hd, hv]
    have a1 : Float64.nearest (((10 ^ 10 : ℕ) : ℚ)) = ((10 ^ 10 : ℕ) : ℚ) :=
      nearest_small _ (by norm_num)
    have a2 : Float64.nearest (((4 * 10 ^ 7 : ℤ) : ℚ)) = ((4 * 10 ^ 7 : ℤ) : ℚ) :=
      Float64.nearest_intCast _ (by norm_num)
    have a3 : Float64.nearest (10 : ℚ) = 10 := by
      have := nearest_small 10 (by norm_num)
      exact_mod_cast this
    have a4 : Float64.nearest (4 : ℚ) = 4 := by
      have := nearest_small 4 (by norm_num)
      exact_mod_cast this
    have a5 : Float64.nearest (6 : ℚ) = 6 := by
      have := nearest_small 6 (by norm_num)
      exact_mod_cast this
    rw [a1, a2]
    have b1 : (((10 ^ 10 : ℕ) : ℚ)) / 10 ^ 9 = 10 := by norm_num
    have b2 : (((4 * 10 ^ 7 : ℤ) : ℚ)) / 10 ^ 7 = 4 := by norm_num
    rw [b1, b2, a3, a4]
    have b3 : (10 : ℚ) - 4 = 6 := by norm_num
    rw [b3, a5]

/-- C4, amended, for a scraper started at 5 s, a scrape at 15 s and 4 s of idle time: the
active time is 6 s, and it is not negative. -/
theorem C4_disk_active_time_witness :
    diskscraper.diskActiveTime Float64.ieee 5000000000 15000000000 40000000 = 6 ∧
    0 ≤ diskscraper.diskActiveTime Float64.ieee 5000000000 15000000000 40000000 :=
  ⟨(C4_disk_active_time 5000000000 15000000000 40000000).2.2.2.2 (by norm_num) (by norm_num)
      (by norm_num) (by norm_num),
   (C4_disk_active_time 5000000000 15000000000 40000000).2.2.2.1 (by norm_num) (by norm_num)
      (by norm_num) (by norm_num)⟩

/-! ## Pending operations and operation time of the disk scraper -/

/-- The length of a concatenation of pairs. -/
theorem flatMap_pair_length {α β : Type} (f g : α → β) (l : List α) :
    (l.flatMap (fun a => [f a, g a])).length = 2 * l.length := by
  induction l with
  | nil => rfl
  | cons a l ih =>
    simp only [List.flatMap_cons, List.length_append, List.length_cons, List.length_nil, ih]
    ring

/-- The point `initializeDiskPendingDataPoint` makes of a fresh point. -/
theorem diskPending_fresh {F : Type} (now : Timestamp) (device : String) (value : Int) :
    diskscraper.initializeDiskPendingDataPoint (F := F) NumberDataPoint.fresh now device value
      = { attributes := [("device", device)], startTimestamp := 0, timestamp := now,
          value := NumberValue.intVal value } := by
  simp [diskscraper.initializeDiskPendingDataPoint, NumberDataPoint.fresh,
    NumberDataPoint.SetTimestamp, NumberDataPoint.SetIntVal, AttributeMap.InsertString,
    metadata.Attributes.Device]

/-- C11: `initializeDiskPendingOperationsMetric` on a fresh metric, for every list of `n`
disk instances: the metric receives exactly `n` points, the point at index `i` being the
one of instance `i`; each point is an instantaneous reading: its only attribute is
device = instance name, so it has no direction attribute, its timestamp is `now`, its
integer value is the instance's queue-length counter, and its start timestamp is the
unset one of a fresh point, zero. -/
theorem C11_disk_pending_points {F : Type} (now : Timestamp)
    (vals : List perfcounters.CounterValues) :
    (diskscraper.initializeDiskPendingOperationsMetric (F := F) Metric.fresh now
        vals).dataPoints
      = vals.map (fun c =>
          { attributes := [("device", c.InstanceName)], startTimestamp := 0, timestamp := now,
            value := NumberValue.intVal (c.value "Current Disk Queue Length") }) ∧
    (diskscraper.initializeDiskPendingOperationsMetric (F := F) Metric.fresh now
        vals).dataPoints.length = vals.length ∧
    (∀ i : Nat,
      (diskscraper.initializeDiskPendingOperationsMetric (F := F) Metric.fresh now
          vals).dataPoints[i]?
        = (vals[i]?).map (fun c =>
            { attributes := [("device", c.InstanceName)], startTimestamp := 0,
              timestamp := now,
              value := NumberValue.intVal (c.value "Current Disk Queue Length") })) ∧
    (∀ device : String,
      AttributeMap.Get [("device", device)] "direction" = none ∧
      AttributeMap.keys [("device", device)] = ["device"]) ∧
    (NumberDataPoint.fresh (F := F)).startTimestamp = 0 := by
  have h : (diskscraper.initializeDiskPendingOperationsMetric (F := F) Metric.fresh now
        vals).dataPoints
      = vals.map (fun c =>
          { attributes := [("device", c.InstanceName)], startTimestamp := 0, timestamp := now,
            value := NumberValue.intVal (c.value "Current Disk Queue Length") }) := by
    simp only [diskscraper.initializeDiskPendingOperationsMetric, MetricDefinition.Init,
      Metric.fresh]
    rw [foldl_append_single]
    simp only [diskPending_fresh, diskscraper.queueLength, List.nil_append]
  refine ⟨h, ?_, ?_, ?_, rfl⟩
  · rw [h, List.length_map]
  · intro i
    rw [h, List.getElem?_map]
  · intro device
    exact ⟨by simp [AttributeMap.Get, List.lookup], rfl⟩

/-- The points of `initializeDiskOperationTimeMetric`, for every arithmetic `fl` and every
helper `asDouble`. -/
theorem diskOperationTime_dataPoints {F : Type} (fl : Float64Ops F)
    (asDouble : diskscraper.DoublePointInit F) (startTime now : Timestamp)
    (vals : List perfcounters.CounterValues) :
    (diskscraper.initializeDiskOperationTimeMetric fl asDouble Metric.fresh startTime now
        vals).dataPoints
      = vals.flatMap (fun c =>
          [asDouble NumberDataPoint.fresh startTime now c.InstanceName "read"
              (fl.div (fl.ofInt64 (c.value "Avg. Disk sec/Read")) (fl.const (10 ^ 7))),
            asDouble NumberDataPoint.fresh startTime now c.InstanceName "write"
              (fl.div (fl.ofInt64 (c.value "Avg. Disk sec/Write")) (fl.const (10 ^ 7)))]) := by
  simp only [diskscraper.initializeDiskOperationTimeMetric, MetricDefinition.Init, Metric.fresh]
  rw [foldl_append_pair]
  rfl

/-- The point the helper `initializeNumberDataPointAsDouble` makes of a fresh point when
the direction label is not empty. -/
theorem asDouble_fresh {F : Type} (startTime now : Timestamp) (device direction : String)
    (value : F) (h : direction ≠ "") :
    diskscraper.initializeNumberDataPointAsDouble NumberDataPoint.fresh startTime now
        device direction value
      = { attributes := [("device", device), ("direction", direction)],
          startTimestamp := startTime, timestamp := now,
          value := NumberValue.doubleVal value } := by
  have hne : ("device" : String) ≠ "direction" := by decide
  simp [diskscraper.initializeNumberDataPointAsDouble, NumberDataPoint.fresh,
    NumberDataPoint.SetStartTimestamp, NumberDataPoint.SetTimestamp,
    NumberDataPoint.SetDoubleVal, AttributeMap.InsertString, metadata.Attributes.Device,
    metadata.Attributes.Direction, h, hne]

/-- C12 (amended): `initializeDiskOperationTimeMetric` on a fresh metric, for every list of `n` disk
instances, every `float64` arithmetic `fl` and every data-point helper: the metric
receives exactly `2 n` points, for instance `i` at `2 i` a read point and at `2 i + 1` a
write point, built with the instance name, the direction and the value
`float64(counter)/1e7` of the instance's average-ticks-per-read, respectively per-write,
counter; with the helper `initializeNumberDataPointAsDouble` the points carry device,
direction, both timestamps and that value.  In round-to-nearest arithmetic `1e7` is exactly
`10^7`, and for a counter of absolute value at most `2^53` the value is the `float64`
nearest to counter / `10^7`. -/
theorem C12_disk_operation_time_points {F : Type} (fl : Float64Ops F)
    (asDouble : diskscraper.DoublePointInit F) (startTime now : Timestamp)
    (vals : List perfcounters.CounterValues) :
    (diskscraper.initializeDiskOperationTimeMetric fl asDouble Metric.fresh startTime now
        vals).dataPoints.length = 2 * vals.length ∧
    (∀ i : Nat,
      (diskscraper.initializeDiskOperationTimeMetric fl asDouble Metric.fresh startTime now
          vals).dataPoints[2 * i]?
        = (vals[i]?).map (fun c => asDouble NumberDataPoint.fresh startTime now
            c.InstanceName "read"
            (fl.div (fl.ofInt64 (c.value "Avg. Disk sec/Read")) (fl.const (10 ^ 7)))) ∧
      (diskscraper.initializeDiskOperationTimeMetric fl asDouble Metric.fresh startTime now
          vals).dataPoints[2 * i + 1]?
        = (vals[i]?).map (fun c => asDouble NumberDataPoint.fresh startTime now
            c.InstanceName "write"
            (fl.div (fl.ofInt64 (c.value "Avg. Disk sec/Write")) (fl.const (10 ^ 7))))) ∧
    (diskscraper.initializeDiskOperationTimeMetric fl
        diskscraper.initializeNumberDataPointAsDouble Metric.fresh startTime now
        vals).dataPoints
      = vals.flatMap (fun c =>
          [{ attributes := [("device", c.InstanceName), ("direction", "read")],
             startTimestamp := startTime, timestamp := now,
             value := NumberValue.doubleVal
               (fl.div (fl.ofInt64 (c.value "Avg. Disk sec/Read")) (fl.const (10 ^ 7))) },
           { attributes := [("device", c.InstanceName), ("direction", "write")],
             startTimestamp := startTime, timestamp := now,
             value := NumberValue.doubleVal
               (fl.div (fl.ofInt64 (c.value "Avg. Disk sec/Write")) (fl.const (10 ^ 7))) }]) ∧
    Float64.ieee.const (10 ^ 7) = 10 ^ 7 ∧
    (∀ v : Int,
      Float64.ieee.div (Float64.ieee.ofInt64 v) (Float64.ieee.const (10 ^ 7))
        = Float64.nearest (Float64.nearest (v : ℚ) / 10 ^ 7)) ∧
    (∀ v : Int, |v| ≤ 2 ^ 53 →
      Float64.ieee.div (Float64.ieee.ofInt64 v) (Float64.ieee.const (10 ^ 7))
        = Float64.nearest ((v : ℚ) / 10 ^ 7)) := by
  have hr : ("read" : String) ≠ "" := by decide
  have hw : ("write" : String) ≠ "" := by decide
  have hc := ieee_const_scales.2
  have hdiv : ∀ v : Int,
      Float64.ieee.div (Float64.ieee.ofInt64 v) (Float64.ieee.const (10 ^ 7))
        = Float64.nearest (Float64.nearest (v : ℚ) / 10 ^ 7) := by
    intro v
    rw [hc]
    rfl
  refine ⟨?_, ?_, ?_, hc, hdiv, ?_⟩
  · rw [diskOperationTime_dataPoints, flatMap_pair_length]
  · intro i
    rw [diskOperationTime_dataPoints]
    exact flatMap_pair_getElem? _ _ vals i
  · rw [diskOperationTime_dataPoints]
    simp only [asDouble_fresh _ _ _ _ _ hr, asDouble_fresh _ _ _ _ _ hw]
  · intro v hv
    rw [hdiv, Float64.nearest_intCast v hv]

/-- The `float64` nearest to `1 / 10^7`. -/
theorem nearest_tenMillionth :
    Float64.nearest ((1 : ℚ) / 10 ^ 7) = 7555786372591432 / 2 ^ 76 := by
  rw [Float64.nearest_eval (e := -24) (m := 7555786372591432) (by norm_num [abs_of_pos])
    (by norm_num [abs_of_pos]) (by norm_num)
    (Float64.rhe_of_lt_half (z := 7555786372591432) (by norm_num) (by norm_num))]
  norm_num

/-- C12, as stated, fails at a disk whose average time per read is one tick: the value of
the read point is `float64(1) / 1e7`, the `float64` nearest to `1 / 10^7`, which is
`7555786372591432 / 2^76` and not `1 / 10^7`. -/
theorem C12_counterexample :
    (diskscraper.initializeDiskOperationTimeMetric Float64.ieee
        diskscraper.initializeNumberDataPointAsDouble Metric.fresh 5 9
        [Samples.oneTickDisk]).dataPoints
      = [{ attributes := [("device", "C:"), ("direction", "read")], startTimestamp := 5,
           timestamp := 9, value := NumberValue.doubleVal (7555786372591432 / 2 ^ 76) },
         { attributes := [("device", "C:"), ("direction", "write")], startTimestamp := 5,
           timestamp := 9, value := NumberValue.doubleVal (7555786372591432 / 2 ^ 76) }] ∧
    (7555786372591432 / 2 ^ 76 : ℚ) ≠ ((1 : Int) : ℚ) / 10 ^ 7 := by
  have hr : ("read" : String) ≠ "" := by decide
  have hw : ("write" : String) ≠ "" := by decide
  have hv : Float64.ieee.div (Float64.ieee.ofInt64 1) (Float64.ieee.const (10 ^ 7))
      = 7555786372591432 / 2 ^ 76 := by
    rw [ieee_const_scales.2]
    show Float64.nearest (Float64.nearest ((1 : Int) : ℚ) / 10 ^ 7) = _
    rw [Float64.nearest_intCast 1 (by norm_num)]
    have h := nearest_tenMillionth
    simpa using h
  have h1 : Samples.oneTickDisk.value "Avg. Disk sec/Read" = 1 := by
    simp [Samples.oneTickDisk, perfcounters.CounterValues.value, List.lookup]
  have h2 : Samples.oneTickDisk.value "Avg. Disk sec/Write" = 1 := by
    simp [Samples.oneTickDisk, perfcounters.CounterValues.value, List.lookup]
  constructor
  · rw [diskOperationTime_dataPoints]
    simp only [List.flatMap_cons, List.flatMap_nil, List.append_nil,
      asDouble_fresh _ _ _ _ _ hr, asDouble_fresh _ _ _ _ _ hw, h1, h2, hv]
    rfl
  · norm_num

/-- C12 for the disk `sda` with 20000 ticks (2 ms) per read and 30000 ticks per write: two
points, a read point and a write point; and for a counter of 50000 ticks (5 ms) the value
is the `float64` nearest to 1/200. -/
theorem C12_disk_operation_time_points_witness :
    (diskscraper.initializeDiskOperationTimeMetric Float64.ieee
        diskscraper.initializeNumberDataPointAsDouble Metric.fresh 5 9
        [Samples.diskCounters "sda"]).dataPoints
      = [{ attributes := [("device", "sda"), ("direction", "read")], startTimestamp := 5,
           timestamp := 9,
           value := NumberValue.doubleVal
             (Float64.ieee.div (Float64.ieee.ofInt64
               ((Samples.diskCounters "sda").value "Avg. Disk sec/Read"))
               (Float64.ieee.const (10 ^ 7))) },
         { attributes := [("device", "sda"), ("direction", "write")], startTimestamp := 5,
           timestamp := 9,
           value := NumberValue.doubleVal
             (Float64.ieee.div (Float64.ieee.ofInt64
               ((Samples.diskCounters "sda").value "Avg. Disk sec/Write"))
               (Float64.ieee.const (10 ^ 7))) }] ∧
    (Samples.diskCounters "sda").value "Avg. Disk sec/Read" = 20000 ∧
    Float64.ieee.div (Float64.ieee.ofInt64 50000) (Float64.ieee.const (10 ^ 7))
      = Float64.nearest (((50000 : Int) : ℚ) / 10 ^ 7) :=
  ⟨(C12_disk_operation_time_points Float64.ieee diskscraper.initializeNumberDataPointAsDouble
      5 9 [Samples.diskCounters "sda"]).2.2.1,
   by simp [Samples.diskCounters, perfcounters.CounterValues.value, List.lookup],
   (C12_disk_operation_time_points Float64.ieee diskscraper.initializeNumberDataPointAsDouble
      5 9 [Samples.diskCounters "sda"]).2.2.2.2.2 50000 (by norm_num)⟩

/-! ## Data points of the paging scraper -/

/-- The point `initializePagingUsageDataPoint` makes of a fresh point. -/
theorem pagingUsage_fresh {F : Type} (now : Timestamp) (device state : String) (value : Int) :
    pagingscraper.initializePagingUsageDataPoint (F := F) NumberDataPoint.fresh now device
        state value
      = { attributes := [("device", device), ("state", state)], startTimestamp := 0,
          timestamp := now, value := NumberValue.intVal value } := by
  have hne : ("device" : String) ≠ "state" := by decide
  simp [pagingscraper.initializePagingUsageDataPoint, NumberDataPoint.fresh,
    NumberDataPoint.SetTimestamp, NumberDataPoint.SetIntVal, AttributeMap.InsertString,
    metadata.Attributes.Device, metadata.Attributes.State, hne]

/-- The points of `initializePagingUsageMetric`. -/
theorem pagingUsage_dataPoints {κ ε ω F : Type} (s : pagingscraper.scraper κ ε ω)
    (now : Timestamp) (pageFiles : List pagingscraper.pageFileStats) :
    (s.initializePagingUsageMetric (F := F) Metric.fresh now pageFiles).dataPoints
      = pageFiles.flatMap (fun pageFile =>
          [{ attributes := [("device", pageFile.deviceName), ("state", "used")],
             startTimestamp := 0, timestamp := now,
             value := NumberValue.intVal (int64OfUInt64 pageFile.usedBytes) },
           { attributes := [("device", pageFile.deviceName), ("state", "free")],
             startTimestamp := 0, timestamp := now,
             value := NumberValue.intVal (int64OfUInt64 pageFile.freeBytes) }]) := by
  simp only [pagingscraper.scraper.initializePagingUsageMetric, MetricDefinition.Init,
    Metric.fresh]
  rw [foldl_append_pair]
  simp only [pagingUsage_fresh, metadata.AttributeState.Used, metadata.AttributeState.Free,
    List.nil_append]

/-- C13, as stated, fails: for a page file with `2^63` used bytes, a `uint64` value, the
used point has the value `-2^63`, not `2^63`: the conversion `int64(usedBytes)` wraps. -/
theorem C13_counterexample :
    Samples.hugePageFile.usedBytes < uint64Size ∧
    ((Samples.pagingBoot 5 none).initializePagingUsageMetric (F := ℚ) Metric.fresh 9
        [Samples.hugePageFile]).dataPoints
      = [{ attributes := [("device", "pagefile.sys"), ("state", "used")],
           startTimestamp := 0, timestamp := 9,
           value := NumberValue.intVal (-9223372036854775808) },
         { attributes := [("device", "pagefile.sys"), ("state", "free")],
           startTimestamp := 0, timestamp := 9, value := NumberValue.intVal 0 }] ∧
    (NumberValue.intVal (-9223372036854775808) : NumberValue ℚ)
      ≠ NumberValue.intVal (Samples.hugePageFile.usedBytes : Int) := by
  refine ⟨by decide, ?_, by decide⟩
  rw [pagingUsage_dataPoints]
  decide

/-- C13, amended: `initializePagingUsageMetric` on a fresh metric, for every list of `n`
page files: the metric receives exactly `2 n` points, for each page file in input order a
point with state = used and value `int64(usedBytes)` followed by a point with state = free
and value `int64(freeBytes)`, both with device = the page file's device name and timestamp
`now`, and neither with a start timestamp (it stays zero); `int64(u)` is `u` itself for
every `u < 2^63`. -/
theorem C13_paging_usage_points {κ ε ω F : Type} (s : pagingscraper.scraper κ ε ω)
    (now : Timestamp) (pageFiles : List pagingscraper.pageFileStats) :
    (s.initializePagingUsageMetric (F := F) Metric.fresh now pageFiles).dataPoints
      = pageFiles.flatMap (fun pageFile =>
          [{ attributes := [("device", pageFile.deviceName), ("state", "used")],
             startTimestamp := 0, timestamp := now,
             value := NumberValue.intVal (int64OfUInt64 pageFile.usedBytes) },
           { attributes := [("device", pageFile.deviceName), ("state", "free")],
             startTimestamp := 0, timestamp := now,
             value := NumberValue.intVal (int64OfUInt64 pageFile.freeBytes) }]) ∧
    (s.initializePagingUsageMetric (F := F) Metric.fresh now pageFiles).dataPoints.length
      = 2 * pageFiles.length ∧
    (∀ i : Nat,
      (s.initializePagingUsageMetric (F := F) Metric.fresh now pageFiles).dataPoints[2 * i]?
        = (pageFiles[i]?).map (fun pageFile =>
            { attributes := [("device", pageFile.deviceName), ("state", "used")],
              startTimestamp := 0, timestamp := now,
              value := NumberValue.intVal (int64OfUInt64 pageFile.usedBytes) }) ∧
      (s.initializePagingUsageMetric (F := F) Metric.fresh now
          pageFiles).dataPoints[2 * i + 1]?
        = (pageFiles[i]?).map (fun pageFile =>
            { attributes := [("device", pageFile.deviceName), ("state", "free")],
              startTimestamp := 0, timestamp := now,
              value := NumberValue.intVal (int64OfUInt64 pageFile.freeBytes) })) ∧
    (∀ u : Nat, u < 2 ^ 63 → int64OfUInt64 u = (u : Int)) := by
  refine ⟨pagingUsage_dataPoints s now pageFiles, ?_, ?_, ?_⟩
  · rw [pagingUsage_dataPoints, flatMap_pair_length]
  · intro i
    rw [pagingUsage_dataPoints]
    exact flatMap_pair_getElem? _ _ pageFiles i
  · intro u hu
    unfold int64OfUInt64
    rw [if_pos hu]

/-- C13, amended, for a page file with 10 bytes used: the value of the used point is 10. -/
theorem C13_paging_usage_points_witness :
    int64OfUInt64 Samples.smallPageFile.usedBytes = 10 :=
  (C13_paging_usage_points (F := ℚ) (Samples.pagingBoot 5 none) 9
    [Samples.smallPageFile]).2.2.2 10 (by norm_num)

/-- The point `initializePagingOperationsDataPoint` makes of a fresh point. -/
theorem pagingOperations_fresh {F : Type} (startTime now : Timestamp) (direction : String)
    (value : Int) :
    pagingscraper.initializePagingOperationsDataPoint (F := F) NumberDataPoint.fresh
        startTime now direction value
      = { attributes := [("type", "major"), ("direction", direction)],
          startTimestamp := startTime, timestamp := now,
          value := NumberValue.intVal value } := by
  have hne : ("type" : String) ≠ "direction" := by decide
  simp [pagingscraper.initializePagingOperationsDataPoint, NumberDataPoint.fresh,
    NumberDataPoint.SetStartTimestamp, NumberDataPoint.SetTimestamp,
    NumberDataPoint.SetIntVal, AttributeMap.InsertString, metadata.Attributes.Type,
    metadata.Attributes.Direction, metadata.AttributeType.Major, hne]

/-- C14: `initializePagingOperationsMetric` on a fresh metric, for every memory counter
snapshot: the metric receives exactly two points, first direction = page-in with the
page-reads counter as value, then direction = page-out with the page-writes counter; each
point carries exactly the two attributes type = major and direction, the start timestamp
`startTime` and the timestamp `now`. -/
theorem C14_paging_operations_points {F : Type} (startTime now : Timestamp)
    (memoryCounterValues : perfcounters.CounterValues) :
    (pagingscraper.initializePagingOperationsMetric (F := F) Metric.fresh startTime now
        memoryCounterValues).dataPoints
      = [{ attributes := [("type", "major"), ("direction", metadata.AttributeDirection.PageIn)],
           startTimestamp := startTime, timestamp := now,
           value := NumberValue.intVal (memoryCounterValues.value "Page Reads/sec") },
         { attributes := [("type", "major"), ("direction", metadata.AttributeDirection.PageOut)],
           startTimestamp := startTime, timestamp := now,
           value := NumberValue.intVal (memoryCounterValues.value "Page Writes/sec") }] ∧
    (pagingscraper.initializePagingOperationsMetric (F := F) Metric.fresh startTime now
        memoryCounterValues).dataPoints.length = 2 ∧
    (∀ direction : String,
      AttributeMap.keys [("type", "major"), ("direction", direction)]
        = ["type", "direction"]) ∧
    metadata.AttributeDirection.PageIn = "page-in" ∧
    metadata.AttributeDirection.PageOut = "page-out" := by
  have h : (pagingscraper.initializePagingOperationsMetric (F := F) Metric.fresh startTime
        now memoryCounterValues).dataPoints
      = [{ attributes := [("type", "major"), ("direction", metadata.AttributeDirection.PageIn)],
           startTimestamp := startTime, timestamp := now,
           value := NumberValue.intVal (memoryCounterValues.value "Page Reads/sec") },
         { attributes := [("type", "major"), ("direction", metadata.AttributeDirection.PageOut)],
           startTimestamp := startTime, timestamp := now,
           value := NumberValue.intVal (memoryCounterValues.value "Page Writes/sec") }] := by
    simp only [pagingscraper.initializePagingOperationsMetric, MetricDefinition.Init,
      Metric.fresh, pagingOperations_fresh, pagingscraper.pageReadsPerSec,
      pagingscraper.pageWritesPerSec, List.nil_append, List.singleton_append]
  refine ⟨h, ?_, fun _ => rfl, rfl, rfl⟩
  rw [h]
  rfl

/-! ## The process scraper -/

/-- The point the process scraper's `initializeCPUTimeDataPoint` makes of a fresh point. -/
theorem processCPUTime_fresh {F : Type} (startTime now : Timestamp) (value : F)
    (state : String) :
    processscraper.initializeCPUTimeDataPoint NumberDataPoint.fresh startTime now value state
      = { attributes := [("state", state)], startTimestamp := startTime, timestamp := now,
          value := NumberValue.doubleVal value } := by
  simp [processscraper.initializeCPUTimeDataPoint, NumberDataPoint.fresh,
    NumberDataPoint.SetStartTimestamp, NumberDataPoint.SetTimestamp,
    NumberDataPoint.SetDoubleVal, AttributeMap.InsertString, metadata.Attributes.State]

/-- C15: the process scraper's `appendCPUTimeStateDataPoints`, for every data-point slice
and every CPU times record: the slice afterwards is the old slice followed by exactly
`cpuStatesLen = 3` new points, in the order state = user (value `User`), state = system
(value `System`), state = wait (value `Iowait`); each new point has state as its only
attribute, the start timestamp `startTime` and the timestamp `now`; the points already in
the slice are unchanged. -/
theorem C15_process_cpu_time_points {F : Type} (ddps : List (NumberDataPoint F))
    (startTime now : Timestamp) (cpuTime : TimesStat F) :
    processscraper.appendCPUTimeStateDataPoints ddps startTime now cpuTime
      = ddps ++
        [{ attributes := [("state", "user")], startTimestamp := startTime, timestamp := now,
           value := NumberValue.doubleVal cpuTime.User },
         { attributes := [("state", "system")], startTimestamp := startTime, timestamp := now,
           value := NumberValue.doubleVal cpuTime.System },
         { attributes := [("state", "wait")], startTimestamp := startTime, timestamp := now,
           value := NumberValue.doubleVal cpuTime.Iowait }] ∧
    (processscraper.appendCPUTimeStateDataPoints ddps startTime now cpuTime).length
      = ddps.length + processscraper.cpuStatesLen ∧
    processscraper.cpuStatesLen = 3 ∧
    (processscraper.appendCPUTimeStateDataPoints ddps startTime now cpuTime).take ddps.length
      = ddps ∧
    (∀ state : String, AttributeMap.keys [("state", state)] = ["state"]) := by
  have h : processscraper.appendCPUTimeStateDataPoints ddps startTime now cpuTime
      = ddps ++
        [{ attributes := [("state", "user")], startTimestamp := startTime, timestamp := now,
           value := NumberValue.doubleVal cpuTime.User },
         { attributes := [("state", "system")], startTimestamp := startTime, timestamp := now,
           value := NumberValue.doubleVal cpuTime.System },
         { attributes := [("state", "wait")], startTimestamp := startTime, timestamp := now,
           value := NumberValue.doubleVal cpuTime.Iowait }] := by
    simp only [processscraper.appendCPUTimeStateDataPoints, processCPUTime_fresh,
      metadata.AttributeState.User, metadata.AttributeState.System,
      metadata.AttributeState.Wait, List.append_assoc, List.singleton_append]
    rfl
  refine ⟨h, ?_, rfl, ?_, fun _ => rfl⟩
  · rw [h]
    simp [processscraper.cpuStatesLen]
  · rw [h]
    simp

/-- C16: `getProcessCommand`, for every process handle and environment: if reading the
command-line slice fails, the result is no descriptor and exactly that error; otherwise the
result is a descriptor whose `commandLineSlice` is the argument vector as read and whose
`command` is its first element, or the empty string when the argument vector is empty;
the function is total, so an empty command line causes no out-of-range access. -/
theorem C16_process_command {ε ω : Type} (proc : processscraper.processHandle ε ω) (w : ω) :
    (∀ (err : ε) (w1 : ω), proc.CmdlineSlice w = (Except.error err, w1) →
      processscraper.getProcessCommand proc w = (Except.error err, w1)) ∧
    (∀ (w1 : ω), proc.CmdlineSlice w = (Except.ok [], w1) →
      processscraper.getProcessCommand proc w
        = (Except.ok { command := "", commandLineSlice := [] }, w1)) ∧
    (∀ (first : String) (rest : List String) (w1 : ω),
      proc.CmdlineSlice w = (Except.ok (first :: rest), w1) →
      processscraper.getProcessCommand proc w
        = (Except.ok { command := first, commandLineSlice := first :: rest }, w1)) := by
  refine ⟨?_, ?_, ?_⟩
  · intro err w1 h
    simp [processscraper.getProcessCommand, h]
  · intro w1 h
    simp [processscraper.getProcessCommand, h]
  · intro first rest w1 h
    simp [processscraper.getProcessCommand, h]

/-- C16 at sample process handles: a failing read, an empty command line and the command
line `ls -l`. -/
theorem C16_process_command_witness :
    processscraper.getProcessCommand
        (Samples.loggedProcess (Except.ok "ls") (Except.ok "/bin/ls")
          (Except.error "no such process")) []
      = (Except.error "no such process", ["CmdlineSlice"]) ∧
    processscraper.getProcessCommand
        (Samples.loggedProcess (Except.ok "ls") (Except.ok "/bin/ls") (Except.ok [])) []
      = (Except.ok { command := "", commandLineSlice := [] }, ["CmdlineSlice"]) ∧
    processscraper.getProcessCommand
        (Samples.loggedProcess (Except.ok "ls") (Except.ok "/bin/ls")
          (Except.ok ["ls", "-l"])) []
      = (Except.ok { command := "ls", commandLineSlice := ["ls", "-l"] }, ["CmdlineSlice"]) :=
  ⟨(C16_process_command _ []).1 "no such process" ["CmdlineSlice"] rfl,
   (C16_process_command _ []).2.1 ["CmdlineSlice"] rfl,
   (C16_process_command _ []).2.2 "ls" ["-l"] ["CmdlineSlice"] rfl⟩

/-- C17: `getProcessExecutable`, for every process handle and environment: it returns a
descriptor exactly when both the `Name` read and the `Exe` read (made after it) succeed,
and then name and path are the values read; if `Name` fails it returns no descriptor and
`Name`'s error, and the environment is the one `Name` left, so `Exe` is not read; if
`Name` succeeds and `Exe` fails it returns no descriptor and `Exe`'s error. -/
theorem C17_process_executable {ε ω : Type} (proc : processscraper.processHandle ε ω) (w : ω) :
    ((∃ d, (processscraper.getProcessExecutable proc w).1 = Except.ok d) ↔
      ∃ name exe, (proc.Name w).1 = Except.ok name ∧
        (proc.Exe (proc.Name w).2).1 = Except.ok exe) ∧
    (∀ name exe, (proc.Name w).1 = Except.ok name →
      (proc.Exe (proc.Name w).2).1 = Except.ok exe →
      processscraper.getProcessExecutable proc w
        = (Except.ok { name := name, path := exe }, (proc.Exe (proc.Name w).2).2)) ∧
    (∀ err, (proc.Name w).1 = Except.error err →
      processscraper.getProcessExecutable proc w = (Except.error err, (proc.Name w).2)) ∧
    (∀ name err, (proc.Name w).1 = Except.ok name →
      (proc.Exe (proc.Name w).2).1 = Except.error err →
      processscraper.getProcessExecutable proc w
        = (Except.error err, (proc.Exe (proc.Name w).2).2)) := by
  unfold processscraper.getProcessExecutable
  rcases hn : proc.Name w with ⟨rn | rn, w1⟩
  · simp
  · rcases he : proc.Exe w1 with ⟨re | re, w2⟩
    · simp [he]
    · simp [he]

/-- C17 at sample process handles: both reads succeed, the name read fails (and the log
shows no `Exe` read), the executable read fails. -/
theorem C17_process_executable_witness :
    processscraper.getProcessExecutable
        (Samples.loggedProcess (Except.ok "ls") (Except.ok "/bin/ls") (Except.ok [])) []
      = (Except.ok { name := "ls", path := "/bin/ls" }, ["Name", "Exe"]) ∧
    processscraper.getProcessExecutable
        (Samples.loggedProcess (Except.error "no such process") (Except.ok "/bin/ls")
          (Except.ok [])) []
      = (Except.error "no such process", ["Name"]) ∧
    processscraper.getProcessExecutable
        (Samples.loggedProcess (Except.ok "ls") (Except.error "permission denied")
          (Except.ok [])) []
      = (Except.error "permission denied", ["Name", "Exe"]) :=
  ⟨(C17_process_executable _ []).2.1 "ls" "/bin/ls" rfl rfl,
   (C17_process_executable _ []).2.2.1 "no such process" rfl,
   (C17_process_executable _ []).2.2.2 "ls" "permission denied" rfl rfl⟩

/-! ## Construction of the disk scraper -/

/-- C18: `newDiskScraper`, for every configuration, filter compiler and environment.  It
returns no scraper and an error exactly when a non-empty include list fails to compile, or
the include list is empty or compiles and a non-empty exclude list fails to compile (the
error wraps the compiler's error).  For an empty device list the compiler is not invoked,
so the environment is not touched for it, and the filter set stays unset; after a failed
include compilation the exclude list is not compiled.  On success the scraper holds the
configuration, the start time zero, the given backend and boot-time reader, and exactly
the compiled include and exclude sets. -/
theorem C18_new_disk_scraper {γ ε ω : Type}
    (CreateFilterSet : List String → γ → ω → Except ε FilterSet × ω)
    (backend : perfcounters.PerfCounterScraper ε ω) (boot : ω → Except ε Nat × ω)
    (cfg : diskscraper.Config γ) (w : ω) :
    ((∃ err, (diskscraper.newDiskScraper CreateFilterSet backend boot cfg w).1
        = Except.error err) ↔
      (cfg.Include.Devices ≠ [] ∧
        ∃ e, (CreateFilterSet cfg.Include.Devices cfg.Include.Config w).1 = Except.error e) ∨
      (cfg.Include.Devices = [] ∧ cfg.Exclude.Devices ≠ [] ∧
        ∃ e, (CreateFilterSet cfg.Exclude.Devices cfg.Exclude.Config w).1 = Except.error e) ∨
      (cfg.Include.Devices ≠ [] ∧ cfg.Exclude.Devices ≠ [] ∧
        (∃ fs, (CreateFilterSet cfg.Include.Devices cfg.Include.Config w).1 = Except.ok fs) ∧
        ∃ e, (CreateFilterSet cfg.Exclude.Devices cfg.Exclude.Config
          (CreateFilterSet cfg.Include.Devices cfg.Include.Config w).2).1 = Except.error e)) ∧
    (∀ e w1, cfg.Include.Devices ≠ [] →
      CreateFilterSet cfg.Include.Devices cfg.Include.Config w = (Except.error e, w1) →
      diskscraper.newDiskScraper CreateFilterSet backend boot cfg w
        = (Except.error { message := "error creating device include filters", cause := e },
           w1)) ∧
    (cfg.Include.Devices = [] → cfg.Exclude.Devices = [] →
      diskscraper.newDiskScraper CreateFilterSet backend boot cfg w
        = (Except.ok { config := cfg, startTime := 0, includeFS := none, excludeFS := none,
                       perfCounterScraper := backend, bootTime := boot }, w)) ∧
    (∀ fs w1, cfg.Include.Devices = [] → cfg.Exclude.Devices ≠ [] →
      CreateFilterSet cfg.Exclude.Devices cfg.Exclude.Config w = (Except.ok fs, w1) →
      diskscraper.newDiskScraper CreateFilterSet backend boot cfg w
        = (Except.ok { config := cfg, startTime := 0, includeFS := none,
                       excludeFS := some fs, perfCounterScraper := backend,
                       bootTime := boot }, w1)) ∧
    (∀ e w1, cfg.Include.Devices = [] → cfg.Exclude.Devices ≠ [] →
      CreateFilterSet cfg.Exclude.Devices cfg.Exclude.Config w = (Except.error e, w1) →
      diskscraper.newDiskScraper CreateFilterSet backend boot cfg w
        = (Except.error { message := "error creating device exclude filters", cause := e },
           w1)) ∧
    (∀ fs w1, cfg.Include.Devices ≠ [] → cfg.Exclude.Devices = [] →
      CreateFilterSet cfg.Include.Devices cfg.Include.Config w = (Except.ok fs, w1) →
      diskscraper.newDiskScraper CreateFilterSet backend boot cfg w
        = (Except.ok { config := cfg, startTime := 0, includeFS := some fs,
                       excludeFS := none, perfCounterScraper := backend,
                       bootTime := boot }, w1)) ∧
    (∀ fs1 w1 fs2 w2, cfg.Include.Devices ≠ [] → cfg.Exclude.Devices ≠ [] →
      CreateFilterSet cfg.Include.Devices cfg.Include.Config w = (Except.ok fs1, w1) →
      CreateFilterSet cfg.Exclude.Devices cfg.Exclude.Config w1 = (Except.ok fs2, w2) →
      diskscraper.newDiskScraper CreateFilterSet backend boot cfg w
        = (Except.ok { config := cfg, startTime := 0, includeFS := some fs1,
                       excludeFS := some fs2, perfCounterScraper := backend,
                       bootTime := boot }, w2)) ∧
    (∀ fs1 w1 e w2, cfg.Include.Devices ≠ [] → cfg.Exclude.Devices ≠ [] →
      CreateFilterSet cfg.Include.Devices cfg.Include.Config w = (Except.ok fs1, w1) →
      CreateFilterSet cfg.Exclude.Devices cfg.Exclude.Config w1 = (Except.error e, w2) →
      diskscraper.newDiskScraper CreateFilterSet backend boot cfg w
        = (Except.error { message := "error creating device exclude filters", cause := e },
           w2)) := by
  have hlen : ∀ l : List String, (l.length > 0) ↔ l ≠ [] := fun l => List.length_pos
  unfold diskscraper.newDiskScraper
  by_cases hi : cfg.Include.Devices = [] <;> by_cases he : cfg.Exclude.Devices = []
  · simp [hi, he]
  · rcases hc : CreateFilterSet cfg.Exclude.Devices cfg.Exclude.Config w with ⟨r | r, w1⟩ <;>
      simp [hi, he, hc, hlen]
  · rcases hc : CreateFilterSet cfg.Include.Devices cfg.Include.Config w with ⟨r | r, w1⟩ <;>
      simp [hi, he, hc, hlen]
  · rcases hc : CreateFilterSet cfg.Include.Devices cfg.Include.Config w with ⟨r | r, w1⟩
    · simp [hi, he, hc, hlen]
    · rcases hc2 : CreateFilterSet cfg.Exclude.Devices cfg.Exclude.Config w1
        with ⟨r2 | r2, w2⟩
      · simp [hi, he, hc, hc2, hlen]
        constructor <;>
        · intro fs1 w1' x w2' h1 h2
          subst h1 h2
          simp [hc2]
      · simp [hi, he, hc, hc2, hlen]
        constructor <;>
        · intro fs1 w1' x w2' h1 h2
          subst h1 h2
          simp [hc2]

/-- C18 at sample configurations, with a compiler that logs its calls and rejects the
pattern "(": a failing include list (the exclude list is not compiled), two empty lists
(the compiler is not called), and a failing exclude list after a compiled include list. -/
theorem C18_new_disk_scraper_witness :
    diskscraper.newDiskScraper Samples.loggedCompiler (Samples.loggedBackend none [])
        (fun w => (Except.ok 5, w)) (Samples.diskConfig ["("] ["sdb"]) []
      = (Except.error { message := "error creating device include filters",
                        cause := "invalid pattern" }, ["CreateFilterSet"]) ∧
    diskscraper.newDiskScraper Samples.loggedCompiler (Samples.loggedBackend none [])
        (fun w => (Except.ok 5, w)) (Samples.diskConfig [] []) []
      = (Except.ok { config := Samples.diskConfig [] [], startTime := 0, includeFS := none,
                     excludeFS := none, perfCounterScraper := Samples.loggedBackend none [],
                     bootTime := fun w => (Except.ok 5, w) }, []) ∧
    diskscraper.newDiskScraper Samples.loggedCompiler (Samples.loggedBackend none [])
        (fun w => (Except.ok 5, w)) (Samples.diskConfig ["sda"] ["("]) []
      = (Except.error { message := "error creating device exclude filters",
                        cause := "invalid pattern" },
         ["CreateFilterSet", "CreateFilterSet"]) :=
  ⟨(C18_new_disk_scraper Samples.loggedCompiler (Samples.loggedBackend none [])
      (fun w => (Except.ok 5, w)) (Samples.diskConfig ["("] ["sdb"]) []).2.1
      "invalid pattern" ["CreateFilterSet"] (by decide) rfl,
   (C18_new_disk_scraper Samples.loggedCompiler (Samples.loggedBackend none [])
      (fun w => (Except.ok 5, w)) (Samples.diskConfig [] []) []).2.2.1 rfl rfl,
   (C18_new_disk_scraper Samples.loggedCompiler (Samples.loggedBackend none [])
      (fun w => (Except.ok 5, w)) (Samples.diskConfig ["sda"] ["("]) []).2.2.2.2.2.2.2
      (strictFilterSet ["sda"]) ["CreateFilterSet"] "invalid pattern"
      ["CreateFilterSet", "CreateFilterSet"] (by decide) (by decide) rfl rfl⟩

/-! ## Device filtering -/

/-- What `keepInstance` computes when the aggregate is not to be dropped. -/
theorem keepInstance_iff (includeFS excludeFS : Option FilterSet) (name : String) :
    perfcounters.keepInstance includeFS excludeFS false name = true ↔
      (includeFS = none ∨ ∃ fs, includeFS = some fs ∧ fs.Matches name = true) ∧
      ¬ (∃ fs, excludeFS = some fs ∧ fs.Matches name = true) := by
  cases includeFS <;> cases excludeFS <;> simp [perfcounters.keepInstance]

/-- The entries `GetValues` returns are those of the instances, in order. -/
theorem getValues_names (obj : perfcounters.perfDataObject) (names : List String)
    (vals : List perfcounters.CounterValues) (h : obj.GetValues names = Except.ok vals) :
    vals.map (fun c => c.InstanceName) = obj.instances.map (fun c => c.InstanceName) := by
  unfold perfcounters.perfDataObject.GetValues at h
  split at h
  · injection h with h
    subst h
    simp [Function.comp_def]
  · exact absurd h (by simp)

/-- The disk scrape over the snapshot backend, when `GetValues` succeeds on the filtered
result set. -/
theorem disk_scrape_snapshot {γ F : Type} (fl : Float64Ops F)
    (asInt : diskscraper.IntPointInit F) (asDouble : diskscraper.DoublePointInit F)
    (timeNow : perfcounters.perfDataObject → Timestamp × perfcounters.perfDataObject)
    (s : diskscraper.scraper γ String perfcounters.perfDataObject)
    (snapshot w : perfcounters.perfDataObject) (vals : List perfcounters.CounterValues)
    (hb : s.perfCounterScraper = perfcounters.snapshotBackend "LogicalDisk" snapshot)
    (hv : (snapshot.Filter s.includeFS s.excludeFS false).GetValues
        ["Disk Reads/sec", "Disk Writes/sec", "Disk Read Bytes/sec", "Disk Write Bytes/sec",
          "% Idle Time", "Avg. Disk sec/Read", "Avg. Disk sec/Write",
          "Current Disk Queue Length"] = Except.ok vals) :
    (diskscraper.scraper.scrape fl asInt asDouble timeNow s w).ret
      = (Metrics.withMetrics
          (if vals.length > 0 then
            [diskscraper.initializeDiskIOMetric asInt Metric.fresh s.startTime (timeNow w).1
                vals,
              diskscraper.initializeDiskOperationsMetric asInt Metric.fresh s.startTime
                (timeNow w).1 vals,
              diskscraper.initializeDiskIOTimeMetric fl asDouble Metric.fresh s.startTime
                (timeNow w).1 vals,
              diskscraper.initializeDiskOperationTimeMetric fl asDouble Metric.fresh
                s.startTime (timeNow w).1 vals,
              diskscraper.initializeDiskPendingOperationsMetric Metric.fresh (timeNow w).1
                vals]
          else []), none) := by
  unfold diskscraper.scraper.scrape
  rcases hn : timeNow w with ⟨now, w1⟩
  simp only [hb, perfcounters.snapshotBackend, diskscraper.logicalDisk, beq_self_eq_true,
    if_true, perfcounters.perfDataObject.handle, diskscraper.readsPerSec,
    diskscraper.writesPerSec, diskscraper.readBytesPerSec, diskscraper.writeBytesPerSec,
    diskscraper.idleTime, diskscraper.avgDiskSecsPerRead, diskscraper.avgDiskSecsPerWrite,
    diskscraper.queueLength, hv]

/-- C19: device filtering of the disk scrape, with `Filter` and `GetValues` as the
specification describes them.  `Filter(include, exclude, false)` keeps an instance exactly
when (include is unset, i.e. empty, or the instance name matches include) and not (exclude
is set and the instance name matches exclude); `GetValues` then returns one entry per kept
instance, and the scrape builds its metrics from those entries.  For the scraper built from
the include list ["sda"] and the exclude list ["sdb"], over the instances sda, sdb and sdc,
exactly sda is kept and every data point of the scrape is one of device sda. -/
theorem C19_device_filtering :
    (∀ (obj : perfcounters.perfDataObject) (includeFS excludeFS : Option FilterSet)
        (c : perfcounters.CounterValues),
      c ∈ (obj.Filter includeFS excludeFS false).instances ↔
        c ∈ obj.instances ∧
        (includeFS = none ∨ ∃ fs, includeFS = some fs ∧ fs.Matches c.InstanceName = true) ∧
        ¬ (∃ fs, excludeFS = some fs ∧ fs.Matches c.InstanceName = true)) ∧
    (∀ (γ F : Type) (fl : Float64Ops F) (asInt : diskscraper.IntPointInit F)
        (asDouble : diskscraper.DoublePointInit F)
        (timeNow : perfcounters.perfDataObject → Timestamp × perfcounters.perfDataObject)
        (s : diskscraper.scraper γ String perfcounters.perfDataObject)
        (snapshot w : perfcounters.perfDataObject) (vals : List perfcounters.CounterValues),
      s.perfCounterScraper = perfcounters.snapshotBackend "LogicalDisk" snapshot →
      (snapshot.Filter s.includeFS s.excludeFS false).GetValues
        ["Disk Reads/sec", "Disk Writes/sec", "Disk Read Bytes/sec", "Disk Write Bytes/sec",
          "% Idle Time", "Avg. Disk sec/Read", "Avg. Disk sec/Write",
          "Current Disk Queue Length"] = Except.ok vals →
      vals.map (fun c => c.InstanceName)
        = (snapshot.instances.filter (fun c =>
            perfcounters.keepInstance s.includeFS s.excludeFS false c.InstanceName)).map
            (fun c => c.InstanceName) ∧
      (diskscraper.scraper.scrape fl asInt asDouble timeNow s w).ret
        = (Metrics.withMetrics
            (if vals.length > 0 then
              [diskscraper.initializeDiskIOMetric asInt Metric.fresh s.startTime (timeNow w).1
                  vals,
                diskscraper.initializeDiskOperationsMetric asInt Metric.fresh s.startTime
                  (timeNow w).1 vals,
                diskscraper.initializeDiskIOTimeMetric fl asDouble Metric.fresh s.startTime
                  (timeNow w).1 vals,
                diskscraper.initializeDiskOperationTimeMetric fl asDouble Metric.fresh
                  s.startTime (timeNow w).1 vals,
                diskscraper.initializeDiskPendingOperationsMetric Metric.fresh (timeNow w).1
                  vals]
            else []), none)) ∧
    diskscraper.newDiskScraper CreateStrictFilterSet
        (perfcounters.snapshotBackend "LogicalDisk" Samples.threeDisks)
        (fun w => (Except.ok 5, w)) (Samples.diskConfig ["sda"] ["sdb"]) Samples.noCounters
      = (Except.ok Samples.filteredDisk, Samples.noCounters) ∧
    (Samples.threeDisks.Filter Samples.filteredDisk.includeFS Samples.filteredDisk.excludeFS
        false).instances.map (fun c => c.InstanceName) = ["sda"] ∧
    (diskscraper.scraper.scrape Float64.ieee diskscraper.initializeNumberDataPointAsInt
        diskscraper.initializeNumberDataPointAsDouble Samples.snapshotClock
        Samples.filteredDisk Samples.noCounters).ret.1.devices
      = List.replicate 8 (some "sda") ∧
    (diskscraper.scraper.scrape Float64.ieee diskscraper.initializeNumberDataPointAsInt
        diskscraper.initializeNumberDataPointAsDouble Samples.snapshotClock
        Samples.filteredDisk Samples.noCounters).ret.2 = none := by
  refine ⟨?_, ?_, rfl, by decide, rfl, rfl⟩
  · intro obj includeFS excludeFS c
    simp only [perfcounters.perfDataObject.Filter, List.mem_filter, keepInstance_iff]
  · intro γ F fl asInt asDouble timeNow s snapshot w vals hb hv
    refine ⟨?_, disk_scrape_snapshot fl asInt asDouble timeNow s snapshot w vals hb hv⟩
    rw [getValues_names _ _ _ hv]
    rfl

/-- C19 at the sample scraper with include ["sda"] and exclude ["sdb"]: sda is kept, sdb
and sdc are not, and the scrape builds its five metrics from the entry of sda alone. -/
theorem C19_device_filtering_witness :
    Samples.diskCounters "sda"
        ∈ (Samples.threeDisks.Filter (some (strictFilterSet ["sda"]))
            (some (strictFilterSet ["sdb"])) false).instances ∧
    Samples.diskCounters "sdc"
        ∉ (Samples.threeDisks.Filter (some (strictFilterSet ["sda"]))
            (some (strictFilterSet ["sdb"])) false).instances ∧
    (diskscraper.scraper.scrape Float64.ieee diskscraper.initializeNumberDataPointAsInt
        diskscraper.initializeNumberDataPointAsDouble Samples.snapshotClock
        Samples.filteredDisk Samples.noCounters).ret.1
      = Metrics.withMetrics
          [diskscraper.initializeDiskIOMetric diskscraper.initializeNumberDataPointAsInt
              Metric.fresh 0 20000000000 [Samples.diskCounters "sda"],
            diskscraper.initializeDiskOperationsMetric
              diskscraper.initializeNumberDataPointAsInt Metric.fresh 0 20000000000
              [Samples.diskCounters "sda"],
            diskscraper.initializeDiskIOTimeMetric Float64.ieee
              diskscraper.initializeNumberDataPointAsDouble Metric.fresh 0 20000000000
              [Samples.diskCounters "sda"],
            diskscraper.initializeDiskOperationTimeMetric Float64.ieee
              diskscraper.initializeNumberDataPointAsDouble Metric.fresh 0 20000000000
              [Samples.diskCounters "sda"],
            diskscraper.initializeDiskPendingOperationsMetric Metric.fresh 20000000000
              [Samples.diskCounters "sda"]] :=
  ⟨(C19_device_filtering.1 Samples.threeDisks (some (strictFilterSet ["sda"]))
      (some (strictFilterSet ["sdb"])) (Samples.diskCounters "sda")).mpr
      ⟨by decide, Or.inr ⟨_, rfl, by decide⟩,
        fun ⟨fs, hfs, hm⟩ => by
          cases hfs
          exact absurd hm (by decide)⟩,
   fun h =>
    ((C19_device_filtering.1 Samples.threeDisks (some (strictFilterSet ["sda"]))
      (some (strictFilterSet ["sdb"])) (Samples.diskCounters "sdc")).mp h).2.1.elim
      (fun hn => by cases hn)
      (fun ⟨fs, hfs, hm⟩ => by
        cases hfs
        exact absurd hm (by decide)),
   congrArg Prod.fst
    ((C19_device_filtering.2.1 Unit ℚ Float64.ieee diskscraper.initializeNumberDataPointAsInt
      diskscraper.initializeNumberDataPointAsDouble Samples.snapshotClock
      Samples.filteredDisk Samples.threeDisks Samples.noCounters
      [Samples.diskCounters "sda"] rfl rfl).2)⟩

/-! ## The weighted I/O time of the Linux disk scraper -/

/-- The points of `initializeDiskWeightedIOTimeMetric`, for every arithmetic `fl` and every
helper `asDouble`. -/
theorem diskWeightedIOTime_dataPoints {F : Type} (fl : Float64Ops F)
    (asDouble : diskscraper.DoublePointInit F) (startTime now : Timestamp)
    (ioCounters : List (String × IOCountersStat)) :
    (diskscraper.initializeDiskWeightedIOTimeMetric fl asDouble Metric.fresh startTime now
        ioCounters).dataPoints
      = ioCounters.map (fun entry =>
          asDouble NumberDataPoint.fresh startTime now entry.1 ""
            (fl.div (fl.ofUInt64 (IOCountersStat.WeightedIO entry.2)) (fl.const (10 ^ 3)))) := by
  simp only [diskscraper.initializeDiskWeightedIOTimeMetric, MetricDefinition.Init,
    Metric.fresh]
  rw [foldl_append_single]
  rfl

/-- The constant `1e3` is a `float64` value. -/
theorem ieee_const_thousand : Float64.ieee.const (10 ^ 3) = 10 ^ 3 := by
  have h := Float64.nearest_natCast (10 ^ 3) (by norm_num)
  push_cast at h
  exact h

/-- C20 (amended): the Linux `initializeDiskWeightedIOTimeMetric` on a fresh metric, for every map of
`n` devices to I/O counters, given as its entries in the order the loop visits them, every
`float64` arithmetic and every data-point helper: the metric receives exactly `n` points,
one per device, built with the device name, no direction, the given `startTime` and `now`,
and the value `float64(WeightedIO)/1e3`; with the helper
`initializeNumberDataPointAsDouble` that is the point's value.  In round-to-nearest
arithmetic the divisor `1e3` is exactly `10^3`, so the counter is scaled by exactly
`10^-3`: for `WeightedIO ≤ 2^53` the value is the `float64` nearest to `WeightedIO / 1000`,
and it is `WeightedIO / 1000` itself when `WeightedIO` is `1000 k` with `k ≤ 2^53`. -/
theorem C20_disk_weighted_io_time {F : Type} (fl : Float64Ops F)
    (asDouble : diskscraper.DoublePointInit F) (startTime now : Timestamp)
    (ioCounters : List (String × IOCountersStat)) :
    (diskscraper.initializeDiskWeightedIOTimeMetric fl asDouble Metric.fresh startTime now
        ioCounters).dataPoints.length = ioCounters.length ∧
    (∀ i : Nat,
      (diskscraper.initializeDiskWeightedIOTimeMetric fl asDouble Metric.fresh startTime now
          ioCounters).dataPoints[i]?
        = (ioCounters[i]?).map (fun entry =>
            asDouble NumberDataPoint.fresh startTime now entry.1 ""
              (fl.div (fl.ofUInt64 (IOCountersStat.WeightedIO entry.2)) (fl.const (10 ^ 3))))) ∧
    (diskscraper.initializeDiskWeightedIOTimeMetric fl
        diskscraper.initializeNumberDataPointAsDouble Metric.fresh startTime now
        ioCounters).dataPoints
      = ioCounters.map (fun entry =>
          { attributes := [("device", entry.1)], startTimestamp := startTime,
            timestamp := now,
            value := NumberValue.doubleVal
              (fl.div (fl.ofUInt64 (IOCountersStat.WeightedIO entry.2)) (fl.const (10 ^ 3))) }) ∧
    Float64.ieee.const (10 ^ 3) = 10 ^ 3 ∧
    (∀ x : Nat,
      Float64.ieee.div (Float64.ieee.ofUInt64 x) (Float64.ieee.const (10 ^ 3))
        = Float64.nearest (Float64.nearest (x : ℚ) / 10 ^ 3)) ∧
    (∀ x : Nat, x ≤ 2 ^ 53 →
      Float64.ieee.div (Float64.ieee.ofUInt64 x) (Float64.ieee.const (10 ^ 3))
        = Float64.nearest ((x : ℚ) / 10 ^ 3)) ∧
    (∀ k : Nat, 1000 * k ≤ 2 ^ 53 →
      Float64.ieee.div (Float64.ieee.ofUInt64 (1000 * k)) (Float64.ieee.const (10 ^ 3))
        = (k : ℚ)) := by
  have hdiv : ∀ x : Nat,
      Float64.ieee.div (Float64.ieee.ofUInt64 x) (Float64.ieee.const (10 ^ 3))
        = Float64.nearest (Float64.nearest (x : ℚ) / 10 ^ 3) := by
    intro x
    rw [ieee_const_thousand]
    rfl
  have hsmall : ∀ x : Nat, x ≤ 2 ^ 53 →
      Float64.ieee.div (Float64.ieee.ofUInt64 x) (Float64.ieee.const (10 ^ 3))
        = Float64.nearest ((x : ℚ) / 10 ^ 3) := by
    intro x hx
    rw [hdiv, Float64.nearest_natCast x hx]
  refine ⟨?_, ?_, ?_, ieee_const_thousand, hdiv, hsmall, ?_⟩
  · rw [diskWeightedIOTime_dataPoints, List.length_map]
  · intro i
    rw [diskWeightedIOTime_dataPoints, List.getElem?_map]
  · rw [diskWeightedIOTime_dataPoints]
    simp only [asDouble_fresh_no_direction]
  · intro k hk
    rw [hsmall _ hk]
    have hq : (((1000 * k : ℕ) : ℚ)) / 10 ^ 3 = (k : ℚ) := by
      push_cast
      field_simp
      ring
    rw [hq]
    exact Float64.nearest_natCast k (by omega)

/-- The `float64` nearest to `1 / 1000`. -/
theorem nearest_thousandth :
    Float64.nearest ((1 : ℚ) / 10 ^ 3) = 4611686018427388 / 2 ^ 62 := by
  rw [Float64.nearest_eval (e := -10) (m := 4611686018427388) (by norm_num [abs_of_pos])
    (by norm_num [abs_of_pos]) (by norm_num)
    (Float64.rhe_of_gt_half (z := 4611686018427387) (by norm_num) (by norm_num))]
  norm_num

/-- C20, as stated, fails at a device with 1 ms of weighted I/O time: the value of its point
is `float64(1) / 1e3`, the `float64` nearest to `1 / 1000`, which is
`4611686018427388 / 2^62` and not `1 / 1000`. -/
theorem C20_counterexample :
    (diskscraper.initializeDiskWeightedIOTimeMetric Float64.ieee
        diskscraper.initializeNumberDataPointAsDouble Metric.fresh 5 9
        [("sda", Samples.ioCounters "sda" 1)]).dataPoints
      = [{ attributes := [("device", "sda")], startTimestamp := 5, timestamp := 9,
           value := NumberValue.doubleVal (4611686018427388 / 2 ^ 62) }] ∧
    (4611686018427388 / 2 ^ 62 : ℚ) ≠ ((1 : Nat) : ℚ) / 1000 := by
  have hv : Float64.ieee.div (Float64.ieee.ofUInt64 1) (Float64.ieee.const (10 ^ 3))
      = 4611686018427388 / 2 ^ 62 := by
    rw [ieee_const_thousand]
    show Float64.nearest (Float64.nearest ((1 : Nat) : ℚ) / 10 ^ 3) = _
    rw [Float64.nearest_natCast 1 (by norm_num)]
    have h := nearest_thousandth
    simpa using h
  constructor
  · rw [diskWeightedIOTime_dataPoints]
    simp only [List.map_cons, List.map_nil, asDouble_fresh_no_direction]
    have hio : IOCountersStat.WeightedIO (Samples.ioCounters "sda" 1) = 1 := rfl
    rw [hio, hv]
  · norm_num

/-- C20 for a device with 7000 ms of weighted I/O time: the value is 7 s. -/
theorem C20_disk_weighted_io_time_witness :
    (diskscraper.initializeDiskWeightedIOTimeMetric Float64.ieee
        diskscraper.initializeNumberDataPointAsDouble Metric.fresh 5 9
        [("sda", Samples.ioCounters "sda" 7000)]).dataPoints
      = [{ attributes := [("device", "sda")], startTimestamp := 5, timestamp := 9,
           value := NumberValue.doubleVal
             (Float64.ieee.div (Float64.ieee.ofUInt64 7000) (Float64.ieee.const (10 ^ 3))) }] ∧
    Float64.ieee.div (Float64.ieee.ofUInt64 (1000 * 7)) (Float64.ieee.const (10 ^ 3))
      = ((7 : ℕ) : ℚ) :=
  ⟨(C20_disk_weighted_io_time Float64.ieee diskscraper.initializeNumberDataPointAsDouble 5 9
      [("sda", Samples.ioCounters "sda" 7000)]).2.2.1,
   (C20_disk_weighted_io_time Float64.ieee diskscraper.initializeNumberDataPointAsDouble 5 9
      [("sda", Samples.ioCounters "sda" 7000)]).2.2.2.2.2.2 7 (by norm_num)⟩

/-! ## The scrape leaves the scraper alone -/

/-- The second step of the paging scrape leaves the receiver as it was. -/
theorem paging_operations_self {κ ε ω F : Type} (timeNow : ω → Timestamp × ω)
    (s : pagingscraper.scraper κ ε ω) (ms : List (Metric F)) (w : ω) :
    (s.scrapeAndAppendPagingOperationsMetric timeNow ms w).self = s := by
  unfold pagingscraper.scraper.scrapeAndAppendPagingOperationsMetric
  rcases timeNow w with ⟨now, w1⟩
  simp only
  rcases s.perfCounterScraper.Scrape w1 with ⟨r | counters, w2⟩
  · rfl
  · simp only
    rcases counters.GetObject pagingscraper.memory w2 with ⟨r | memoryObject, w3⟩
    · rfl
    · simp only
      rcases memoryObject.GetValues
        [pagingscraper.pageReadsPerSec, pagingscraper.pageWritesPerSec] w3 with ⟨r | vals, w4⟩
      · rfl
      · cases vals <;> rfl

/-- The CPU scrape leaves the receiver as it was. -/
theorem cpu_scrape_self {κ ε ω F : Type}
    (append : List (NumberDataPoint F) → Timestamp → Timestamp → TimesStat F →
      List (NumberDataPoint F))
    (timeNow : ω → Timestamp × ω) (s : cpuscraper.scraper κ ε ω F) (w : ω) :
    (cpuscraper.scraper.scrape append timeNow s w).self = s := by
  unfold cpuscraper.scraper.scrape
  rcases timeNow w with ⟨now, w1⟩
  simp only
  rcases s.times true w1 with ⟨r | r, w2⟩ <;> rfl

/-- The disk scrape leaves the receiver as it was. -/
theorem disk_scrape_self {γ ε ω F : Type} (fl : Float64Ops F)
    (asInt : diskscraper.IntPointInit F) (asDouble : diskscraper.DoublePointInit F)
    (timeNow : ω → Timestamp × ω) (s : diskscraper.scraper γ ε ω) (w : ω) :
    (diskscraper.scraper.scrape fl asInt asDouble timeNow s w).self = s := by
  unfold diskscraper.scraper.scrape
  rcases timeNow w with ⟨now, w1⟩
  simp only
  rcases s.perfCounterScraper.Scrape w1 with ⟨r | counters, w2⟩
  · rfl
  · simp only
    rcases counters.GetObject diskscraper.logicalDisk w2 with ⟨r | obj, w3⟩
    · rfl
    · simp only
      rcases obj.GetValues _ (obj.Filter s.includeFS s.excludeFS false w3) with ⟨r | vals, w5⟩ <;>
        rfl

/-- The paging scrape leaves the receiver as it was. -/
theorem paging_scrape_self {κ ε ω F : Type} (timeNow : ω → Timestamp × ω)
    (s : pagingscraper.scraper κ ε ω) (w : ω) :
    (pagingscraper.scraper.scrape (F := F) timeNow s w).self = s := by
  simp only [pagingscraper.scraper.scrape, paging_operations_self, paging_usage_self]

/-- C21: the scrape of the CPU, disk and paging scrapers, for every scraper state, every
environment and so every outcome of the counter reads: the scraper after the scrape is the
scraper before it, so its fields (start time, configuration, filter sets) are unchanged
whether the scrape returns `nil`, a partial error or nothing at all; hence a later scrape,
in whatever environment it runs, gives what it would have given had the earlier scrape not
taken place with that outcome. -/
theorem C21_scrape_frame :
    (∀ (κ ε ω F : Type)
        (append : List (NumberDataPoint F) → Timestamp → Timestamp → TimesStat F →
          List (NumberDataPoint F))
        (timeNow : ω → Timestamp × ω) (s : cpuscraper.scraper κ ε ω F) (w : ω),
      (cpuscraper.scraper.scrape append timeNow s w).self = s ∧
      (cpuscraper.scraper.scrape append timeNow s w).self.startTime = s.startTime ∧
      (cpuscraper.scraper.scrape append timeNow s w).self.config = s.config ∧
      ∀ w2 : ω,
        cpuscraper.scraper.scrape append timeNow
            (cpuscraper.scraper.scrape append timeNow s w).self w2
          = cpuscraper.scraper.scrape append timeNow s w2) ∧
    (∀ (γ ε ω F : Type) (fl : Float64Ops F) (asInt : diskscraper.IntPointInit F)
        (asDouble : diskscraper.DoublePointInit F) (timeNow : ω → Timestamp × ω)
        (s : diskscraper.scraper γ ε ω) (w : ω),
      (diskscraper.scraper.scrape fl asInt asDouble timeNow s w).self = s ∧
      (diskscraper.scraper.scrape fl asInt asDouble timeNow s w).self.startTime
        = s.startTime ∧
      (diskscraper.scraper.scrape fl asInt asDouble timeNow s w).self.config = s.config ∧
      (diskscraper.scraper.scrape fl asInt asDouble timeNow s w).self.includeFS
        = s.includeFS ∧
      (diskscraper.scraper.scrape fl asInt asDouble timeNow s w).self.excludeFS
        = s.excludeFS ∧
      ∀ w2 : ω,
        diskscraper.scraper.scrape fl asInt asDouble timeNow
            (diskscraper.scraper.scrape fl asInt asDouble timeNow s w).self w2
          = diskscraper.scraper.scrape fl asInt asDouble timeNow s w2) ∧
    (∀ (κ ε ω F : Type) (timeNow : ω → Timestamp × ω) (s : pagingscraper.scraper κ ε ω)
        (w : ω),
      (pagingscraper.scraper.scrape (F := F) timeNow s w).self = s ∧
      (pagingscraper.scraper.scrape (F := F) timeNow s w).self.startTime = s.startTime ∧
      (pagingscraper.scraper.scrape (F := F) timeNow s w).self.config = s.config ∧
      ∀ w2 : ω,
        pagingscraper.scraper.scrape (F := F) timeNow
            (pagingscraper.scraper.scrape (F := F) timeNow s w).self w2
          = pagingscraper.scraper.scrape (F := F) timeNow s w2) := by
  refine ⟨?_, ?_, ?_⟩
  · intro κ ε ω F append timeNow s w
    rw [cpu_scrape_self]
    exact ⟨rfl, rfl, rfl, fun _ => rfl⟩
  · intro γ ε ω F fl asInt asDouble timeNow s w
    rw [disk_scrape_self]
    exact ⟨rfl, rfl, rfl, rfl, rfl, fun _ => rfl⟩
  · intro κ ε ω F timeNow s w
    rw [paging_scrape_self]
    exact ⟨rfl, rfl, rfl, fun _ => rfl⟩

/-! ## A disk scrape whose reads all succeed -/

/-- The points of `initializeDiskIOMetric`, for every helper `asInt`. -/
theorem diskIO_dataPoints {F : Type} (asInt : diskscraper.IntPointInit F)
    (startTime now : Timestamp) (vals : List perfcounters.CounterValues) :
    (diskscraper.initializeDiskIOMetric asInt Metric.fresh startTime now vals).dataPoints
      = vals.flatMap (fun c =>
          [asInt NumberDataPoint.fresh startTime now c.InstanceName "read"
              (c.value "Disk Read Bytes/sec"),
            asInt NumberDataPoint.fresh startTime now c.InstanceName "write"
              (c.value "Disk Write Bytes/sec")]) := by
  simp only [diskscraper.initializeDiskIOMetric, MetricDefinition.Init, Metric.fresh]
  rw [foldl_append_pair]
  rfl

/-- The points of `initializeDiskPendingOperationsMetric`. -/
theorem diskPending_dataPoints {F : Type} (now : Timestamp)
    (vals : List perfcounters.CounterValues) :
    (diskscraper.initializeDiskPendingOperationsMetric (F := F) Metric.fresh now
        vals).dataPoints
      = vals.map (fun c =>
          { attributes := [("device", c.InstanceName)], startTimestamp := 0, timestamp := now,
            value := NumberValue.intVal (c.value "Current Disk Queue Length") }) := by
  simp only [diskscraper.initializeDiskPendingOperationsMetric, MetricDefinition.Init,
    Metric.fresh]
  rw [foldl_append_single]
  simp only [diskPending_fresh, diskscraper.queueLength, List.nil_append]

/-- The timestamps of the point `initializeNumberDataPointAsInt` makes of a fresh point. -/
theorem asInt_timestamps {F : Type} (startTime now : Timestamp) (device direction : String)
    (value : Int) :
    (diskscraper.initializeNumberDataPointAsInt (F := F) NumberDataPoint.fresh startTime now
        device direction value).startTimestamp = startTime ∧
    (diskscraper.initializeNumberDataPointAsInt (F := F) NumberDataPoint.fresh startTime now
        device direction value).timestamp = now :=
  ⟨rfl, rfl⟩

/-- The timestamps of the point `initializeNumberDataPointAsDouble` makes of a fresh
point. -/
theorem asDouble_timestamps {F : Type} (startTime now : Timestamp)
    (device direction : String) (value : F) :
    (diskscraper.initializeNumberDataPointAsDouble NumberDataPoint.fresh startTime now
        device direction value).startTimestamp = startTime ∧
    (diskscraper.initializeNumberDataPointAsDouble NumberDataPoint.fresh startTime now
        device direction value).timestamp = now :=
  ⟨rfl, rfl⟩

/-- A property of both points of every pair holds for every point of the concatenation. -/
theorem forall_mem_flatMap_pair {α β : Type} (f g : α → β) (l : List α) (P : β → Prop)
    (hf : ∀ a, P (f a)) (hg : ∀ a, P (g a)) :
    ∀ b ∈ l.flatMap (fun a => [f a, g a]), P b := by
  intro b hb
  rw [List.mem_flatMap] at hb
  obtain ⟨a, _, hb⟩ := hb
  simp only [List.mem_cons, List.mem_singleton, List.not_mem_nil, or_false] at hb
  rcases hb with h | h <;> subst h
  · exact hf a
  · exact hg a

/-- C26: the Windows disk scrape when every read succeeds, `GetValues` returning `vals`.
The error is `nil`.  If `vals` is empty the batch holds no metric; otherwise it holds
exactly `metricsLen = 5` metrics, in the order disk I/O, disk operations, disk I/O time,
disk operation time, disk pending operations, all built from the scraper's `startTime`,
the one clock reading `now` of this scrape and `vals`.  With the data-point helpers
`initializeNumberDataPointAsInt` and `initializeNumberDataPointAsDouble`, every point of
the first four metrics carries that `startTime` and that `now`, and every point of the
pending-operations metric carries that `now` and no start timestamp. -/
theorem C26_disk_scrape_success {γ ε ω F : Type} (fl : Float64Ops F)
    (asInt : diskscraper.IntPointInit F) (asDouble : diskscraper.DoublePointInit F)
    (timeNow : ω → Timestamp × ω) (s : diskscraper.scraper γ ε ω) (w w1 w2 w3 w5 : ω)
    (now : Timestamp) (counters : perfcounters.PerfDataCollection ε ω)
    (logicalDiskObject : perfcounters.PerfDataObject ε ω)
    (vals : List perfcounters.CounterValues)
    (hnow : timeNow w = (now, w1))
    (hscrape : s.perfCounterScraper.Scrape w1 = (Except.ok counters, w2))
    (hobject : counters.GetObject "LogicalDisk" w2 = (Except.ok logicalDiskObject, w3))
    (hvalues : logicalDiskObject.GetValues
        ["Disk Reads/sec", "Disk Writes/sec", "Disk Read Bytes/sec", "Disk Write Bytes/sec",
          "% Idle Time", "Avg. Disk sec/Read", "Avg. Disk sec/Write",
          "Current Disk Queue Length"]
        (logicalDiskObject.Filter s.includeFS s.excludeFS false w3) = (Except.ok vals, w5)) :
    (diskscraper.scraper.scrape fl asInt asDouble timeNow s w).ret.2 = none ∧
    (vals = [] →
      (diskscraper.scraper.scrape fl asInt asDouble timeNow s w).ret.1
        = Metrics.withMetrics [] ∧
      (diskscraper.scraper.scrape fl asInt asDouble timeNow s w).ret.1.MetricCount = 0) ∧
    (vals ≠ [] →
      (diskscraper.scraper.scrape fl asInt asDouble timeNow s w).ret.1
        = Metrics.withMetrics
            [diskscraper.initializeDiskIOMetric asInt Metric.fresh s.startTime now vals,
              diskscraper.initializeDiskOperationsMetric asInt Metric.fresh s.startTime now
                vals,
              diskscraper.initializeDiskIOTimeMetric fl asDouble Metric.fresh s.startTime now
                vals,
              diskscraper.initializeDiskOperationTimeMetric fl asDouble Metric.fresh
                s.startTime now vals,
              diskscraper.initializeDiskPendingOperationsMetric Metric.fresh now vals] ∧
      (diskscraper.scraper.scrape fl asInt asDouble timeNow s w).ret.1.MetricCount
        = diskscraper.metricsLen ∧
      diskscraper.metricsLen = 5 ∧
      (diskscraper.scraper.scrape fl asInt asDouble timeNow s w).ret.1.allMetrics.map
          (fun m => m.definition)
        = [some MetricDefinition.SystemDiskIo, some MetricDefinition.SystemDiskOperations,
            some MetricDefinition.SystemDiskIoTime,
            some MetricDefinition.SystemDiskOperationTime,
            some MetricDefinition.SystemDiskPendingOperations]) ∧
    (∀ dp ∈ (diskscraper.initializeDiskIOMetric (F := F)
          diskscraper.initializeNumberDataPointAsInt Metric.fresh s.startTime now
          vals).dataPoints,
      dp.startTimestamp = s.startTime ∧ dp.timestamp = now) ∧
    (∀ dp ∈ (diskscraper.initializeDiskOperationsMetric (F := F)
          diskscraper.initializeNumberDataPointAsInt Metric.fresh s.startTime now
          vals).dataPoints,
      dp.startTimestamp = s.startTime ∧ dp.timestamp = now) ∧
    (∀ dp ∈ (diskscraper.initializeDiskIOTimeMetric fl
          diskscraper.initializeNumberDataPointAsDouble Metric.fresh s.startTime now
          vals).dataPoints,
      dp.startTimestamp = s.startTime ∧ dp.timestamp = now) ∧
    (∀ dp ∈ (diskscraper.initializeDiskOperationTimeMetric fl
          diskscraper.initializeNumberDataPointAsDouble Metric.fresh s.startTime now
          vals).dataPoints,
      dp.startTimestamp = s.startTime ∧ dp.timestamp = now) ∧
    (∀ dp ∈ (diskscraper.initializeDiskPendingOperationsMetric (F := F) Metric.fresh now
          vals).dataPoints,
      dp.startTimestamp = 0 ∧ dp.timestamp = now) := by
  have hret : (diskscraper.scraper.scrape fl asInt asDouble timeNow s w).ret
      = (Metrics.withMetrics
          (if vals.length > 0 then
            [diskscraper.initializeDiskIOMetric asInt Metric.fresh s.startTime now vals,
              diskscraper.initializeDiskOperationsMetric asInt Metric.fresh s.startTime now
                vals,
              diskscraper.initializeDiskIOTimeMetric fl asDouble Metric.fresh s.startTime now
                vals,
              diskscraper.initializeDiskOperationTimeMetric fl asDouble Metric.fresh
                s.startTime now vals,
              diskscraper.initializeDiskPendingOperationsMetric Metric.fresh now vals]
          else []), none) := by
    unfold diskscraper.scraper.scrape
    simp only [hnow, hscrape, diskscraper.logicalDisk, hobject, diskscraper.readsPerSec,
      diskscraper.writesPerSec, diskscraper.readBytesPerSec, diskscraper.writeBytesPerSec,
      diskscraper.idleTime, diskscraper.avgDiskSecsPerRead, diskscraper.avgDiskSecsPerWrite,
      diskscraper.queueLength, hvalues]
  refine ⟨by rw [hret], ?_, ?_, ?_, ?_, ?_, ?_, ?_⟩
  · intro hv
    subst hv
    rw [hret]
    exact ⟨rfl, rfl⟩
  · intro hv
    have hpos : vals.length > 0 := List.length_pos.mpr hv
    rw [hret, if_pos hpos]
    exact ⟨rfl, rfl, rfl, rfl⟩
  · rw [diskIO_dataPoints]
    exact forall_mem_flatMap_pair _ _ vals _ (fun _ => asInt_timestamps _ _ _ _ _)
      (fun _ => asInt_timestamps _ _ _ _ _)
  · rw [diskOperations_dataPoints]
    exact forall_mem_flatMap_pair _ _ vals _ (fun _ => asInt_timestamps _ _ _ _ _)
      (fun _ => asInt_timestamps _ _ _ _ _)
  · rw [diskIOTime_dataPoints]
    intro dp hdp
    rw [List.mem_map] at hdp
    obtain ⟨c, _, rfl⟩ := hdp
    exact asDouble_timestamps _ _ _ _ _
  · rw [diskOperationTime_dataPoints]
    exact forall_mem_flatMap_pair _ _ vals _ (fun _ => asDouble_timestamps _ _ _ _ _)
      (fun _ => asDouble_timestamps _ _ _ _ _)
  · rw [diskPending_dataPoints]
    intro dp hdp
    rw [List.mem_map] at hdp
    obtain ⟨c, _, rfl⟩ := hdp
    exact ⟨rfl, rfl⟩

/-- C26 at the sample scraper over the three disks, of which the filter keeps sda: the
batch holds five metrics and the error is `nil`. -/
theorem C26_disk_scrape_success_witness :
    (diskscraper.scraper.scrape Float64.ieee diskscraper.initializeNumberDataPointAsInt
        diskscraper.initializeNumberDataPointAsDouble Samples.snapshotClock
        Samples.filteredDisk Samples.noCounters).ret.2 = none ∧
    (diskscraper.scraper.scrape Float64.ieee diskscraper.initializeNumberDataPointAsInt
        diskscraper.initializeNumberDataPointAsDouble Samples.snapshotClock
        Samples.filteredDisk Samples.noCounters).ret.1.MetricCount = 5 :=
  let h := C26_disk_scrape_success Float64.ieee diskscraper.initializeNumberDataPointAsInt
    diskscraper.initializeNumberDataPointAsDouble Samples.snapshotClock Samples.filteredDisk
    Samples.noCounters Samples.noCounters Samples.threeDisks Samples.threeDisks
    (Samples.threeDisks.Filter (some (strictFilterSet ["sda"]))
      (some (strictFilterSet ["sdb"])) false)
    20000000000
    { GetObject := fun name obj =>
        if name == "LogicalDisk" then (Except.ok perfcounters.perfDataObject.handle, obj)
        else (Except.error "category not found", obj) }
    perfcounters.perfDataObject.handle [Samples.diskCounters "sda"] rfl rfl rfl rfl
  ⟨h.1, (h.2.2.1 (by decide)).2.1⟩

/-! ## Retries with backoff -/

/-- With the loop condition false the loop returns at once, whatever the bound. -/
theorem loop_done {ε ω : Type} (maxRetries : Int) (fn : ω → Option ε × ω)
    (sleep : Int → ω → ω) (fuel : Nat) (i wait : Int) (err : Option ε) (w : ω)
    (h : ¬ i < maxRetries) :
    utils.DoWithRetries.loop maxRetries fn sleep fuel i wait err w = ((i, err), w) := by
  cases fuel with
  | zero => rfl
  | succ fuel => simp [utils.DoWithRetries.loop, h]

/-- A larger bound than the remaining rounds does not change the result of the loop. -/
theorem loop_fuel {ε ω : Type} (maxRetries : Int) (fn : ω → Option ε × ω)
    (sleep : Int → ω → ω) (fuel extra : Nat) (i wait : Int) (err : Option ε) (w : ω)
    (h : (maxRetries - i).toNat ≤ fuel) :
    utils.DoWithRetries.loop maxRetries fn sleep (fuel + extra) i wait err w
      = utils.DoWithRetries.loop maxRetries fn sleep fuel i wait err w := by
  induction fuel generalizing i wait err w with
  | zero =>
    have hi : ¬ i < maxRetries := by omega
    rw [loop_done _ _ _ _ _ _ _ _ hi, loop_done _ _ _ _ _ _ _ _ hi]
  | succ fuel ih =>
    have e : fuel + 1 + extra = (fuel + extra) + 1 := by omega
    rw [e]
    unfold utils.DoWithRetries.loop
    by_cases hi : i < maxRetries
    · simp only [hi, if_true]
      rcases fn w with ⟨_ | e, w1⟩
      · rfl
      · exact ih _ _ _ _ (by omega)
    · simp only [hi, if_false]

/-- The loop when the action first succeeds `d` invocations after the current one. -/
theorem loop_success {ε ω : Type} (maxRetries : Int) (fn : ω → Option ε × ω)
    (sleep : Int → ω → ω) (w : ω) (d : Nat) :
    ∀ (fuel i : Nat) (err : Option ε), d < fuel → ((i + d : Nat) : Int) < maxRetries →
      (∀ j, i ≤ j → j < i + d → (fn (utils.attemptWorld fn sleep j w)).1 ≠ none) →
      (fn (utils.attemptWorld fn sleep (i + d) w)).1 = none →
      utils.DoWithRetries.loop maxRetries fn sleep fuel (i : Int) (utils.waitAfter i) err
          (utils.attemptWorld fn sleep i w)
        = ((((i + d : Nat) : Int), none), (fn (utils.attemptWorld fn sleep (i + d) w)).2) := by
  induction d with
  | zero =>
    intro fuel i err hfuel hi _ hok
    obtain ⟨fuel, rfl⟩ : ∃ f, fuel = f + 1 := ⟨fuel - 1, by omega⟩
    unfold utils.DoWithRetries.loop
    have hi2 : (i : Int) < maxRetries := by simpa using hi
    simp only [hi2, if_true]
    rcases hfn : fn (utils.attemptWorld fn sleep i w) with ⟨_ | e, w1⟩
    · simp [hfn]
    · simp [hfn] at hok
  | succ d ih =>
    intro fuel i err hfuel hi hfail hok
    obtain ⟨fuel, rfl⟩ : ∃ f, fuel = f + 1 := ⟨fuel - 1, by omega⟩
    unfold utils.DoWithRetries.loop
    have hi2 : (i : Int) < maxRetries := by
      have : ((i + (d + 1) : Nat) : Int) = (i : Int) + d + 1 := by push_cast; ring
      omega
    simp only [hi2, if_true]
    rcases hfn : fn (utils.attemptWorld fn sleep i w) with ⟨_ | e, w1⟩
    · exact absurd (by rw [hfn]) (hfail i (le_refl i) (by omega))
    · simp only
      have hw : sleep (utils.waitAfter i) w1 = utils.attemptWorld fn sleep (i + 1) w := by
        simp [utils.attemptWorld, hfn]
      have hidx : i + (d + 1) = (i + 1) + d := by omega
      have := ih fuel (i + 1) (some e) (by omega) (by rw [← hidx]; exact hi)
        (fun j h1 h2 => hfail j (by omega) (by omega)) (by rw [← hidx]; exact hok)
      rw [hw, hidx]
      have hcast : ((i : Int) + 1) = ((i + 1 : Nat) : Int) := by push_cast; ring
      rw [hcast]
      exact this

/-- The loop when every remaining invocation fails: `d + 1` rounds are left. -/
theorem loop_exhausted {ε ω : Type} (fn : ω → Option ε × ω) (sleep : Int → ω → ω) (w : ω)
    (d : Nat) :
    ∀ (fuel i : Nat) (err : Option ε), d < fuel →
      (∀ j, i ≤ j → j ≤ i + d → (fn (utils.attemptWorld fn sleep j w)).1 ≠ none) →
      utils.DoWithRetries.loop ((i + d + 1 : Nat) : Int) fn sleep fuel (i : Int)
          (utils.waitAfter i) err (utils.attemptWorld fn sleep i w)
        = ((((i + d + 1 : Nat) : Int), (fn (utils.attemptWorld fn sleep (i + d) w)).1),
            utils.attemptWorld fn sleep (i + d + 1) w) := by
  induction d with
  | zero =>
    intro fuel i err hfuel hfail
    obtain ⟨fuel, rfl⟩ : ∃ f, fuel = f + 1 := ⟨fuel - 1, by omega⟩
    unfold utils.DoWithRetries.loop
    have hi2 : (i : Int) < ((i + 0 + 1 : Nat) : Int) := by push_cast; omega
    simp only [hi2, if_true]
    rcases hfn : fn (utils.attemptWorld fn sleep i w) with ⟨_ | e, w1⟩
    · exact absurd (by rw [hfn]) (hfail i (le_refl i) (by omega))
    · simp only
      have hcast : ((i : Int) + 1) = ((i + 0 + 1 : Nat) : Int) := by push_cast; ring
      rw [hcast, loop_done _ _ _ _ _ _ _ _ (lt_irrefl _)]
      simp [utils.attemptWorld, hfn]
  | succ d ih =>
    intro fuel i err hfuel hfail
    obtain ⟨fuel, rfl⟩ : ∃ f, fuel = f + 1 := ⟨fuel - 1, by omega⟩
    unfold utils.DoWithRetries.loop
    have hi2 : (i : Int) < ((i + (d + 1) + 1 : Nat) : Int) := by push_cast; omega
    simp only [hi2, if_true]
    rcases hfn : fn (utils.attemptWorld fn sleep i w) with ⟨_ | e, w1⟩
    · exact absurd (by rw [hfn]) (hfail i (le_refl i) (by omega))
    · simp only
      have hw : sleep (utils.waitAfter i) w1 = utils.attemptWorld fn sleep (i + 1) w := by
        simp [utils.attemptWorld, hfn]
      have hidx : i + (d + 1) = (i + 1) + d := by omega
      have := ih fuel (i + 1) (some e) (by omega)
        (fun j h1 h2 => hfail j (by omega) (by omega))
      rw [hw, hidx]
      have hcast : ((i : Int) + 1) = ((i + 1 : Nat) : Int) := by push_cast; ring
      rw [hcast]
      exact this

/-- `DoWithRetries` with no retry allowed. -/
theorem doWithRetries_nonpos {ε ω : Type} (maxRetries : Int) (fn : ω → Option ε × ω)
    (sleep : Int → ω → ω) (w : ω) (h : maxRetries ≤ 0) :
    utils.DoWithRetries maxRetries fn sleep w = ((0, none), w) := by
  unfold utils.DoWithRetries
  exact loop_done _ _ _ _ _ _ _ _ (by omega)

/-- `DoWithRetries` when the invocation number `k` is the first to succeed. -/
theorem doWithRetries_success {ε ω : Type} (maxRetries : Int) (fn : ω → Option ε × ω)
    (sleep : Int → ω → ω) (w : ω) (k : Nat) (hk : (k : Int) < maxRetries)
    (hfail : ∀ j, j < k → (fn (utils.attemptWorld fn sleep j w)).1 ≠ none)
    (hok : (fn (utils.attemptWorld fn sleep k w)).1 = none) :
    utils.DoWithRetries maxRetries fn sleep w
      = (((k : Int), none), (fn (utils.attemptWorld fn sleep k w)).2) := by
  have h := loop_success maxRetries fn sleep w k maxRetries.toNat 0 none (by omega)
    (by simpa using hk) (fun j _ hj => hfail j (by omega)) (by simpa using hok)
  simp only [Nat.zero_add] at h
  exact h

/-- `DoWithRetries` when all `n + 1` invocations fail. -/
theorem doWithRetries_exhausted {ε ω : Type} (fn : ω → Option ε × ω) (sleep : Int → ω → ω)
    (w : ω) (n : Nat)
    (hfail : ∀ j, j ≤ n → (fn (utils.attemptWorld fn sleep j w)).1 ≠ none) :
    utils.DoWithRetries ((n + 1 : Nat) : Int) fn sleep w
      = ((((n + 1 : Nat) : Int), (fn (utils.attemptWorld fn sleep n w)).1),
          utils.attemptWorld fn sleep (n + 1) w) := by
  have h := loop_exhausted fn sleep w n (n + 1) 0 none (by omega)
    (fun j _ hj => hfail j (by omega))
  simp only [Nat.zero_add] at h
  unfold utils.DoWithRetries
  have e : (((n + 1 : Nat) : Int)).toNat = n + 1 := by omega
  rw [e]
  exact h

/-- The recorded run reaches its invocation number `k` with the events of `k` failures. -/
theorem attemptWorld_traced {ε ω : Type} (fn : ω → Option ε × ω) (sleep : Int → ω → ω)
    (w : ω) (events : List utils.Event) (k : Nat) :
    utils.attemptWorld (utils.traced fn) (utils.tracedSleep sleep) k (w, events)
      = (utils.attemptWorld fn sleep k w, events ++ utils.failureTrace k) := by
  induction k with
  | zero => simp [utils.attemptWorld, utils.failureTrace]
  | succ k ih =>
    simp [utils.attemptWorld, utils.failureTrace, ih, utils.traced, utils.tracedSleep]

/-- Among the events of `k` failures there are `k` invocations. -/
theorem invocations_failureTrace (k : Nat) : utils.invocations (utils.failureTrace k) = k := by
  induction k with
  | zero => rfl
  | succ k ih =>
    unfold utils.invocations at ih ⊢
    simp [utils.failureTrace, List.count_append, ih, List.count_cons]

/-- The waits of a concatenation of events. -/
theorem waits_append (a b : List utils.Event) :
    utils.waits (a ++ b) = utils.waits a ++ utils.waits b := by
  induction a with
  | nil => rfl
  | cons e a ih => cases e <;> simp [utils.waits, ih]

/-- The waits among the events of `k` failures are the first `k` values of `wait`. -/
theorem waits_failureTrace (k : Nat) :
    utils.waits (utils.failureTrace k) = (List.range k).map utils.waitAfter := by
  induction k with
  | zero => rfl
  | succ k ih =>
    simp [utils.failureTrace, waits_append, ih, utils.waits, List.range_succ]

/-- The recorded loop invokes the action at most once per round. -/
theorem loop_invocations {ε ω : Type} (maxRetries : Int) (fn : ω → Option ε × ω)
    (sleep : Int → ω → ω) (fuel : Nat) :
    ∀ (i wait : Int) (err : Option ε) (p : ω × List utils.Event),
      utils.invocations
          (utils.DoWithRetries.loop maxRetries (utils.traced fn) (utils.tracedSleep sleep)
            fuel i wait err p).2.2
        ≤ utils.invocations p.2 + fuel := by
  induction fuel with
  | zero =>
    intro i wait err p
    simp [utils.DoWithRetries.loop]
  | succ fuel ih =>
    intro i wait err p
    unfold utils.DoWithRetries.loop
    by_cases hi : i < maxRetries
    · simp only [hi, if_true]
      rcases hfn : fn p.1 with ⟨_ | e, w1⟩
      · simp [utils.traced, hfn, utils.invocations, List.count_append]
      · simp only [utils.traced, hfn]
        refine le_trans (ih _ _ _ _) ?_
        simp [utils.tracedSleep, utils.invocations, List.count_append, List.count_cons]
        omega
    · simp only [hi, if_false]
      omega

/-- The first 34 values of `wait` are the powers of two, in seconds. -/
theorem waitAfter_eq (k : Nat) (hk : k ≤ 33) : utils.waitAfter k = 2 ^ k * 1000000000 := by
  induction k with
  | zero => rfl
  | succ k ih =>
    have hb : (2 : Int) ^ k ≤ 2 ^ 32 := pow_le_pow_right₀ (by norm_num) (by omega)
    have hp : (0 : Int) < 2 ^ k := by positivity
    unfold utils.waitAfter
    rw [ih (by omega), pow_succ]
    generalize (2 : Int) ^ k = x at hb hp
    unfold wrapInt64
    norm_num at hb ⊢
    omega

/-- The sum of the first `f` powers of two, in seconds. -/
theorem sum_waits (f : Nat) :
    ((List.range f).map (fun k => (2 : Int) ^ k * 1000000000)).sum
      = (2 ^ f - 1) * 1000000000 := by
  induction f with
  | zero => rfl
  | succ f ih =>
    rw [List.range_succ, List.map_append, List.sum_append, ih]
    simp only [List.map_cons, List.map_nil, List.sum_cons, List.sum_nil, pow_succ]
    ring

/-- C22: `DoWithRetries`, for every `maxRetries`, action `fn`, `sleep` and environment.
If `maxRetries ≤ 0` the result is `(0, nil)` and the environment is untouched, so `fn` is
not invoked.  If the invocation number `k < maxRetries` (counted from 0) is the first to
succeed, the result is `(k, nil)`, the environment is the one that invocation leaves, and
`fn` has been invoked `k + 1` times, never after the success.  If all `maxRetries ≥ 1`
invocations fail, the result is `(maxRetries, the error of the last invocation)` after
`maxRetries` invocations.  In every case `fn` is invoked at most `max(maxRetries, 0)`
times, and the loop ends by its own condition: a larger bound on its rounds changes
nothing. -/
theorem C22_do_with_retries {ε ω : Type} (maxRetries : Int) (fn : ω → Option ε × ω)
    (sleep : Int → ω → ω) (w : ω) :
    (maxRetries ≤ 0 →
      utils.DoWithRetries maxRetries fn sleep w = ((0, none), w) ∧
      (utils.DoWithRetries maxRetries (utils.traced fn) (utils.tracedSleep sleep)
        (w, [])).2.2 = []) ∧
    (∀ k : Nat, (k : Int) < maxRetries →
      (∀ j, j < k → (fn (utils.attemptWorld fn sleep j w)).1 ≠ none) →
      (fn (utils.attemptWorld fn sleep k w)).1 = none →
      utils.DoWithRetries maxRetries fn sleep w
        = (((k : Int), none), (fn (utils.attemptWorld fn sleep k w)).2) ∧
      utils.invocations
        (utils.DoWithRetries maxRetries (utils.traced fn) (utils.tracedSleep sleep)
          (w, [])).2.2 = k + 1) ∧
    (∀ n : Nat, maxRetries = ((n + 1 : Nat) : Int) →
      (∀ j, j ≤ n → (fn (utils.attemptWorld fn sleep j w)).1 ≠ none) →
      utils.DoWithRetries maxRetries fn sleep w
        = ((maxRetries, (fn (utils.attemptWorld fn sleep n w)).1),
            utils.attemptWorld fn sleep (n + 1) w) ∧
      utils.invocations
        (utils.DoWithRetries maxRetries (utils.traced fn) (utils.tracedSleep sleep)
          (w, [])).2.2 = n + 1) ∧
    utils.invocations
        (utils.DoWithRetries maxRetries (utils.traced fn) (utils.tracedSleep sleep)
          (w, [])).2.2 ≤ maxRetries.toNat ∧
    (∀ extra : Nat,
      utils.DoWithRetries.loop maxRetries fn sleep (maxRetries.toNat + extra) 0
          (1 * utils.Second) none w
        = utils.DoWithRetries maxRetries fn sleep w) := by
  refine ⟨?_, ?_, ?_, ?_, ?_⟩
  · intro h
    exact ⟨doWithRetries_nonpos _ _ _ _ h, by rw [doWithRetries_nonpos _ _ _ _ h]⟩
  · intro k hk hfail hok
    refine ⟨doWithRetries_success _ _ _ _ k hk hfail hok, ?_⟩
    rw [doWithRetries_success maxRetries (utils.traced fn) (utils.tracedSleep sleep) (w, []) k
      hk
      (fun j hj => by
        rw [attemptWorld_traced]
        exact hfail j hj)
      (by
        rw [attemptWorld_traced]
        exact hok)]
    rw [attemptWorld_traced]
    simp only [utils.traced, List.nil_append, utils.invocations, List.count_append]
    have := invocations_failureTrace k
    unfold utils.invocations at this
    rw [this]
    rfl
  · intro n hn hfail
    subst hn
    refine ⟨doWithRetries_exhausted _ _ _ n hfail, ?_⟩
    rw [doWithRetries_exhausted (utils.traced fn) (utils.tracedSleep sleep) (w, []) n
      (fun j hj => by
        rw [attemptWorld_traced]
        exact hfail j hj)]
    simp only [attemptWorld_traced, List.nil_append]
    exact invocations_failureTrace (n + 1)
  · have := loop_invocations maxRetries fn sleep maxRetries.toNat 0 (1 * utils.Second) none
      (w, [])
    simpa [utils.invocations] using this
  · intro extra
    exact loop_fuel _ _ _ _ _ _ _ _ _ (by omega)

/-- C22 for an action that fails twice and then succeeds, with up to five retries: the
result is `(2, nil)` after three invocations; with two retries both invocations fail and
the result is `(2, the error)`; with none the action is not invoked. -/
theorem C22_do_with_retries_witness :
    utils.DoWithRetries 5 (Samples.failsFirst 2) Samples.noSleep 0 = ((2, none), 3) ∧
    utils.DoWithRetries 2 (Samples.failsFirst 2) Samples.noSleep 0
      = ((2, some "unavailable"), 2) ∧
    utils.DoWithRetries (-1) (Samples.failsFirst 2) Samples.noSleep 0 = ((0, none), 0) :=
  ⟨((C22_do_with_retries 5 (Samples.failsFirst 2) Samples.noSleep 0).2.1 2 (by decide)
      (fun j hj => by
        have hj2 : j = 0 ∨ j = 1 := by omega
        rcases hj2 with h | h <;> subst h <;> decide)
      (by decide)).1,
   ((C22_do_with_retries 2 (Samples.failsFirst 2) Samples.noSleep 0).2.2.1 1 (by decide)
      (fun j hj => by
        have hj2 : j = 0 ∨ j = 1 := by omega
        rcases hj2 with h | h <;> subst h <;> decide)).1,
   ((C22_do_with_retries (-1) (Samples.failsFirst 2) Samples.noSleep 0).1 (by decide)).1⟩

set_option maxRecDepth 100000 in
/-- C23, as stated, fails: with 35 retries of an action that always fails, the wait after
the 35th failed invocation is not `2^34` seconds: the doubled `time.Duration`, an `int64`
of nanoseconds, has wrapped around to a negative value. -/
theorem C23_counterexample :
    (utils.waits
        (utils.DoWithRetries (ε := String) 35 (utils.traced (fun w : Unit => (some "down", w)))
          (utils.tracedSleep (fun _ w => w)) ((), [])).2.2).getLast?
      = some (-1266874889709551616) ∧
    (-1266874889709551616 : Int) ≠ 2 ^ 34 * 1000000000 := by
  refine ⟨?_, by decide⟩
  decide

/-- C23, amended: `DoWithRetries` waits with exponential backoff.  The events of a run
are: nothing when `maxRetries ≤ 0`; when the invocation number `k` is the first to
succeed, `k` times an invocation followed by a wait and then the successful invocation, so
no wait precedes the first invocation or follows the success; when all `maxRetries`
invocations fail, `maxRetries` times an invocation followed by a wait, the last one
included.  The wait after the `n`-th failed invocation lasts `wait` as doubled `n - 1`
times in `int64` nanoseconds, which is exactly `2^(n-1)` seconds for `n ≤ 34`; so
`f ≤ 34` failed invocations wait `2^f - 1` seconds in total. -/
theorem C23_backoff {ε ω : Type} (maxRetries : Int) (fn : ω → Option ε × ω)
    (sleep : Int → ω → ω) (w : ω) :
    (maxRetries ≤ 0 →
      (utils.DoWithRetries maxRetries (utils.traced fn) (utils.tracedSleep sleep)
        (w, [])).2.2 = []) ∧
    (∀ k : Nat, (k : Int) < maxRetries →
      (∀ j, j < k → (fn (utils.attemptWorld fn sleep j w)).1 ≠ none) →
      (fn (utils.attemptWorld fn sleep k w)).1 = none →
      (utils.DoWithRetries maxRetries (utils.traced fn) (utils.tracedSleep sleep)
        (w, [])).2.2 = utils.failureTrace k ++ [utils.Event.invoke] ∧
      utils.waits
        (utils.DoWithRetries maxRetries (utils.traced fn) (utils.tracedSleep sleep)
          (w, [])).2.2 = (List.range k).map utils.waitAfter) ∧
    (∀ n : Nat, maxRetries = ((n + 1 : Nat) : Int) →
      (∀ j, j ≤ n → (fn (utils.attemptWorld fn sleep j w)).1 ≠ none) →
      (utils.DoWithRetries maxRetries (utils.traced fn) (utils.tracedSleep sleep)
        (w, [])).2.2 = utils.failureTrace (n + 1) ∧
      utils.waits
        (utils.DoWithRetries maxRetries (utils.traced fn) (utils.tracedSleep sleep)
          (w, [])).2.2 = (List.range (n + 1)).map utils.waitAfter) ∧
    (∀ k : Nat, utils.failureTrace (k + 1)
      = utils.failureTrace k ++ [utils.Event.invoke, utils.Event.wait (utils.waitAfter k)]) ∧
    (∀ k : Nat, k ≤ 33 → utils.waitAfter k = 2 ^ k * utils.Second) ∧
    (∀ f : Nat, f ≤ 34 →
      ((List.range f).map utils.waitAfter).sum = (2 ^ f - 1) * utils.Second) := by
  refine ⟨?_, ?_, ?_, fun _ => rfl, fun k hk => waitAfter_eq k hk, ?_⟩
  · intro h
    rw [doWithRetries_nonpos _ _ _ _ h]
  · intro k hk hfail hok
    have h := doWithRetries_success maxRetries (utils.traced fn) (utils.tracedSleep sleep)
      (w, []) k hk
      (fun j hj => by
        rw [attemptWorld_traced]
        exact hfail j hj)
      (by
        rw [attemptWorld_traced]
        exact hok)
    simp only [attemptWorld_traced, utils.traced, List.nil_append] at h
    rw [h]
    refine ⟨rfl, ?_⟩
    show utils.waits (utils.failureTrace k ++ [utils.Event.invoke]) = _
    rw [waits_append, waits_failureTrace]
    simp [utils.waits]
  · intro n hn hfail
    subst hn
    have h := doWithRetries_exhausted (utils.traced fn) (utils.tracedSleep sleep) (w, []) n
      (fun j hj => by
        rw [attemptWorld_traced]
        exact hfail j hj)
    simp only [attemptWorld_traced, List.nil_append] at h
    rw [h]
    exact ⟨rfl, waits_failureTrace (n + 1)⟩
  · intro f hf
    have hmap : (List.range f).map utils.waitAfter
        = (List.range f).map (fun k => (2 : Int) ^ k * 1000000000) := by
      apply List.map_congr_left
      intro k hk
      rw [List.mem_range] at hk
      exact waitAfter_eq k (by omega)
    rw [hmap, sum_waits]
    rfl

/-- C23, amended, for an action that fails twice and then succeeds, with up to five
retries: an invocation, a wait of 1 s, an invocation, a wait of 2 s, an invocation. -/
theorem C23_backoff_witness :
    (utils.DoWithRetries 5 (utils.traced (Samples.failsFirst 2))
        (utils.tracedSleep Samples.noSleep) (0, [])).2.2
      = [utils.Event.invoke, utils.Event.wait 1000000000, utils.Event.invoke,
          utils.Event.wait 2000000000, utils.Event.invoke] ∧
    utils.waitAfter 33 = 2 ^ 33 * utils.Second :=
  ⟨((C23_backoff 5 (Samples.failsFirst 2) Samples.noSleep 0).2.1 2 (by decide)
      (fun j hj => by
        have hj2 : j = 0 ∨ j = 1 := by omega
        rcases hj2 with h | h <;> subst h <;> decide)
      (by decide)).1.trans rfl,
   (C23_backoff 5 (Samples.failsFirst 2) Samples.noSleep 0).2.2.2.2.1 33 (by decide)⟩

/-! ## The StatsD counter value -/

/-- Truncation leaves an integer alone. -/
theorem truncate_intCast (n : Int) : truncate (n : ℚ) = n := by
  unfold truncate
  split <;> simp

/-- Truncation moves toward zero by less than one. -/
theorem truncate_bounds (x : ℚ) :
    (0 ≤ x → (truncate x : ℚ) ≤ x ∧ x < truncate x + 1) ∧
    (x < 0 → x ≤ truncate x ∧ (truncate x : ℚ) < x + 1) := by
  constructor
  · intro h
    unfold truncate
    rw [if_pos h]
    exact ⟨Int.floor_le x, Int.lt_floor_add_one x⟩
  · intro h
    unfold truncate
    rw [if_neg (not_le.2 h)]
    exact ⟨Int.le_ceil x, Int.ceil_lt_add_one x⟩

/-- The conversion `int64(x)` is the truncation of `x` when the truncation is an `int64`. -/
theorem int64OfFloat_inRange (overflowResult : ℚ → Int) (x : ℚ) (h0 : -2 ^ 63 ≤ truncate x)
    (h1 : truncate x < 2 ^ 63) : int64OfFloat overflowResult x = truncate x := by
  unfold int64OfFloat
  rw [if_pos ⟨h0, h1⟩]

/-- The conversion `int64(x)` is an `int64`, whatever the implementation does. -/
theorem int64OfFloat_range (overflowResult : ℚ → Int) (x : ℚ) :
    -2 ^ 63 ≤ int64OfFloat overflowResult x ∧ int64OfFloat overflowResult x < 2 ^ 63 := by
  unfold int64OfFloat
  split
  · assumption
  · unfold wrapInt64
    omega

/-- The counter in round-to-nearest arithmetic: the constants 0 and 1 of the comparison are
`float64` values, and the quotient is rounded. -/
theorem counterValue_ieee (overflowResult : ℚ → Int) (s : protocol.statsDMetric ℚ) :
    s.counterValue (Float64.ieeeMath overflowResult) =
      int64OfFloat overflowResult
        (if 0 < s.sampleRate ∧ s.sampleRate < 1 then
          Float64.nearest (s.asFloat / s.sampleRate)
        else s.asFloat) := by
  have h0 : (Float64.ieeeMath overflowResult).const 0 = 0 := Float64.nearest_zero
  have h1 : (Float64.ieeeMath overflowResult).const 1 = 1 := by
    have h := Float64.nearest_natCast 1 (by norm_num)
    simpa using h
  unfold protocol.statsDMetric.counterValue
  rw [h0, h1]
  by_cases hr : 0 < s.sampleRate ∧ s.sampleRate < 1
  · rw [if_pos hr]
    have hb : ((Float64.ieeeMath overflowResult).lt 0 s.sampleRate &&
        (Float64.ieeeMath overflowResult).lt s.sampleRate 1) = true := by
      simp [Float64.ieeeMath, hr.1, hr.2]
    simp only [hb, if_true]
    rfl
  · rw [if_neg hr]
    have hb : ((Float64.ieeeMath overflowResult).lt 0 s.sampleRate &&
        (Float64.ieeeMath overflowResult).lt s.sampleRate 1) = false := by
      simp only [Float64.ieeeMath, Bool.and_eq_false_iff, decide_eq_false_iff_not]
      tauto
    simp only [hb]
    rfl

/-- The rate `0.1` is the `float64` nearest to 1/10, and the `float64` quotient of 1 by it
is 10. -/
theorem nearest_tenth :
    Float64.nearest ((1 : ℚ) / 10) = 3602879701896397 / 36028797018963968 ∧
    Float64.nearest ((1 : ℚ) / (3602879701896397 / 36028797018963968)) = 10 := by
  constructor
  · rw [Float64.nearest_eval (e := -4) (m := 7205759403792794) (by norm_num [abs_of_pos])
      (by norm_num [abs_of_pos]) (by norm_num)
      (Float64.rhe_of_gt_half (z := 7205759403792793) (by norm_num) (by norm_num))]
    norm_num
  · rw [Float64.nearest_eval (e := 3) (m := 5629499534213120) (by norm_num [abs_of_pos])
      (by norm_num [abs_of_pos]) (by norm_num)
      (Float64.rhe_of_gt_half (z := 5629499534213119) (by norm_num) (by norm_num))]
    norm_num

/-- The rate `1.0 / 75` is the `float64` nearest to 1/75, and the `float64` quotient of 3 by
it is `225 - 2 ^ (-45)`. -/
theorem nearest_seventyFifth :
    Float64.nearest ((1 : ℚ) / 75) = 7686143364045647 / 576460752303423488 ∧
    Float64.nearest ((3 : ℚ) / (7686143364045647 / 576460752303423488))
      = 225 - 1 / 2 ^ 45 := by
  constructor
  · rw [Float64.nearest_eval (e := -7) (m := 7686143364045647) (by norm_num [abs_of_pos])
      (by norm_num [abs_of_pos]) (by norm_num)
      (Float64.rhe_of_gt_half (z := 7686143364045646) (by norm_num) (by norm_num))]
    norm_num
  · rw [Float64.nearest_eval (e := 7) (m := 7916483719987199) (by norm_num [abs_of_pos])
      (by norm_num [abs_of_pos]) (by norm_num)
      (Float64.rhe_of_lt_half (z := 7916483719987199) (by norm_num) (by norm_num))]
    norm_num

/-- The counter of the value 3 at the rate `1.0 / 75` is 224: the `float64` quotient is one
unit in the last place below 225.  The comment in `counterValue` recommends rates that are
reciprocals of integers as the ones without rounding. -/
theorem counterValue_seventyFifth (overflowResult : ℚ → Int) :
    Samples.seventyFifthCounter.counterValue (Float64.ieeeMath overflowResult) = 224 := by
  rw [counterValue_ieee, if_pos (by norm_num [Samples.seventyFifthCounter])]
  have hq : Float64.nearest
      (Samples.seventyFifthCounter.asFloat / Samples.seventyFifthCounter.sampleRate)
      = 225 - 1 / 2 ^ 45 := nearest_seventyFifth.2
  rw [hq]
  have ht : truncate ((225 : ℚ) - 1 / 2 ^ 45) = 224 := by
    unfold truncate
    rw [if_pos (by norm_num), Int.floor_eq_iff]
    norm_num
  rw [int64OfFloat_inRange _ _ (by rw [ht]; decide) (by rw [ht]; decide), ht]

/-- C24, as stated, fails at the counter with the value 1 and the sample rate `0.1`, the
`float64` nearest to 1/10: the quotient of the two values is below 10 and truncates to 9,
while the counter is 10, for the division is one of `float64` and rounds to 10.  It also
fails at the counter with the value `2 ^ 63` and the sample rate 1: the value truncated
toward zero is `2 ^ 63`, which is no `int64`; the counter is `-2 ^ 63` on an
implementation that answers with the integer indefinite value, and differs from `2 ^ 63`
on every implementation. -/
theorem C24_counterexample :
    (0 < Samples.tenthCounter.sampleRate ∧ Samples.tenthCounter.sampleRate < 1) ∧
    Samples.tenthCounter.sampleRate = Float64.nearest (1 / 10) ∧
    truncate (Samples.tenthCounter.asFloat / Samples.tenthCounter.sampleRate) = 9 ∧
    (∀ overflowResult : ℚ → Int,
      Samples.tenthCounter.counterValue (Float64.ieeeMath overflowResult) = 10) ∧
    ¬ (0 < Samples.hugeCounter.sampleRate ∧ Samples.hugeCounter.sampleRate < 1) ∧
    truncate Samples.hugeCounter.asFloat = 2 ^ 63 ∧
    Samples.hugeCounter.counterValue (Float64.ieeeMath Samples.integerIndefinite)
      = -2 ^ 63 ∧
    ∀ overflowResult : ℚ → Int,
      Samples.hugeCounter.counterValue (Float64.ieeeMath overflowResult)
        ≠ truncate Samples.hugeCounter.asFloat := by
  have hrate : 0 < Samples.tenthCounter.sampleRate ∧ Samples.tenthCounter.sampleRate < 1 := by
    norm_num [Samples.tenthCounter]
  have ht : truncate Samples.hugeCounter.asFloat = 2 ^ 63 := by
    have h := truncate_intCast 9223372036854775808
    simpa [Samples.hugeCounter] using h
  have hr : ¬ (0 < Samples.hugeCounter.sampleRate ∧ Samples.hugeCounter.sampleRate < 1) := by
    simp [Samples.hugeCounter]
  refine ⟨hrate, nearest_tenth.1.symm, ?_, ?_, hr, ht, ?_, ?_⟩
  · unfold truncate
    rw [if_pos (by norm_num [Samples.tenthCounter]), Int.floor_eq_iff]
    norm_num [Samples.tenthCounter]
  · intro overflowResult
    rw [counterValue_ieee, if_pos hrate]
    have hq : Float64.nearest
        (Samples.tenthCounter.asFloat / Samples.tenthCounter.sampleRate) = ((10 : Int) : ℚ) := by
      have h := nearest_tenth.2
      simpa [Samples.tenthCounter] using h
    rw [hq, int64OfFloat_inRange _ _ (by rw [truncate_intCast]; decide)
      (by rw [truncate_intCast]; decide), truncate_intCast]
  · rw [counterValue_ieee, if_neg hr]
    unfold int64OfFloat
    rw [ht]
    simp [Samples.integerIndefinite, wrapInt64]
  · intro overflowResult h
    rw [counterValue_ieee, if_neg hr] at h
    have hlt := (int64OfFloat_range overflowResult Samples.hugeCounter.asFloat).2
    rw [h, ht] at hlt
    exact absurd hlt (by decide)

/-- C24 (amended): `counterValue` in round-to-nearest `float64` arithmetic, for every metric
with the finite value `x` and the finite sample rate `r`, on every implementation of the
out-of-range conversion: when `0 < r < 1` the counter is the `float64` quotient of `x` by
`r`, which is the quotient rounded to the nearest `float64`, truncated toward zero,
provided the truncated value is an `int64`; when `r <= 0` or `r >= 1` the counter is `x`
truncated toward zero, provided that is an `int64`; and when `0 < r < 1` and the quotient
of `x` by `r` is an integer `n` of absolute value at most `2^53`, the counter is exactly
`n`. -/
theorem C24_counter_value (overflowResult : ℚ → Int) (s : protocol.statsDMetric ℚ) :
    (0 < s.sampleRate ∧ s.sampleRate < 1 →
      -2 ^ 63 ≤ truncate (Float64.nearest (s.asFloat / s.sampleRate)) →
      truncate (Float64.nearest (s.asFloat / s.sampleRate)) < 2 ^ 63 →
      s.counterValue (Float64.ieeeMath overflowResult)
        = truncate (Float64.nearest (s.asFloat / s.sampleRate))) ∧
    (¬ (0 < s.sampleRate ∧ s.sampleRate < 1) →
      -2 ^ 63 ≤ truncate s.asFloat → truncate s.asFloat < 2 ^ 63 →
      s.counterValue (Float64.ieeeMath overflowResult) = truncate s.asFloat) ∧
    (∀ n : Int, 0 < s.sampleRate ∧ s.sampleRate < 1 → s.asFloat / s.sampleRate = n →
      |n| ≤ 2 ^ 53 → s.counterValue (Float64.ieeeMath overflowResult) = n) := by
  have h1 : 0 < s.sampleRate ∧ s.sampleRate < 1 →
      -2 ^ 63 ≤ truncate (Float64.nearest (s.asFloat / s.sampleRate)) →
      truncate (Float64.nearest (s.asFloat / s.sampleRate)) < 2 ^ 63 →
      s.counterValue (Float64.ieeeMath overflowResult)
        = truncate (Float64.nearest (s.asFloat / s.sampleRate)) := by
    intro hr h0 h1
    rw [counterValue_ieee, if_pos hr]
    exact int64OfFloat_inRange overflowResult _ h0 h1
  refine ⟨h1, ?_, ?_⟩
  · intro hr h0 h1
    rw [counterValue_ieee, if_neg hr]
    exact int64OfFloat_inRange overflowResult _ h0 h1
  · intro n hr hq hn
    have h := h1 hr
    rw [hq, Float64.nearest_intCast n hn, truncate_intCast] at h
    have hb := abs_le.1 hn
    exact h (by linarith [hb.1]) (by linarith [hb.2])

/-- C24 (amended) at the counter with the value 1 and the rate `0.1`, which is 10, and at
the counter with the value 3 and the rate 1/4, which is 12. -/
theorem C24_counter_value_witness :
    Samples.tenthCounter.counterValue (Float64.ieeeMath Samples.integerIndefinite) = 10 ∧
    Samples.quarterCounter.counterValue (Float64.ieeeMath Samples.integerIndefinite) = 12 := by
  have hq : Float64.nearest
      (Samples.tenthCounter.asFloat / Samples.tenthCounter.sampleRate) = ((10 : Int) : ℚ) := by
    have h := nearest_tenth.2
    simpa [Samples.tenthCounter] using h
  have h1 := (C24_counter_value Samples.integerIndefinite Samples.tenthCounter).1
    (by norm_num [Samples.tenthCounter])
  rw [hq, truncate_intCast] at h1
  exact ⟨h1 (by decide) (by decide),
    (C24_counter_value Samples.integerIndefinite Samples.quarterCounter).2.2 12
      (by norm_num [Samples.quarterCounter]) (by norm_num [Samples.quarterCounter])
      (by norm_num)⟩

/-! ## Swaps and the insertion sort of points and weights -/

/-- Writing to the same index of two lists is writing to the list of their pairs. -/
theorem zip_set {α β : Type} (l₁ : List α) (l₂ : List β) (i : Nat) (a : α) (b : β) :
    (l₁.set i a).zip (l₂.set i b) = (l₁.zip l₂).set i (a, b) := by
  induction l₁ generalizing l₂ i with
  | nil => simp
  | cons x xs ih =>
    cases l₂ with
    | nil => simp
    | cons y ys =>
      cases i with
      | zero => simp
      | succ i => simp [ih]

/-- Exchanging two entries of a list keeps the number of occurrences of every element. -/
theorem exchange_count {α : Type} [DecidableEq α] (l : List α) (i j : Nat) (a b : α)
    (hi : l[i]? = some a) (hj : l[j]? = some b) (x : α) :
    ((l.set i b).set j a).count x = l.count x := by
  obtain ⟨hil, hia⟩ := List.getElem?_eq_some.1 hi
  obtain ⟨hjl, hjb⟩ := List.getElem?_eq_some.1 hj
  have hjl2 : j < (l.set i b).length := by simpa using hjl
  have hget : (l.set i b)[j] = b := by
    rw [List.getElem_set]
    split
    · rfl
    · exact hjb
  rw [List.count_set _ _ _ _ hjl2, List.count_set _ _ _ _ hil, hget, hia]
  have hle := List.boole_getElem_le_countP (fun y => y == x) l i hil
  rw [hia] at hle
  have hc : l.count x = l.countP (fun y => y == x) := rfl
  rw [← hc] at hle
  simp only [beq_iff_eq] at hle ⊢
  split_ifs at hle ⊢ <;> omega

/-- Exchanging two entries of a list gives a permutation of it. -/
theorem exchange_perm {α : Type} [DecidableEq α] (l : List α) (i j : Nat) (a b : α)
    (hi : l[i]? = some a) (hj : l[j]? = some b) : ((l.set i b).set j a).Perm l :=
  List.perm_iff_count.2 (exchange_count l i j a b hi hj)

/-- What a `Swap` that does not panic read and wrote. -/
theorem swap_eq_some {α : Type} (d d1 : protocol.dualSorter α) (i j : Nat)
    (h : d.Swap i j = some d1) :
    ∃ vi vj wi wj, d.values[i]? = some vi ∧ d.values[j]? = some vj ∧
      d.weights[i]? = some wi ∧ d.weights[j]? = some wj ∧
      d1 = { values := (d.values.set i vj).set j vi,
             weights := (d.weights.set i wj).set j wi } := by
  unfold protocol.dualSorter.Swap at h
  split at h
  · rename_i vi vj wi wj h1 h2 h3 h4
    exact ⟨vi, vj, wi, wj, h1, h2, h3, h4, (Option.some.inj h).symm⟩
  · exact absurd h (by simp)

/-- A `Swap` keeps the lengths of both slices and permutes the pairs. -/
theorem swap_perm {α : Type} [DecidableEq α] (d d1 : protocol.dualSorter α) (i j : Nat)
    (h : d.Swap i j = some d1) :
    d1.values.length = d.values.length ∧ d1.weights.length = d.weights.length ∧
      d1.pairs.Perm d.pairs := by
  obtain ⟨vi, vj, wi, wj, h1, h2, h3, h4, rfl⟩ := swap_eq_some d d1 i j h
  refine ⟨by simp, by simp, ?_⟩
  unfold protocol.dualSorter.pairs
  simp only [zip_set]
  apply exchange_perm
  · rw [List.getElem?_zip_eq_some]
    exact ⟨h1, h3⟩
  · rw [List.getElem?_zip_eq_some]
    exact ⟨h2, h4⟩

/-- A run of `Swap` calls keeps the lengths of both slices and permutes the pairs. -/
theorem swaps_perm {α : Type} [DecidableEq α] (d d1 : protocol.dualSorter α)
    (swaps : List (Nat × Nat)) (h : d.swaps swaps = some d1) :
    d1.values.length = d.values.length ∧ d1.weights.length = d.weights.length ∧
      d1.pairs.Perm d.pairs := by
  induction swaps generalizing d with
  | nil =>
    simp only [protocol.dualSorter.swaps, Option.some.injEq] at h
    subst h
    exact ⟨rfl, rfl, List.Perm.refl _⟩
  | cons ij rest ih =>
    obtain ⟨i, j⟩ := ij
    unfold protocol.dualSorter.swaps at h
    split at h
    · exact absurd h (by simp)
    · rename_i d2 hd2
      obtain ⟨a1, a2, a3⟩ := swap_perm d d2 i j hd2
      obtain ⟨b1, b2, b3⟩ := ih d2 h
      exact ⟨b1.trans a1, b2.trans a2, b3.trans a3⟩

/-- After a run of `Swap` calls on slices of equal length the values are a permutation of
the values before. -/
theorem swaps_values_perm {α : Type} [DecidableEq α] (d d1 : protocol.dualSorter α)
    (swaps : List (Nat × Nat)) (hlen : d.values.length = d.weights.length)
    (h : d.swaps swaps = some d1) : d1.values.Perm d.values := by
  obtain ⟨h1, h2, h3⟩ := swaps_perm d d1 swaps h
  have e1 : d1.values = d1.pairs.map Prod.fst :=
    (List.map_fst_zip _ _ (by rw [h1, h2, hlen])).symm
  have e : d.values = d.pairs.map Prod.fst := (List.map_fst_zip _ _ (le_of_eq hlen)).symm
  rw [e1, e]
  exact h3.map _

/-- Two neighbours in a list, read by their indices. -/
theorem getElem?_neighbours {γ : Type} (A B : List γ) (x y : γ) (k : Nat)
    (hk : A.length = k) :
    (A ++ y :: x :: B)[k]? = some y ∧ (A ++ y :: x :: B)[k + 1]? = some x := by
  subst hk
  constructor
  · rw [List.getElem?_append_right (le_refl _)]
    simp
  · rw [List.getElem?_append_right (Nat.le_succ _)]
    simp

/-- Two neighbours in a list, written to each other's index. -/
theorem set_neighbours {γ : Type} (A B : List γ) (x y : γ) (k : Nat) (hk : A.length = k) :
    ((A ++ y :: x :: B).set (k + 1) y).set k x = A ++ x :: y :: B := by
  subst hk
  rw [List.set_append_right _ _ (Nat.le_succ _)]
  rw [List.set_append_right _ _ (le_refl _)]
  simp

/-- A sorter with slices of equal length is the sorter of its pairs. -/
theorem ofPairs_pairs {α : Type} (d : protocol.dualSorter α)
    (hlen : d.values.length = d.weights.length) :
    protocol.dualSorter.ofPairs d.pairs = d := by
  cases d with
  | mk values weights =>
    simp only [protocol.dualSorter.ofPairs, protocol.dualSorter.pairs]
    rw [List.map_fst_zip _ _ (le_of_eq hlen), List.map_snd_zip _ _ (le_of_eq hlen.symm)]

/-- The pairs of the sorter of a list of pairs. -/
theorem pairs_ofPairs {α : Type} (pairs : List (α × α)) :
    (protocol.dualSorter.ofPairs pairs).pairs = pairs := by
  induction pairs with
  | nil => rfl
  | cons p ps ih =>
    simp only [protocol.dualSorter.ofPairs, protocol.dualSorter.pairs] at ih ⊢
    simp [ih]

/-- The comparison of two neighbours. -/
theorem less_neighbours {α : Type} (lt : α → α → Bool) (A B : List (α × α)) (x y : α × α) :
    (protocol.dualSorter.ofPairs (A ++ y :: x :: B)).Less lt (A.length + 1) A.length
      = some (lt x.1 y.1) := by
  have h := getElem?_neighbours (A.map Prod.fst) (B.map Prod.fst) x.1 y.1 A.length (by simp)
  simp only [protocol.dualSorter.Less, protocol.dualSorter.ofPairs, List.map_append,
    List.map_cons, h.1, h.2]

/-- The exchange of two neighbours. -/
theorem swap_neighbours {α : Type} (A B : List (α × α)) (x y : α × α) :
    (protocol.dualSorter.ofPairs (A ++ y :: x :: B)).Swap (A.length + 1) A.length
      = some (protocol.dualSorter.ofPairs (A ++ x :: y :: B)) := by
  have h1 := getElem?_neighbours (A.map Prod.fst) (B.map Prod.fst) x.1 y.1 A.length (by simp)
  have h2 := getElem?_neighbours (A.map Prod.snd) (B.map Prod.snd) x.2 y.2 A.length (by simp)
  have e1 := set_neighbours (A.map Prod.fst) (B.map Prod.fst) x.1 y.1 A.length (by simp)
  have e2 := set_neighbours (A.map Prod.snd) (B.map Prod.snd) x.2 y.2 A.length (by simp)
  simp only [protocol.dualSorter.Swap, protocol.dualSorter.ofPairs, List.map_append,
    List.map_cons, h1.1, h1.2, h2.1, h2.2, e1, e2]

/-- The inner loop of the insertion sort on a sorter: the element `x` at the index of the
loop moves to the left past the elements it is less than, and stops behind the first
element it is not less than. -/
theorem inner_dualSorter {α : Type} (lt : α → α → Bool) (rp : List (α × α)) :
    ∀ (x : α × α) (post : List (α × α)),
      ∃ A1 A2 : List (α × α), rp.reverse = A1 ++ A2 ∧
        (∀ y ∈ A2, lt x.1 y.1 = true) ∧
        (A1 = [] ∨ ∃ A0 z, A1 = A0 ++ [z] ∧ lt x.1 z.1 = false) ∧
        sort.insertionSort.inner (protocol.dualSorter.asInterface lt) 0
            (protocol.dualSorter.ofPairs (rp.reverse ++ x :: post)) rp.length
          = some (protocol.dualSorter.ofPairs (A1 ++ x :: (A2 ++ post))) := by
  induction rp with
  | nil =>
    intro x post
    exact ⟨[], [], rfl, by simp, Or.inl rfl, rfl⟩
  | cons y rp ih =>
    intro x post
    have hless := less_neighbours lt rp.reverse post x y
    have hswap := swap_neighbours rp.reverse post x y
    rw [List.length_reverse] at hless hswap
    have hshape : (y :: rp).reverse ++ x :: post = rp.reverse ++ y :: x :: post := by simp
    rw [hshape, List.length_cons, sort.insertionSort.inner, if_pos (Nat.succ_pos _)]
    simp only [protocol.dualSorter.asInterface, hless]
    cases hxy : lt x.1 y.1 with
    | false =>
      exact ⟨rp.reverse ++ [y], [], by simp, by simp, Or.inr ⟨rp.reverse, y, rfl, hxy⟩,
        by simp⟩
    | true =>
      simp only [hswap]
      obtain ⟨A1, A2, h1, h2, h3, h4⟩ := ih x (y :: post)
      refine ⟨A1, A2 ++ [y], by simp [h1], ?_, h3, ?_⟩
      · intro z hz
        rcases List.mem_append.1 hz with hz | hz
        · exact h2 z hz
        · simp at hz
          rw [hz]
          exact hxy
      · simp only [protocol.dualSorter.asInterface] at h4
        rw [h4]
        simp

/-- The outer loop of the insertion sort on a sorter whose first `pre.length` pairs are
`pre`: it returns, the pairs afterwards are a permutation, and they are in order when
`pre` is and the comparison is asymmetric and negatively transitive on the values. -/
theorem outer_dualSorter {α : Type} (lt : α → α → Bool) (rest : List (α × α)) :
    ∀ pre : List (α × α),
      ∃ sorted : List (α × α),
        sort.insertionSort.outer (protocol.dualSorter.asInterface lt) 0 rest.length
            (protocol.dualSorter.ofPairs (pre ++ rest)) pre.length
          = some (protocol.dualSorter.ofPairs sorted) ∧
        sorted.Perm (pre ++ rest) ∧
        ∀ good : α → Prop,
          (∀ a b, good a → good b → lt a b = true → lt b a = false) →
          (∀ a b c, good a → good b → good c → lt a b = false → lt b c = false →
            lt a c = false) →
          (∀ p ∈ pre ++ rest, good p.1) →
          pre.Pairwise (fun a b => lt b.1 a.1 = false) →
          sorted.Pairwise (fun a b => lt b.1 a.1 = false) := by
  induction rest with
  | nil =>
    intro pre
    exact ⟨pre, by simp [sort.insertionSort.outer], by simp, fun _ _ _ _ h => h⟩
  | cons x rest ih =>
    intro pre
    obtain ⟨A1, A2, h1, h2, h3, h4⟩ := inner_dualSorter lt pre.reverse x rest
    rw [List.reverse_reverse] at h1 h4
    rw [List.length_reverse] at h4
    obtain ⟨sorted, k1, k2, k3⟩ := ih (A1 ++ x :: A2)
    have hlen : (A1 ++ x :: A2).length = pre.length + 1 := by
      rw [h1]
      simp
      omega
    have hshape : A1 ++ x :: (A2 ++ rest) = (A1 ++ x :: A2) ++ rest := by simp
    rw [hlen] at k1
    refine ⟨sorted, ?_, ?_, ?_⟩
    · rw [List.length_cons, sort.insertionSort.outer, h4, hshape]
      exact k1
    · refine k2.trans ?_
      rw [h1]
      simp only [List.append_assoc, List.cons_append]
      exact List.Perm.append_left A1 List.perm_middle.symm
    · intro good hasym hnt hgood hpre
      have hg : ∀ p ∈ (A1 ++ x :: A2) ++ rest, good p.1 := by
        intro p hp
        apply hgood p
        rw [h1]
        simp only [List.mem_append, List.mem_cons] at hp ⊢
        tauto
      apply k3 good hasym hnt hg
      rw [h1, List.pairwise_append] at hpre
      obtain ⟨p1, p2, p3⟩ := hpre
      have gx : good x.1 := hgood x (by simp)
      have gA1 : ∀ a ∈ A1, good a.1 := fun a ha => hgood a (by rw [h1]; simp [ha])
      have gA2 : ∀ a ∈ A2, good a.1 := fun a ha => hgood a (by rw [h1]; simp [ha])
      rw [List.pairwise_append]
      refine ⟨p1, ?_, ?_⟩
      · rw [List.pairwise_cons]
        exact ⟨fun b hb => hasym _ _ gx (gA2 b hb) (h2 b hb), p2⟩
      · intro a ha b hb
        rcases List.mem_cons.1 hb with hb | hb
        · rw [hb]
          rcases h3 with h3 | ⟨A0, z, h3, hz⟩
          · rw [h3] at ha
            simp at ha
          · rw [h3] at ha p1 gA1
            have gz : good z.1 := gA1 z (by simp)
            rcases List.mem_append.1 ha with ha0 | ha0
            · have hza : lt z.1 a.1 = false :=
                (List.pairwise_append.1 p1).2.2 a ha0 z (by simp)
              exact hnt _ _ _ gx gz (gA1 a ha) hz hza
            · simp at ha0
              rw [ha0]
              exact hz
        · exact p3 a ha b hb

/-- The insertion sort on a sorter with slices of equal length: it returns, the pairs
afterwards are a permutation of the pairs before, and no value is less than a value before
it when the comparison is asymmetric and negatively transitive on the values. -/
theorem sort_dualSorter {α : Type} (lt : α → α → Bool) (pairs : List (α × α)) :
    ∃ sorted : List (α × α),
      sort.SortData (protocol.dualSorter.asInterface lt) (protocol.dualSorter.ofPairs pairs)
        = some (protocol.dualSorter.ofPairs sorted) ∧
      sorted.Perm pairs ∧
      ∀ good : α → Prop,
        (∀ a b, good a → good b → lt a b = true → lt b a = false) →
        (∀ a b c, good a → good b → good c → lt a b = false → lt b c = false →
          lt a c = false) →
        (∀ p ∈ pairs, good p.1) →
        sorted.Pairwise (fun a b => lt b.1 a.1 = false) := by
  cases pairs with
  | nil => exact ⟨[], rfl, List.Perm.refl _, fun _ _ _ _ => List.Pairwise.nil⟩
  | cons x rest =>
    obtain ⟨sorted, h1, h2, h3⟩ := outer_dualSorter lt rest [x]
    refine ⟨sorted, ?_, h2, fun good hasym hnt hgood =>
      h3 good hasym hnt hgood (List.pairwise_singleton _ _)⟩
    have hl : (protocol.dualSorter.asInterface lt).Len
        (protocol.dualSorter.ofPairs (x :: rest)) = rest.length + 1 := by
      simp [protocol.dualSorter.asInterface, protocol.dualSorter.Len,
        protocol.dualSorter.ofPairs]
    unfold sort.SortData sort.insertionSort
    rw [hl]
    exact h1

/-- The insertion sort on the points and weights of a summary, of equal number: it returns,
the pairs afterwards are a permutation of the pairs before, the slices are still of equal
length, and no value is less than a value before it when the comparison is asymmetric and
negatively transitive on the values. -/
theorem sort_summary {α : Type} (lt : α → α → Bool) (points weights : List α)
    (hlen : points.length = weights.length) :
    ∃ sorted : protocol.dualSorter α,
      sort.SortData (protocol.dualSorter.asInterface lt)
          { values := points, weights := weights } = some sorted ∧
      sorted.pairs.Perm (points.zip weights) ∧
      sorted.values.length = sorted.weights.length ∧
      ∀ good : α → Prop,
        (∀ a b, good a → good b → lt a b = true → lt b a = false) →
        (∀ a b c, good a → good b → good c → lt a b = false → lt b c = false →
          lt a c = false) →
        (∀ a ∈ points, good a) →
        sorted.values.Pairwise (fun a b => lt b a = false) := by
  obtain ⟨L, h1, h2, h3⟩ := sort_dualSorter lt (points.zip weights)
  have hd : protocol.dualSorter.ofPairs (points.zip weights)
      = { values := points, weights := weights } :=
    ofPairs_pairs { values := points, weights := weights } hlen
  rw [hd] at h1
  refine ⟨protocol.dualSorter.ofPairs L, h1, ?_, ?_, ?_⟩
  · rw [pairs_ofPairs]
    exact h2
  · simp [protocol.dualSorter.ofPairs]
  · intro good hasym hnt hgood
    have hp := h3 good hasym hnt (fun p hp => hgood p.1 (List.of_mem_zip hp).1)
    simp only [protocol.dualSorter.ofPairs, List.pairwise_map]
    exact hp

/-! ## The summary metric -/

/-- The first loop of `buildSummaryMetric` on as many weights as points: the count and the
sum are accumulated from the left. -/
theorem totals_eq {F : Type} (fl : Float64Math F) (points weights : List F) (count sum : F)
    (h : weights.length = points.length) :
    protocol.buildSummaryMetric.totals fl points weights count sum =
      some (weights.foldl fl.add count,
        (points.zip weights).foldl (fun s pw => fl.add s (fl.mul pw.1 pw.2)) sum) := by
  induction points generalizing weights count sum with
  | nil =>
    cases weights with
    | nil => simp [protocol.buildSummaryMetric.totals]
    | cons c cs => simp at h
  | cons p ps ih =>
    cases weights with
    | nil => simp at h
    | cons c cs =>
      simp only [List.length_cons, add_left_inj] at h
      rw [protocol.buildSummaryMetric.totals, ih cs _ _ h]
      simp

/-- The label loop on at least as many values as keys. -/
theorem insertLabels_eq (labelKeys labelValues : List String) (attributes : AttributeMap)
    (h : labelKeys.length ≤ labelValues.length) :
    protocol.insertLabels labelKeys labelValues attributes =
      some ((labelKeys.zip labelValues).foldl (fun a kv => a.InsertString kv.1 kv.2)
        attributes) := by
  induction labelKeys generalizing labelValues attributes with
  | nil => simp [protocol.insertLabels]
  | cons k ks ih =>
    cases labelValues with
    | nil => simp at h
    | cons v vs =>
      simp only [List.length_cons, add_le_add_iff_right] at h
      rw [protocol.insertLabels, ih vs _ h]
      simp

/-- The quantile loop when `stat.Quantile` returns for every percentile. -/
theorem quantiles_eq {F : Type} (fl : Float64Math F)
    (Quantile : F → List F → List F → Option F) (points weights : List F)
    (percentiles : List F) (value : F → F)
    (h : ∀ pct ∈ percentiles,
      Quantile (fl.div pct (fl.const 100)) points weights = some (value pct)) :
    protocol.buildSummaryMetric.quantiles fl Quantile points weights percentiles =
      some (percentiles.map
        (fun pct => { quantile := fl.div pct (fl.const 100), value := value pct })) := by
  induction percentiles with
  | nil => simp [protocol.buildSummaryMetric.quantiles]
  | cons pct rest ih =>
    have h1 := h pct (List.mem_cons_self _ _)
    have h2 := ih (fun q hq => h q (List.mem_cons_of_mem _ hq))
    simp [protocol.buildSummaryMetric.quantiles, h1, h2]

/-- The conversion `uint64(x)` is the truncation of `x` when the truncation is a `uint64`. -/
theorem uint64OfFloat_inRange (overflowResult : ℚ → Int) (x : ℚ) (h0 : 0 ≤ truncate x)
    (h1 : truncate x < 2 ^ 64) : uint64OfFloat overflowResult x = (truncate x).toNat := by
  unfold uint64OfFloat
  rw [if_pos ⟨h0, h1⟩]

/-- The conversion `uint64(x)` is a `uint64`, whatever the implementation does. -/
theorem uint64OfFloat_lt (overflowResult : ℚ → Int) (x : ℚ) :
    (uint64OfFloat overflowResult x : Int) < 2 ^ 64 := by
  unfold uint64OfFloat
  split
  · rename_i h
    rw [Int.toNat_of_nonneg h.1]
    exact h.2
  · rw [Int.toNat_of_nonneg (Int.emod_nonneg _ (by decide))]
    exact Int.emod_lt_of_pos _ (by decide)

/-- What `buildSummaryMetric` returns when the labels have their values, the sort leaves
`sorted` and `stat.Quantile` returns for every percentile. -/
theorem buildSummaryMetric_eq {F : Type} (fl : Float64Math F)
    (Quantile : F → List F → List F → Option F) (summary : protocol.summaryMetric F)
    (startTime timeNow : Timestamp) (percentiles : List F) (ilm : List (SummaryMetric F))
    (value : F → F) (sorted : protocol.dualSorter F)
    (hw : summary.weights.length = summary.points.length)
    (hl : summary.labelKeys.length ≤ summary.labelValues.length)
    (hs : sort.SortData (protocol.dualSorter.asInterface fl.lt)
      { values := summary.points, weights := summary.weights } = some sorted)
    (hq : ∀ pct ∈ percentiles,
      Quantile (fl.div pct (fl.const 100)) sorted.values sorted.weights = some (value pct)) :
    protocol.buildSummaryMetric fl Quantile summary startTime timeNow percentiles ilm =
      some (ilm ++ [{ name := summary.name,
                      dataPoints := [{
                        attributes := (summary.labelKeys.zip summary.labelValues).foldl
                          (fun a kv => a.InsertString kv.1 kv.2) [],
                        startTimestamp := startTime,
                        timestamp := timeNow,
                        count := fl.toUInt64 (summary.weights.foldl fl.add (fl.const 0)),
                        sum := (summary.points.zip summary.weights).foldl
                          (fun s pw => fl.add s (fl.mul pw.1 pw.2)) (fl.const 0),
                        quantileValues := percentiles.map
                          (fun pct => { quantile := fl.div pct (fl.const 100),
                                        value := value pct }) }] }],
            sorted) := by
  unfold protocol.buildSummaryMetric
  rw [totals_eq fl _ _ _ _ hw, insertLabels_eq _ _ _ hl]
  simp only [hs, quantiles_eq fl Quantile _ _ percentiles value hq]

/-- The insertion sort of the timings 20 and 10 with the weights 4 and 1. -/
theorem sort_timings (overflowResult : ℚ → Int) :
    sort.SortData (protocol.dualSorter.asInterface (Float64.ieeeMath overflowResult).lt)
        { values := Samples.timings.points, weights := Samples.timings.weights }
      = some { values := [10, 20], weights := [1, 4] } := by
  simp [sort.SortData, sort.insertionSort, sort.insertionSort.outer,
    sort.insertionSort.inner, protocol.dualSorter.asInterface, protocol.dualSorter.Len,
    protocol.dualSorter.Less, protocol.dualSorter.Swap, Float64.ieeeMath, Samples.timings]
  norm_num

/-- The insertion sort of the timings `2 ^ 53`, 1 and `-2 ^ 53`. -/
theorem sort_cancelling (overflowResult : ℚ → Int) :
    sort.SortData (protocol.dualSorter.asInterface (Float64.ieeeMath overflowResult).lt)
        { values := Samples.cancelling.points, weights := Samples.cancelling.weights }
      = some { values := [-9007199254740992, 1, 9007199254740992], weights := [1, 1, 1] } := by
  simp [sort.SortData, sort.insertionSort, sort.insertionSort.outer,
    sort.insertionSort.inner, protocol.dualSorter.asInterface, protocol.dualSorter.Len,
    protocol.dualSorter.Less, protocol.dualSorter.Swap, Float64.ieeeMath, Samples.cancelling]
  norm_num

/-- The insertion sort of the timings `2 ^ 53`, `-2 ^ 53` and 1. -/
theorem sort_cancellingReordered (overflowResult : ℚ → Int) :
    sort.SortData (protocol.dualSorter.asInterface (Float64.ieeeMath overflowResult).lt)
        { values := Samples.cancellingReordered.points,
          weights := Samples.cancellingReordered.weights }
      = some { values := [-9007199254740992, 1, 9007199254740992], weights := [1, 1, 1] } := by
  simp [sort.SortData, sort.insertionSort, sort.insertionSort.outer,
    sort.insertionSort.inner, protocol.dualSorter.asInterface, protocol.dualSorter.Len,
    protocol.dualSorter.Less, protocol.dualSorter.Swap, Float64.ieeeMath,
    Samples.cancellingReordered]
  norm_num

/-- The sum of two integers in round-to-nearest arithmetic, when it is at most `2^53` in
absolute value. -/
theorem ieee_add_int (overflowResult : ℚ → Int) (a b : Int) (h : |a + b| ≤ 2 ^ 53) :
    (Float64.ieeeMath overflowResult).add a b = ((a + b : Int) : ℚ) := by
  show Float64.nearest ((a : ℚ) + b) = _
  rw [← Int.cast_add]
  exact Float64.nearest_intCast _ h

/-- The product of two integers in round-to-nearest arithmetic, when it is at most `2^53`
in absolute value. -/
theorem ieee_mul_int (overflowResult : ℚ → Int) (a b : Int) (h : |a * b| ≤ 2 ^ 53) :
    (Float64.ieeeMath overflowResult).mul a b = ((a * b : Int) : ℚ) := by
  show Float64.nearest ((a : ℚ) * b) = _
  rw [← Int.cast_mul]
  exact Float64.nearest_intCast _ h

/-- The `float64` sum of `2^53` and 1 is `2^53`: the tie goes to the even neighbour. -/
theorem ieee_add_tie (overflowResult : ℚ → Int) :
    (Float64.ieeeMath overflowResult).add 9007199254740992 1 = 9007199254740992 := by
  show Float64.nearest (9007199254740992 + 1) = 9007199254740992
  rw [Float64.nearest_eval (e := 53) (m := 4503599627370496) (by norm_num [abs_of_pos])
    (by norm_num [abs_of_pos]) (by norm_num)
    (Float64.rhe_of_tie_even (z := 4503599627370496) (by norm_num) (by norm_num))]
  norm_num

/-- The `float64` value `2^64`. -/
theorem nearest_two_pow_64 : Float64.nearest 18446744073709551616 = 18446744073709551616 := by
  rw [Float64.nearest_eval (e := 64) (m := 4503599627370496) (by norm_num [abs_of_pos])
    (by norm_num [abs_of_pos]) (by norm_num)
    (Float64.rhe_of_lt_half (z := 4503599627370496) (by norm_num) (by norm_num))]
  norm_num

/-- The constants 0 and 100 and the quotients 10/100, 50/100 and 100/100 in round-to-nearest
arithmetic. -/
theorem ieee_percent (overflowResult : ℚ → Int) :
    (Float64.ieeeMath overflowResult).const 0 = 0 ∧
    (Float64.ieeeMath overflowResult).const 100 = 100 ∧
    (Float64.ieeeMath overflowResult).div 10 100 = 3602879701896397 / 36028797018963968 ∧
    (Float64.ieeeMath overflowResult).div 50 100 = 1 / 2 ∧
    (Float64.ieeeMath overflowResult).div 100 100 = 1 := by
  refine ⟨Float64.nearest_zero, ?_, ?_, ?_, ?_⟩
  · have h := Float64.nearest_natCast 100 (by norm_num)
    simpa using h
  · show Float64.nearest (10 / 100) = _
    have e : (10 : ℚ) / 100 = 1 / 10 := by norm_num
    rw [e]
    exact nearest_tenth.1
  · show Float64.nearest (50 / 100) = _
    rw [Float64.nearest_eval (e := -1) (m := 4503599627370496) (by norm_num [abs_of_pos])
      (by norm_num [abs_of_pos]) (by norm_num)
      (Float64.rhe_of_lt_half (z := 4503599627370496) (by norm_num) (by norm_num))]
    norm_num
  · show Float64.nearest (100 / 100) = _
    have e : (100 : ℚ) / 100 = ((1 : ℕ) : ℚ) := by norm_num
    rw [e, Float64.nearest_natCast 1 (by norm_num)]
    norm_num

/-- C25, as stated, fails in four ways.  The sum depends on the order of the points: for
the timings `2^53`, 1, `-2^53` with the weight 1 each the `float64` sum is 0, for the same
pairs in the order `2^53`, `-2^53`, 1 it is 1, and the weighted sum is 1.  The quantile of
the percentile 10 is the `float64` quotient `10 / 100`, which is not 1/10.  For a summary of
one point whose label has a key and no value `summary.labelValues[0]` is out of range and
the function panics.  For a summary of one point with the weight `2^64` the sum of the
weights truncated toward zero is `2^64`, and the count, a `uint64`, is below it on every
implementation. -/
theorem C25_counterexample :
    (Samples.cancellingReordered.points.zip Samples.cancellingReordered.weights).Perm
      (Samples.cancelling.points.zip Samples.cancelling.weights) ∧
    (∀ overflowResult : ℚ → Int,
      protocol.buildSummaryMetric (Float64.ieeeMath overflowResult) Samples.firstPoint
        Samples.cancelling 5 9 [10] [] =
      some ([{ name := "latency",
               dataPoints := [{ attributes := [], startTimestamp := 5, timestamp := 9,
                                count := 3, sum := 0,
                                quantileValues :=
                                  [{ quantile := 3602879701896397 / 36028797018963968,
                                     value := -9007199254740992 }] }] }],
            { values := [-9007199254740992, 1, 9007199254740992], weights := [1, 1, 1] })) ∧
    (∀ overflowResult : ℚ → Int,
      protocol.buildSummaryMetric (Float64.ieeeMath overflowResult) Samples.firstPoint
        Samples.cancellingReordered 5 9 [10] [] =
      some ([{ name := "latency",
               dataPoints := [{ attributes := [], startTimestamp := 5, timestamp := 9,
                                count := 3, sum := 1,
                                quantileValues :=
                                  [{ quantile := 3602879701896397 / 36028797018963968,
                                     value := -9007199254740992 }] }] }],
            { values := [-9007199254740992, 1, 9007199254740992], weights := [1, 1, 1] })) ∧
    (3602879701896397 / 36028797018963968 : ℚ) ≠ 10 / 100 ∧
    Samples.unlabelled.weights.length = Samples.unlabelled.points.length ∧
    (∀ overflowResult : ℚ → Int,
      protocol.buildSummaryMetric (Float64.ieeeMath overflowResult) Samples.firstPoint
        Samples.unlabelled 5 9 [50] [] = none) ∧
    Samples.heavy.weights.length = Samples.heavy.points.length ∧
    (∀ overflowResult : ℚ → Int,
      truncate (Samples.heavy.weights.foldl (Float64.ieeeMath overflowResult).add
        ((Float64.ieeeMath overflowResult).const 0)) = 2 ^ 64) ∧
    ∀ overflowResult : ℚ → Int, ∃ (count : Nat) (sum : ℚ), (count : Int) < 2 ^ 64 ∧
      protocol.buildSummaryMetric (Float64.ieeeMath overflowResult) Samples.firstPoint
        Samples.heavy 5 9 [] [] =
      some ([{ name := "latency",
               dataPoints := [{ attributes := [], startTimestamp := 5, timestamp := 9,
                                count := count, sum := sum, quantileValues := [] }] }],
            { values := [10], weights := [18446744073709551616] }) := by
  have hcount : ∀ overflowResult : ℚ → Int,
      (Float64.ieeeMath overflowResult).toUInt64
        (([1, 1, 1] : List ℚ).foldl (Float64.ieeeMath overflowResult).add
          ((Float64.ieeeMath overflowResult).const 0)) = 3 := by
    intro o
    have a1 := ieee_add_int o 0 1 (by norm_num)
    have a2 := ieee_add_int o 1 1 (by norm_num)
    have a3 := ieee_add_int o 2 1 (by norm_num)
    norm_num at a1 a2 a3
    simp only [List.foldl, (ieee_percent o).1, a1, a2, a3]
    have h3 : truncate (3 : ℚ) = 3 := by
      have h := truncate_intCast 3
      simpa using h
    show uint64OfFloat o 3 = 3
    rw [uint64OfFloat_inRange o 3 (by rw [h3]; decide) (by rw [h3]; decide), h3]
    rfl
  have hq10 : ∀ overflowResult : ℚ → Int,
      (Float64.ieeeMath overflowResult).div 10 ((Float64.ieeeMath overflowResult).const 100)
        = 3602879701896397 / 36028797018963968 := by
    intro o
    rw [(ieee_percent o).2.1, (ieee_percent o).2.2.1]
  have hheavy : ∀ overflowResult : ℚ → Int,
      Samples.heavy.weights.foldl (Float64.ieeeMath overflowResult).add
        ((Float64.ieeeMath overflowResult).const 0) = 18446744073709551616 := by
    intro o
    simp only [Samples.heavy, List.foldl, (ieee_percent o).1]
    show Float64.nearest (0 + 18446744073709551616) = _
    rw [zero_add]
    exact nearest_two_pow_64
  refine ⟨?_, ?_, ?_, by norm_num, rfl, ?_, rfl, ?_, ?_⟩
  · exact List.Perm.cons _ (List.Perm.swap _ _ _)
  · intro o
    rw [buildSummaryMetric_eq (Float64.ieeeMath o) Samples.firstPoint Samples.cancelling 5 9
      [10] [] (fun _ => -9007199254740992) _ rfl (by decide) (sort_cancelling o)
      (by intro pct _; rfl)]
    have m1 := ieee_mul_int o 9007199254740992 1 (by norm_num)
    have m2 := ieee_mul_int o 1 1 (by norm_num)
    have m3 := ieee_mul_int o (-9007199254740992) 1 (by norm_num)
    have a1 := ieee_add_int o 0 9007199254740992 (by norm_num)
    have a3 := ieee_add_int o 9007199254740992 (-9007199254740992) (by norm_num)
    norm_num at m1 m2 m3 a1 a3
    have hsum : (Samples.cancelling.points.zip Samples.cancelling.weights).foldl
        (fun s pw => (Float64.ieeeMath o).add s ((Float64.ieeeMath o).mul pw.1 pw.2))
        ((Float64.ieeeMath o).const 0) = 0 := by
      simp only [Samples.cancelling, List.zip, List.zipWith, List.foldl, (ieee_percent o).1,
        m1, m2, m3, a1, ieee_add_tie o, a3]
    rw [hsum]
    have hc := hcount o
    simp only [Samples.cancelling] at hc ⊢
    rw [hc]
    simp [hq10 o]
  · intro o
    rw [buildSummaryMetric_eq (Float64.ieeeMath o) Samples.firstPoint
      Samples.cancellingReordered 5 9 [10] [] (fun _ => -9007199254740992) _ rfl (by decide)
      (sort_cancellingReordered o) (by intro pct _; rfl)]
    have m1 := ieee_mul_int o 9007199254740992 1 (by norm_num)
    have m2 := ieee_mul_int o 1 1 (by norm_num)
    have m3 := ieee_mul_int o (-9007199254740992) 1 (by norm_num)
    have a1 := ieee_add_int o 0 9007199254740992 (by norm_num)
    have a2 := ieee_add_int o 0 1 (by norm_num)
    have a3 := ieee_add_int o 9007199254740992 (-9007199254740992) (by norm_num)
    norm_num at m1 m2 m3 a1 a2 a3
    have hsum : (Samples.cancellingReordered.points.zip
        Samples.cancellingReordered.weights).foldl
        (fun s pw => (Float64.ieeeMath o).add s ((Float64.ieeeMath o).mul pw.1 pw.2))
        ((Float64.ieeeMath o).const 0) = 1 := by
      simp only [Samples.cancellingReordered, List.zip, List.zipWith, List.foldl,
        (ieee_percent o).1, m1, m2, m3, a1, a2, a3]
    rw [hsum]
    have hc := hcount o
    simp only [Samples.cancellingReordered] at hc ⊢
    rw [hc]
    simp [hq10 o]
  · intro o
    have h : protocol.insertLabels Samples.unlabelled.labelKeys Samples.unlabelled.labelValues
        [] = none := rfl
    unfold protocol.buildSummaryMetric
    rw [totals_eq (Float64.ieeeMath o) Samples.unlabelled.points Samples.unlabelled.weights
      _ _ rfl, h]
  · intro o
    rw [hheavy o]
    have h := truncate_intCast 18446744073709551616
    simpa using h
  · intro o
    have hs : sort.SortData (protocol.dualSorter.asInterface (Float64.ieeeMath o).lt)
        { values := Samples.heavy.points, weights := Samples.heavy.weights }
        = some { values := [10], weights := [18446744073709551616] } := rfl
    refine ⟨(Float64.ieeeMath o).toUInt64 (Samples.heavy.weights.foldl
        (Float64.ieeeMath o).add ((Float64.ieeeMath o).const 0)),
      (Samples.heavy.points.zip Samples.heavy.weights).foldl
        (fun s pw => (Float64.ieeeMath o).add s ((Float64.ieeeMath o).mul pw.1 pw.2))
        ((Float64.ieeeMath o).const 0),
      uint64OfFloat_lt o _, ?_⟩
    rw [buildSummaryMetric_eq (Float64.ieeeMath o) Samples.firstPoint Samples.heavy 5 9
      [] [] (fun _ => 0) _ rfl (by decide) hs (by intro pct hp; simp at hp)]
    rfl

/-- C25 (amended): `buildSummaryMetric`, for every `float64` arithmetic, every summary with
as many weights as points and at least as many label values as label keys, and every list
of percentiles for each of which `stat.Quantile` returns on the sorted points: the function
returns, having appended one metric with the summary's name and one data point.  The
point's sum is the `float64` sum, accumulated from 0 in the order of the points, of the
`float64` products `points[i] * weights[i]`; its count is the conversion to `uint64` of
the `float64` sum of the weights, accumulated from 0 in that order; its quantile values
are one entry per percentile, in the given order, the entry for the percentile `p` having
the `float64` quotient `p / 100` as quantile and the value of `stat.Quantile` for it.  In
round-to-nearest arithmetic every sum, product and quotient is rounded to the nearest
`float64`, the constants 0 and 100 are exact, and the conversion truncates toward zero
when the truncated value is a `uint64`. -/
theorem C25_build_summary_metric {F : Type} (fl : Float64Math F)
    (Quantile : F → List F → List F → Option F) (summary : protocol.summaryMetric F)
    (startTime timeNow : Timestamp) (percentiles : List F) (ilm : List (SummaryMetric F))
    (value : F → F)
    (hw : summary.weights.length = summary.points.length)
    (hl : summary.labelKeys.length ≤ summary.labelValues.length)
    (hq : ∀ sorted : protocol.dualSorter F,
      sort.SortData (protocol.dualSorter.asInterface fl.lt)
        { values := summary.points, weights := summary.weights } = some sorted →
      ∀ pct ∈ percentiles,
        Quantile (fl.div pct (fl.const 100)) sorted.values sorted.weights
          = some (value pct)) :
    (∃ sorted : protocol.dualSorter F,
      sort.SortData (protocol.dualSorter.asInterface fl.lt)
        { values := summary.points, weights := summary.weights } = some sorted ∧
      sorted.pairs.Perm (summary.points.zip summary.weights) ∧
      protocol.buildSummaryMetric fl Quantile summary startTime timeNow percentiles ilm =
        some (ilm ++ [{ name := summary.name,
                        dataPoints := [{
                          attributes := (summary.labelKeys.zip summary.labelValues).foldl
                            (fun a kv => a.InsertString kv.1 kv.2) [],
                          startTimestamp := startTime,
                          timestamp := timeNow,
                          count := fl.toUInt64 (summary.weights.foldl fl.add (fl.const 0)),
                          sum := (summary.points.zip summary.weights).foldl
                            (fun s pw => fl.add s (fl.mul pw.1 pw.2)) (fl.const 0),
                          quantileValues := percentiles.map
                            (fun pct => { quantile := fl.div pct (fl.const 100),
                                          value := value pct }) }] }],
              sorted)) ∧
    (∀ (overflowResult : ℚ → Int) (a b : ℚ),
      (Float64.ieeeMath overflowResult).add a b = Float64.nearest (a + b) ∧
      (Float64.ieeeMath overflowResult).mul a b = Float64.nearest (a * b) ∧
      (Float64.ieeeMath overflowResult).div a b = Float64.nearest (a / b)) ∧
    (∀ overflowResult : ℚ → Int,
      (Float64.ieeeMath overflowResult).const 0 = 0 ∧
      (Float64.ieeeMath overflowResult).const 100 = 100) ∧
    (∀ (overflowResult : ℚ → Int) (x : ℚ), 0 ≤ truncate x → truncate x < 2 ^ 64 →
      (Float64.ieeeMath overflowResult).toUInt64 x = (truncate x).toNat) := by
  refine ⟨?_, fun _ _ _ => ⟨rfl, rfl, rfl⟩,
    fun o => ⟨(ieee_percent o).1, (ieee_percent o).2.1⟩,
    fun o x h0 h1 => uint64OfFloat_inRange o x h0 h1⟩
  obtain ⟨sorted, hs, hp, _, _⟩ := sort_summary fl.lt summary.points summary.weights hw.symm
  exact ⟨sorted, hs, hp,
    buildSummaryMetric_eq fl Quantile summary startTime timeNow percentiles ilm value sorted
      hw hl hs (hq sorted hs)⟩

/-- C25 (amended) at a summary of the points 20 and 10 with the weights 4 and 1, in
round-to-nearest arithmetic: the sum is 90, the count 5, the percentiles 50 and 100 give
the quantiles 1/2 and 1, and the sort leaves the points 10 and 20 with the weights 1
and 4. -/
theorem C25_build_summary_metric_witness :
    protocol.buildSummaryMetric (Float64.ieeeMath Samples.integerIndefinite)
        Samples.firstPoint Samples.timings 5 9 [50, 100] [] =
      some ([{ name := "latency",
               dataPoints := [{ attributes := [("host", "a")], startTimestamp := 5,
                                timestamp := 9, count := 5, sum := 90,
                                quantileValues := [{ quantile := 1 / 2, value := 10 },
                                                   { quantile := 1, value := 10 }] }] }],
            { values := [10, 20], weights := [1, 4] }) := by
  have hsort := sort_timings Samples.integerIndefinite
  obtain ⟨sorted, hs, _, hb⟩ := (C25_build_summary_metric
    (Float64.ieeeMath Samples.integerIndefinite) Samples.firstPoint Samples.timings 5 9
    [50, 100] [] (fun _ => 10) rfl (by decide)
    (by
      intro sorted hs pct _
      rw [hsort] at hs
      rw [← Option.some.inj hs]
      rfl)).1
  rw [hsort] at hs
  rw [hb, ← Option.some.inj hs]
  have m1 := ieee_mul_int Samples.integerIndefinite 20 4 (by norm_num)
  have m2 := ieee_mul_int Samples.integerIndefinite 10 1 (by norm_num)
  have a1 := ieee_add_int Samples.integerIndefinite 0 80 (by norm_num)
  have a2 := ieee_add_int Samples.integerIndefinite 80 10 (by norm_num)
  have c1 := ieee_add_int Samples.integerIndefinite 0 4 (by norm_num)
  have c2 := ieee_add_int Samples.integerIndefinite 4 1 (by norm_num)
  norm_num at m1 m2 a1 a2 c1 c2
  have hp := ieee_percent Samples.integerIndefinite
  have h5 : truncate (5 : ℚ) = 5 := by
    have h := truncate_intCast 5
    simpa using h
  have hc : (Float64.ieeeMath Samples.integerIndefinite).toUInt64 5 = 5 := by
    show uint64OfFloat Samples.integerIndefinite 5 = 5
    rw [uint64OfFloat_inRange _ 5 (by rw [h5]; decide) (by rw [h5]; decide), h5]
    rfl
  simp only [Samples.timings, List.zip, List.zipWith, List.foldl, List.map, hp.1, hp.2.1,
    hp.2.2.2.1, hp.2.2.2.2, m1, m2, a1, a2, c1, c2, hc, AttributeMap.InsertString]
  simp

/-! ## The sorter of points and weights -/

/-- Two `float64` values other than NaN are in order when the second is not less than the
first. -/
theorem extended_le_of_not_lt (a b : Float64.Extended) (ha : a ≠ .nan) (hb : b ≠ .nan)
    (h : Float64.Extended.lt b a = false) : Float64.Extended.le a b = true := by
  cases a <;> cases b <;>
    simp_all [Float64.Extended.lt, Float64.Extended.le]

/-- NaN is in order with no `float64` value. -/
theorem extended_le_nan (a : Float64.Extended) :
    Float64.Extended.le .nan a = false ∧ Float64.Extended.le a .nan = false := by
  cases a <;> simp [Float64.Extended.le]

/-- On `float64` values other than NaN the comparison `<` is asymmetric. -/
theorem extended_lt_asymm (a b : Float64.Extended) (ha : a ≠ .nan) (hb : b ≠ .nan)
    (h : Float64.Extended.lt a b = true) : Float64.Extended.lt b a = false := by
  cases a <;> cases b <;> simp_all [Float64.Extended.lt]
  exact le_of_lt h

/-- On `float64` values other than NaN the comparison `<` is negatively transitive. -/
theorem extended_lt_negTrans (a b c : Float64.Extended) (ha : a ≠ .nan) (hb : b ≠ .nan)
    (hc : c ≠ .nan) (h1 : Float64.Extended.lt a b = false)
    (h2 : Float64.Extended.lt b c = false) : Float64.Extended.lt a c = false := by
  cases a <;> cases b <;> cases c <;> simp_all [Float64.Extended.lt]
  exact le_trans h2 h1

/-- A list of at least two `float64` values of which one is NaN is not in non-decreasing
order. -/
theorem not_pairwise_le_of_nan (l : List Float64.Extended) (hmem : Float64.Extended.nan ∈ l)
    (hlen : 2 ≤ l.length) : ¬ l.Pairwise (fun a b => Float64.Extended.le a b = true) := by
  intro hp
  obtain ⟨A, B, rfl⟩ := List.append_of_mem hmem
  rw [List.pairwise_append, List.pairwise_cons] at hp
  obtain ⟨_, ⟨hB, _⟩, hA⟩ := hp
  have hAnil : A = [] := by
    cases A with
    | nil => rfl
    | cons a A =>
      have h := hA a (List.mem_cons_self _ _) .nan (List.mem_cons_self _ _)
      rw [(extended_le_nan a).2] at h
      exact absurd h (by decide)
  have hBnil : B = [] := by
    cases B with
    | nil => rfl
    | cons b B =>
      have h := hB b (List.mem_cons_self _ _)
      rw [(extended_le_nan b).1] at h
      exact absurd h (by decide)
  subst hAnil
  subst hBnil
  simp at hlen

/-- What `buildSummaryMetric` returns as the sorted points and weights is what the sort
leaves of the points and weights of the summary. -/
theorem buildSummaryMetric_sorted {F : Type} (fl : Float64Math F)
    (Quantile : F → List F → List F → Option F) (summary : protocol.summaryMetric F)
    (startTime timeNow : Timestamp) (percentiles : List F) (ilm : List (SummaryMetric F))
    (r : List (SummaryMetric F) × protocol.dualSorter F)
    (h : protocol.buildSummaryMetric fl Quantile summary startTime timeNow percentiles ilm
      = some r) :
    sort.SortData (protocol.dualSorter.asInterface fl.lt)
      { values := summary.points, weights := summary.weights } = some r.2 := by
  unfold protocol.buildSummaryMetric at h
  split at h
  · exact absurd h (by simp)
  · split at h
    · exact absurd h (by simp)
    · split at h
      · exact absurd h (by simp)
      · rename_i sorted hs
        split at h
        · exact absurd h (by simp)
        · rw [← Option.some.inj h]
          exact hs

/-- C27, as stated, fails at the values 2, NaN and 1, each with the weight 1: no comparison
of the insertion sort is true, so `sort.Sort` leaves the slices as they are, and the values
are not in non-decreasing order; no run of swaps brings them into it. -/
theorem C27_counterexample :
    Samples.nanTimings.values.length = Samples.nanTimings.weights.length ∧
    sort.SortData (protocol.dualSorter.asInterface Float64.Extended.lt) Samples.nanTimings
      = some Samples.nanTimings ∧
    ¬ Samples.nanTimings.values.Pairwise (fun a b => Float64.Extended.le a b = true) ∧
    ∀ (swaps : List (Nat × Nat)) (d1 : protocol.dualSorter Float64.Extended),
      Samples.nanTimings.swaps swaps = some d1 →
      ¬ d1.values.Pairwise (fun a b => Float64.Extended.le a b = true) := by
  have key : ∀ l : List Float64.Extended, l.Perm Samples.nanTimings.values →
      ¬ l.Pairwise (fun a b => Float64.Extended.le a b = true) := by
    intro l hl
    apply not_pairwise_le_of_nan l
    · exact hl.mem_iff.2 (by simp [Samples.nanTimings])
    · rw [hl.length_eq]
      simp [Samples.nanTimings]
  refine ⟨rfl, ?_, key _ (List.Perm.refl _), ?_⟩
  · simp [sort.SortData, sort.insertionSort, sort.insertionSort.outer,
      sort.insertionSort.inner, protocol.dualSorter.asInterface, protocol.dualSorter.Len,
      protocol.dualSorter.Less, protocol.dualSorter.Swap, Samples.nanTimings,
      Float64.Extended.lt]
  · intro swaps d1 h
    exact key _ (swaps_values_perm Samples.nanTimings d1 swaps rfl h)

/-- C27 (amended): `dualSorter` over a values slice and a weights slice of equal length.
For all indices `i` and `j` below `Len()`, `Swap(i, j)` does not panic, exchanges the
entries at `i` and `j` in both slices, leaves every other entry alone, and the list of
(value, weight) pairs afterwards is a permutation of the list before; so it is after every
run of `Swap` calls.  The insertion sort of `sort.Sort` through `Len`, `Less` and `Swap`
returns, the pairs it leaves are a permutation of the original pairs, and when no value is
NaN the values it leaves are in non-decreasing order.  In `buildSummaryMetric`, on finite
points and as many weights, the points and weights that the function leaves are those that
this sort leaves: a permutation of the original pairs with the points in non-decreasing
order. -/
theorem C27_dual_sorter (d : protocol.dualSorter Float64.Extended)
    (hlen : d.values.length = d.weights.length) :
    (∀ i j : Nat, i < d.Len → j < d.Len →
      ∃ d1, d.Swap i j = some d1 ∧
        d1.values[i]? = d.values[j]? ∧ d1.values[j]? = d.values[i]? ∧
        d1.weights[i]? = d.weights[j]? ∧ d1.weights[j]? = d.weights[i]? ∧
        (∀ k : Nat, k ≠ i → k ≠ j →
          d1.values[k]? = d.values[k]? ∧ d1.weights[k]? = d.weights[k]?) ∧
        d1.pairs.Perm d.pairs) ∧
    (∀ (swaps : List (Nat × Nat)) (d1 : protocol.dualSorter Float64.Extended),
      d.swaps swaps = some d1 → d1.pairs.Perm d.pairs) ∧
    (∃ d1, sort.SortData (protocol.dualSorter.asInterface Float64.Extended.lt) d = some d1 ∧
      d1.pairs.Perm d.pairs ∧
      (Float64.Extended.nan ∉ d.values →
        d1.values.Pairwise (fun a b => Float64.Extended.le a b = true))) ∧
    (∀ (overflowResult : ℚ → Int) (Quantile : ℚ → List ℚ → List ℚ → Option ℚ)
      (summary : protocol.summaryMetric ℚ) (startTime timeNow : Timestamp)
      (percentiles : List ℚ) (ilm : List (SummaryMetric ℚ)),
      summary.weights.length = summary.points.length →
      ∃ sorted : protocol.dualSorter ℚ,
        sort.SortData (protocol.dualSorter.asInterface (Float64.ieeeMath overflowResult).lt)
          { values := summary.points, weights := summary.weights } = some sorted ∧
        sorted.pairs.Perm (summary.points.zip summary.weights) ∧
        sorted.values.Pairwise (fun a b => a ≤ b) ∧
        ∀ r, protocol.buildSummaryMetric (Float64.ieeeMath overflowResult) Quantile summary
            startTime timeNow percentiles ilm = some r → r.2 = sorted) := by
  refine ⟨?_, ?_, ?_, ?_⟩
  · intro i j hi hj
    unfold protocol.dualSorter.Len at hi hj
    have hiw : i < d.weights.length := hlen ▸ hi
    have hjw : j < d.weights.length := hlen ▸ hj
    have hs : d.Swap i j = some
        { values := (d.values.set i d.values[j]).set j d.values[i],
          weights := (d.weights.set i d.weights[j]).set j d.weights[i] } := by
      unfold protocol.dualSorter.Swap
      simp [List.getElem?_eq_getElem, hi, hj, hiw, hjw]
    refine ⟨_, hs, ?_, ?_, ?_, ?_, ?_, (swap_perm d _ i j hs).2.2⟩
    · by_cases hij : i = j
      · subst hij
        simp [List.getElem?_eq_getElem, hi]
      · simp [List.getElem?_set, List.getElem?_eq_getElem, hi, hj, hij, Ne.symm hij]
    · simp [List.getElem?_set, List.getElem?_eq_getElem, hi, hj]
    · by_cases hij : i = j
      · subst hij
        simp [List.getElem?_eq_getElem, hiw]
      · simp [List.getElem?_set, List.getElem?_eq_getElem, hiw, hjw, hij, Ne.symm hij]
    · simp [List.getElem?_set, List.getElem?_eq_getElem, hiw, hjw]
    · intro k hki hkj
      simp [List.getElem?_set, Ne.symm hki, Ne.symm hkj]
  · intro swaps d1 h
    exact (swaps_perm d d1 swaps h).2.2
  · obtain ⟨d1, h1, h2, _, h4⟩ := sort_summary Float64.Extended.lt d.values d.weights hlen
    refine ⟨d1, h1, h2, ?_⟩
    intro hnan
    have hgood : ∀ a ∈ d.values, a ≠ Float64.Extended.nan := fun a ha e => hnan (e ▸ ha)
    have hp := h4 (fun a => a ≠ Float64.Extended.nan) extended_lt_asymm extended_lt_negTrans
      hgood
    have hperm : d1.values.Perm d.values := by
      have e1 : d1.values = d1.pairs.map Prod.fst := by
        unfold protocol.dualSorter.pairs
        rw [List.map_fst_zip _ _ (le_of_eq (by assumption))]
      have e : d.values = d.pairs.map Prod.fst := by
        unfold protocol.dualSorter.pairs
        rw [List.map_fst_zip _ _ (le_of_eq hlen)]
      rw [e1, e]
      exact h2.map _
    refine hp.imp_of_mem ?_
    intro a b ha hb hab
    exact extended_le_of_not_lt a b (hgood a (hperm.mem_iff.1 ha))
      (hgood b (hperm.mem_iff.1 hb)) hab
  · intro o Quantile summary startTime timeNow percentiles ilm hw
    obtain ⟨sorted, h1, h2, _, h4⟩ :=
      sort_summary (Float64.ieeeMath o).lt summary.points summary.weights hw.symm
    refine ⟨sorted, h1, h2, ?_, ?_⟩
    · have hp := h4 (fun _ => True)
        (fun a b _ _ h => by
          have h1 : a < b := of_decide_eq_true h
          exact decide_eq_false (not_lt.2 (le_of_lt h1)))
        (fun a b c _ _ _ h1 h2 => by
          have k1 : ¬ a < b := of_decide_eq_false h1
          have k2 : ¬ b < c := of_decide_eq_false h2
          exact decide_eq_false (not_lt.2 (le_trans (not_lt.1 k2) (not_lt.1 k1))))
        (fun _ _ => trivial)
      refine hp.imp ?_
      intro a b hab
      exact not_lt.1 (of_decide_eq_false hab)
    · intro r hr
      have h := buildSummaryMetric_sorted _ _ _ _ _ _ _ r hr
      rw [h1] at h
      exact (Option.some.inj h).symm

/-- C27 (amended) at the timings 3 and 1 with the weights 10 and 20: the sort returns, what
it leaves is a permutation of the pairs with the values in non-decreasing order, and it is
the timings 1 and 3 with the weights 20 and 10. -/
theorem C27_dual_sorter_witness :
    (∃ d1, sort.SortData (protocol.dualSorter.asInterface Float64.Extended.lt)
        Samples.unsortedTimings = some d1 ∧
      d1.pairs.Perm Samples.unsortedTimings.pairs ∧
      d1.values.Pairwise (fun a b => Float64.Extended.le a b = true)) ∧
    sort.SortData (protocol.dualSorter.asInterface Float64.Extended.lt)
        Samples.unsortedTimings
      = some { values := [.finite 1, .finite 3], weights := [.finite 20, .finite 10] } := by
  obtain ⟨d1, h1, h2, h3⟩ := (C27_dual_sorter Samples.unsortedTimings rfl).2.2.1
  refine ⟨⟨d1, h1, h2, h3 (by simp [Samples.unsortedTimings])⟩, ?_⟩
  simp [sort.SortData, sort.insertionSort, sort.insertionSort.outer,
    sort.insertionSort.inner, protocol.dualSorter.asInterface, protocol.dualSorter.Len,
    protocol.dualSorter.Less, protocol.dualSorter.Swap, Samples.unsortedTimings,
    Float64.Extended.lt]

/-! ## Label values of the Cloud Spanner receiver -/

/-- The strings that `sort.Strings` leaves are in increasing order. -/
theorem sortStrings_sorted (x : List String) :
    (sort.Strings x).Sorted (fun a b => a ≤ b) :=
  List.sorted_insertionSort (fun a b : String => a ≤ b) x

/-- The strings that `sort.Strings` leaves are the strings it was given. -/
theorem sortStrings_perm (x : List String) : (sort.Strings x).Perm x :=
  List.perm_insertionSort (fun a b : String => a ≤ b) x

/-- There is one way to put strings in increasing order. -/
theorem sortStrings_unique (x l : List String) (hp : l.Perm x)
    (hs : l.Sorted (fun a b => a ≤ b)) : l = sort.Strings x :=
  List.eq_of_perm_of_sorted (hp.trans (sortStrings_perm x).symm) hs (sortStrings_sorted x)

/-- C28: `newStringSliceLabelValue`, for every metadata and every holder of a list of
strings: the type assertion succeeds and the label's value is `strings.Join` with the
separator "," of the list that `sort.Strings` leaves; that list is in ascending order, has
the elements of the given list, and is the only such list; the value for the empty list is
the empty string; and a list that is a permutation of the given one yields the same label
value. -/
theorem C28_string_slice_label_value (metadata : googlecloudspannerreceiver.LabelValueMetadata)
    (value : List String) :
    googlecloudspannerreceiver.newStringSliceLabelValue metadata (.stringSlicePtr value) =
      some (.stringSliceLabelValue metadata (strings.Join (sort.Strings value) ",")) ∧
    (sort.Strings value).Sorted (fun a b => a ≤ b) ∧
    (sort.Strings value).Perm value ∧
    (∀ l : List String, l.Perm value → l.Sorted (fun a b => a ≤ b) → l = sort.Strings value) ∧
    googlecloudspannerreceiver.newStringSliceLabelValue metadata (.stringSlicePtr []) =
      some (.stringSliceLabelValue metadata "") ∧
    ∀ other : List String, other.Perm value →
      googlecloudspannerreceiver.newStringSliceLabelValue metadata (.stringSlicePtr other) =
        googlecloudspannerreceiver.newStringSliceLabelValue metadata
          (.stringSlicePtr value) := by
  refine ⟨rfl, sortStrings_sorted value, sortStrings_perm value,
    fun l hp hs => sortStrings_unique value l hp hs, rfl, ?_⟩
  intro other hp
  have h : sort.Strings other = sort.Strings value :=
    sortStrings_unique value _ ((sortStrings_perm other).trans hp) (sortStrings_sorted other)
  simp only [googlecloudspannerreceiver.newStringSliceLabelValue, h]

/-- The strings "b", "a", "c" in increasing order. -/
theorem sortStrings_sample : sort.Strings ["b", "a", "c"] = ["a", "b", "c"] := by
  have h1 : ¬ (("b" : String) ≤ "a") := by rw [String.le_iff_toList_le]; decide
  have h2 : ("a" : String) ≤ "c" := by rw [String.le_iff_toList_le]; decide
  have h3 : ("b" : String) ≤ "c" := by rw [String.le_iff_toList_le]; decide
  simp only [sort.Strings, List.insertionSort, List.orderedInsert, h1, h2, h3, if_true,
    if_false]

/-- C28 at the list "b", "a", "c" of the label "tags": the value is "a,b,c", also for the
list "c", "b", "a". -/
theorem C28_string_slice_label_value_witness :
    googlecloudspannerreceiver.newStringSliceLabelValue
        { name := "tags", columnName := "TAGS", valueType := .StringSliceValueType }
        (.stringSlicePtr ["b", "a", "c"]) =
      some (.stringSliceLabelValue
        { name := "tags", columnName := "TAGS", valueType := .StringSliceValueType }
        "a,b,c") ∧
    googlecloudspannerreceiver.newStringSliceLabelValue
        { name := "tags", columnName := "TAGS", valueType := .StringSliceValueType }
        (.stringSlicePtr ["c", "b", "a"]) =
      googlecloudspannerreceiver.newStringSliceLabelValue
        { name := "tags", columnName := "TAGS", valueType := .StringSliceValueType }
        (.stringSlicePtr ["b", "a", "c"]) := by
  have h := C28_string_slice_label_value
    { name := "tags", columnName := "TAGS", valueType := .StringSliceValueType }
    ["b", "a", "c"]
  refine ⟨?_, h.2.2.2.2.2 ["c", "b", "a"] ?_⟩
  · rw [h.1, sortStrings_sample]
    rfl
  · exact List.Perm.trans (List.Perm.swap "b" "c" ["a"])
      (List.Perm.cons "b" (List.Perm.swap "a" "c" []))

/-- C29: `NewLabelValueMetadata`, for every name, column name and value type: it returns an
error if and only if the value type is none of string, int, bool, string-slice and
byte-slice; otherwise it returns a metadata whose `Name`, `ColumnName` and `ValueType`
return the arguments, and whose `NewLabelValue`, applied to the holder that its
`ValueHolder` returns, passes the type assertion and yields the label value of the value
type with the zero value: "", 0, false, "" and "". -/
theorem C29_new_label_value_metadata (name columnName : String)
    (valueType : googlecloudspannerreceiver.ValueType) :
    ((∃ e, googlecloudspannerreceiver.NewLabelValueMetadata name columnName valueType =
        .error e) ↔
      valueType ∉ [googlecloudspannerreceiver.ValueType.StringValueType,
        googlecloudspannerreceiver.ValueType.IntValueType,
        googlecloudspannerreceiver.ValueType.BoolValueType,
        googlecloudspannerreceiver.ValueType.StringSliceValueType,
        googlecloudspannerreceiver.ValueType.ByteSliceValueType]) ∧
    (valueType ∈ [googlecloudspannerreceiver.ValueType.StringValueType,
        googlecloudspannerreceiver.ValueType.IntValueType,
        googlecloudspannerreceiver.ValueType.BoolValueType,
        googlecloudspannerreceiver.ValueType.StringSliceValueType,
        googlecloudspannerreceiver.ValueType.ByteSliceValueType] →
      ∃ m, googlecloudspannerreceiver.NewLabelValueMetadata name columnName valueType =
          .ok m ∧
        m.Name = name ∧ m.ColumnName = columnName ∧ m.ValueType = valueType ∧
        (valueType = .StringValueType → m.NewLabelValue m.ValueHolder =
          some (.stringLabelValue
            { name := name, columnName := columnName, valueType := valueType } "")) ∧
        (valueType = .IntValueType → m.NewLabelValue m.ValueHolder =
          some (.int64LabelValue
            { name := name, columnName := columnName, valueType := valueType } 0)) ∧
        (valueType = .BoolValueType → m.NewLabelValue m.ValueHolder =
          some (.boolLabelValue
            { name := name, columnName := columnName, valueType := valueType } false)) ∧
        (valueType = .StringSliceValueType → m.NewLabelValue m.ValueHolder =
          some (.stringSliceLabelValue
            { name := name, columnName := columnName, valueType := valueType } "")) ∧
        (valueType = .ByteSliceValueType → m.NewLabelValue m.ValueHolder =
          some (.byteSliceLabelValue
            { name := name, columnName := columnName, valueType := valueType } ""))) := by
  cases valueType with
  | other raw =>
    constructor
    · constructor
      · intro _
        simp
      · intro _
        exact ⟨_, rfl⟩
    · intro h
      simp at h
  | StringValueType =>
    constructor
    · constructor
      · rintro ⟨e, he⟩
        simp [googlecloudspannerreceiver.NewLabelValueMetadata] at he
      · intro h
        simp at h
    · intro _
      refine ⟨_, rfl, rfl, rfl, rfl, ?_, ?_, ?_, ?_, ?_⟩ <;> intro h <;>
        first | rfl | exact absurd h (by decide)
  | IntValueType =>
    constructor
    · constructor
      · rintro ⟨e, he⟩
        simp [googlecloudspannerreceiver.NewLabelValueMetadata] at he
      · intro h
        simp at h
    · intro _
      refine ⟨_, rfl, rfl, rfl, rfl, ?_, ?_, ?_, ?_, ?_⟩ <;> intro h <;>
        first | rfl | exact absurd h (by decide)
  | BoolValueType =>
    constructor
    · constructor
      · rintro ⟨e, he⟩
        simp [googlecloudspannerreceiver.NewLabelValueMetadata] at he
      · intro h
        simp at h
    · intro _
      refine ⟨_, rfl, rfl, rfl, rfl, ?_, ?_, ?_, ?_, ?_⟩ <;> intro h <;>
        first | rfl | exact absurd h (by decide)
  | StringSliceValueType =>
    constructor
    · constructor
      · rintro ⟨e, he⟩
        simp [googlecloudspannerreceiver.NewLabelValueMetadata] at he
      · intro h
        simp at h
    · intro _
      refine ⟨_, rfl, rfl, rfl, rfl, ?_, ?_, ?_, ?_, ?_⟩ <;> intro h <;>
        first | rfl | exact absurd h (by decide)
  | ByteSliceValueType =>
    constructor
    · constructor
      · rintro ⟨e, he⟩
        simp [googlecloudspannerreceiver.NewLabelValueMetadata] at he
      · intro h
        simp at h
    · intro _
      refine ⟨_, rfl, rfl, rfl, rfl, ?_, ?_, ?_, ?_, ?_⟩ <;> intro h <;>
        first | rfl | exact absurd h (by decide)

/-- C29 at the label "tags" of the string-slice type, whose holder gives the label value
"", and at the label "rate" of a value type outside of the five, which is an error. -/
theorem C29_new_label_value_metadata_witness :
    (∃ e, googlecloudspannerreceiver.NewLabelValueMetadata "rate" "RATE" (.other "float") =
      .error e) ∧
    ∃ m, googlecloudspannerreceiver.NewLabelValueMetadata "tags" "TAGS"
        .StringSliceValueType = .ok m ∧
      m.NewLabelValue m.ValueHolder =
        some (.stringSliceLabelValue
          { name := "tags", columnName := "TAGS", valueType := .StringSliceValueType } "") :=
  ⟨(C29_new_label_value_metadata "rate" "RATE" (.other "float")).1.2 (by simp),
    match (C29_new_label_value_metadata "tags" "TAGS" .StringSliceValueType).2 (by simp) with
    | ⟨m, h1, _, _, _, _, _, _, h5, _⟩ => ⟨m, h1, h5 rfl⟩⟩

end HostMetrics
